import Mathlib

/-!
# GlusterFS logging core: `libglusterfs/src/logging.c`

A shallow embedding of the logging facility of GlusterFS.

* C strings are lists of byte values (`Bytes`); a `char *` that may be `NULL`
  is an `Option Bytes`.
* `gf_loglevel_t` is the C enumeration `GF_LOG_NONE = 0 .. GF_LOG_TRACE = 9`;
  levels are compared and decremented as integers in the source, so a level
  is a `Nat` here and the ten enumerators are named constants.
* Effects (syslog submissions, writes to the log file or to stderr, file
  opens and closes) are recorded, in program order, in the `out` trace of a
  `World`; answers of the operating system (clock, `open`, `fopen`,
  `strerror`, the message catalogue, `backtrace`) are read from an `Env`.
* Memory that the code fills byte by byte (the output of `_json_escape`,
  the array `callstr` of `_gf_msg_backtrace`) is an explicit list of bytes;
  `cstr` reads the C string at its start.
* Where the order of two statements leaves no mark on the final state (the
  assignment of the new log file handle and the `fclose` of the old one in
  `gf_log_rotate`), the statements executed are also given as a list in
  program order (`gf_log_rotate_stmts`), whose run is the state passing.
-/

namespace Logging

/-- A C string, one `Nat` per byte. -/
abbrev Bytes := List Nat

/-- The bytes of an ASCII literal. -/
def ascii (s : String) : Bytes := s.data.map Char.toNat

/-! ## Levels, loggers, formats -/

def GF_LOG_NONE : Nat := 0
def GF_LOG_EMERG : Nat := 1
def GF_LOG_ALERT : Nat := 2
def GF_LOG_CRITICAL : Nat := 3
def GF_LOG_ERROR : Nat := 4
def GF_LOG_WARNING : Nat := 5
def GF_LOG_NOTICE : Nat := 6
def GF_LOG_INFO : Nat := 7
def GF_LOG_DEBUG : Nat := 8
def GF_LOG_TRACE : Nat := 9

/-- The table `gf_level_strings` (and the identical local `level_strings`
    tables): eleven entries, index = level. -/
def gf_level_strings : List Bytes :=
  [ascii "", ascii "M", ascii "A", ascii "C", ascii "E", ascii "W",
   ascii "N", ascii "I", ascii "D", ascii "T", ascii ""]

/-- The enumeration `gf_log_logger_t`. -/
inductive gf_log_logger_t where
  | gf_logger_glusterlog
  | gf_logger_syslog
  deriving DecidableEq, Repr

/-- The enumeration `gf_log_format_t`. -/
inductive gf_log_format_t where
  | gf_logformat_traditional
  | gf_logformat_withmsgid
  | gf_logformat_cee
  deriving DecidableEq, Repr

open gf_log_logger_t gf_log_format_t

/-! ## Context and component -/

/-- The fields of `ctx->log` used by logging.c.  `FILE *` values are handle
    numbers, `NULL` is `none`; the `int`/`char` members that the source only
    tests for truth are `Bool`. -/
structure gf_log_handle_t where
  logfile : Option Nat
  gf_log_logfile : Option Nat
  filename : Option Bytes
  loglevel : Nat
  gf_log_syslog : Bool
  sys_log_level : Nat
  gf_log_xl_log_set : Bool
  logrotate : Bool
  logger : gf_log_logger_t
  logformat : gf_log_format_t
  log_control_file_found : Bool
  ident : Option Bytes
  cmdlogfile : Option Nat
  cmd_log_filename : Option Bytes
  deriving DecidableEq, Repr

/-- The fields of `xlator_t` (the calling component, `THIS`) used by
    logging.c: its level override `loglevel`, its `name`, the id of its
    graph (`none` for a `NULL` graph pointer) and whether its `ctx` pointer
    is non-`NULL`. -/
structure xlator_t where
  loglevel : Nat
  name : Bytes
  graph : Option Int
  has_ctx : Bool
  deriving DecidableEq, Repr

/-! ## The level gate of `_gf_msg` -/

/-- The check "should we be logging" of `_gf_msg` (logging.c 1426-1432):
    `true` when neither `goto out` is taken.
    ```
    if (ctx->log.gf_log_xl_log_set) {
            if (this->loglevel && (level > this->loglevel))
                    goto out;
    }
    if (level > ctx->log.loglevel)
            goto out;
    ``` -/
def _gf_msg_should_log (log : gf_log_handle_t) (this : xlator_t) (level : Nat) : Bool :=
  if log.gf_log_xl_log_set && (this.loglevel != 0 && decide (level > this.loglevel)) then
    false
  else if level > log.loglevel then
    false
  else
    true

/-- The effective threshold as the specification words it: the component
    override when the override is active, else the global level. -/
def effective_threshold_spec (override_active : Bool) (override global : Nat) : Nat :=
  if override_active then override else global

/-- A context whose only interesting members are the global level and the
    "override is active" flag: the state `gf_log_globals_init` establishes,
    with those two members replaced. -/
def ctx_with_level (G : Nat) (xl_set : Bool) : gf_log_handle_t :=
  { logfile := none, gf_log_logfile := none, filename := none,
    loglevel := G, gf_log_syslog := true, sys_log_level := GF_LOG_CRITICAL,
    gf_log_xl_log_set := xl_set, logrotate := false,
    logger := gf_logger_glusterlog, logformat := gf_logformat_withmsgid,
    log_control_file_found := false, ident := none,
    cmdlogfile := none, cmd_log_filename := none }

/-- A component with level override `O`. -/
def xl_with_level (O : Nat) : xlator_t :=
  { loglevel := O, name := ascii "glusterd", graph := none, has_ctx := true }

/-! ## `_json_escape` -/

/-- The table `json_exceptions[UCHAR_MAX + 1]`: 1 for the bytes 0x01..0x1f,
    for backslash (0x5c) and for double-quote (0x22), 0 elsewhere. -/
def json_exceptions (c : Nat) : Nat :=
  if (0x01 ≤ c ∧ c ≤ 0x1f) ∨ c = 0x5c ∨ c = 0x22 then 1 else 0

/-- The table `json_hex_chars[16] = "0123456789abcdef"`. -/
def json_hex_chars : Bytes := ascii "0123456789abcdef"

/-- The output side of `_json_escape`: the memory of `buf`, the cursor `pos`
    and the indices of `buf` stored to so far, in program order. -/
structure EscState where
  buf : Bytes
  pos : Nat
  written : List Nat
  deriving DecidableEq, Repr

/-- The statement `buf[pos++] = v`. -/
def EscState.put (st : EscState) (v : Nat) : EscState :=
  { buf := st.buf.set st.pos v, pos := st.pos + 1, written := st.written ++ [st.pos] }

/-- The statement `buf[pos] = '\0'`. -/
def EscState.terminate (st : EscState) : EscState :=
  { st with buf := st.buf.set st.pos 0, written := st.written ++ [st.pos] }

/-- The `for` loop of `_json_escape` (logging.c 432-487).  The first argument
    of the recursion is the input from `p` on (the empty list is the
    terminating NUL of `str`), `p` is the offset of the pointer `p` from
    `str`.  Returns the offset of the returned pointer and the final output
    state.  `size_t` sums are taken in `Nat`: they do not wrap for any `len`
    below `2^64 - 6`. -/
def _json_escape_loop (len : Nat) : Bytes → Nat → EscState → Nat × EscState
  | [], p, st => (p, st.terminate)
  | c :: rest, p, st =>
    -- loop condition `*p && (pos + 1) < len`
    if c = 0 ∨ ¬ (st.pos + 1 < len) then (p, st.terminate)
    else if json_exceptions c = 0 then
      _json_escape_loop len rest (p + 1) (st.put c)
    else if st.pos + 2 ≥ len then (p, st.terminate)
    else if c = 0x08 then        -- case '\b'
      _json_escape_loop len rest (p + 1) ((st.put 0x5c).put 0x62)
    else if c = 0x0a then        -- case '\n'
      _json_escape_loop len rest (p + 1) ((st.put 0x5c).put 0x6e)
    else if c = 0x0d then        -- case '\r'
      _json_escape_loop len rest (p + 1) ((st.put 0x5c).put 0x72)
    else if c = 0x09 then        -- case '\t'
      _json_escape_loop len rest (p + 1) ((st.put 0x5c).put 0x74)
    else if c = 0x5c then        -- case '\\'
      _json_escape_loop len rest (p + 1) ((st.put 0x5c).put 0x5c)
    else if c = 0x22 then        -- case '"'
      _json_escape_loop len rest (p + 1) ((st.put 0x5c).put 0x22)
    else if st.pos + 6 ≥ len then  -- default: no room, terminate and return p
      (p, st.terminate)
    else
      _json_escape_loop len rest (p + 1)
        ((((((st.put 0x5c).put 0x75).put 0x30).put 0x30).put
            (json_hex_chars.getD (c >>> 4) 0)).put
            (json_hex_chars.getD (c &&& 0xf) 0))

/-- The function `_json_escape (str, buf, len)`: `none` is the `NULL` return
    (a `NULL` argument or `len <= 0`); otherwise the offset of the returned
    pointer in `str` and the output state.  `buf` is the memory the pointer
    `buf` addresses on entry. -/
def _json_escape (str : Option Bytes) (buf : Option Bytes) (len : Nat) :
    Option (Nat × EscState) :=
  match str, buf with
  | some s, some b =>
    if len ≤ 0 then none
    else some (_json_escape_loop len s 0 { buf := b, pos := 0, written := [] })
  | _, _ => none

/-- The C string stored at the start of a memory block: the bytes before the
    first NUL. -/
def cstr (mem : Bytes) : Bytes := mem.takeWhile (fun b => b != 0)

/-- The string left in `buf` by `_json_escape`, `buf` being `len` bytes of
    arbitrary content `buf0` on entry. -/
def json_escape_output (str : Bytes) (buf0 : Bytes) (len : Nat) : Bytes :=
  match _json_escape (some str) (some buf0) len with
  | some r => cstr r.2.buf
  | none => cstr buf0

/-- A lower-case hexadecimal digit. -/
def hex_digit_spec (d : Nat) : Nat := if d < 10 then 0x30 + d else 0x61 + (d - 10)

/-- The encoding of one byte as the specification words it: two-character
    short forms for backspace, newline, carriage return, tab, backslash and
    double-quote; `\u00XX` (lower-case hex) for every other byte in
    0x01..0x1f; every other byte unchanged. -/
def escape_byte_spec (c : Nat) : Bytes :=
  if c = 0x08 then [0x5c, 0x62]
  else if c = 0x0a then [0x5c, 0x6e]
  else if c = 0x0d then [0x5c, 0x72]
  else if c = 0x09 then [0x5c, 0x74]
  else if c = 0x5c then [0x5c, 0x5c]
  else if c = 0x22 then [0x5c, 0x22]
  else if 0x01 ≤ c ∧ c ≤ 0x1f then
    [0x5c, 0x75, 0x30, 0x30, hex_digit_spec (c / 16), hex_digit_spec (c % 16)]
  else [c]

/-- The encoding of a string as the specification words it: the
    concatenation, in input order, of the encodings of its bytes. -/
def escape_spec : Bytes → Bytes
  | [] => []
  | c :: rest => escape_byte_spec c ++ escape_spec rest

/-- The number of leading input bytes whose whole encoding, followed by the
    terminator, fits in a buffer of `len` bytes when output starts at `pos`;
    counting stops at the first NUL. -/
def consumed_spec (len : Nat) : Bytes → Nat → Nat
  | [], _ => 0
  | c :: rest, pos =>
    if c ≠ 0 ∧ pos + (escape_byte_spec c).length < len then
      consumed_spec len rest (pos + (escape_byte_spec c).length) + 1
    else 0

/-- The statement `buf[pos++] = v` for each byte of a list in turn. -/
def EscState.putAll (st : EscState) : Bytes → EscState
  | [] => st
  | v :: vs => (st.put v).putAll vs

/-- A hexadecimal digit (either case). -/
def is_hex_digit (c : Nat) : Bool :=
  (decide (0x30 ≤ c) && decide (c ≤ 0x39)) || (decide (0x61 ≤ c) && decide (c ≤ 0x66)) ||
    (decide (0x41 ≤ c) && decide (c ≤ 0x46))

/-- Where a left-to-right reader of a JSON string fragment stands: outside
    an escape, just after a backslash, or inside `\u` with `n` hex digits
    still due. -/
inductive json_reader where
  | normal
  | escaped
  | hex (n : Nat)
  deriving DecidableEq, Repr

/-- One byte of a JSON string fragment: outside an escape a double-quote or
    a byte in 0x01..0x1f is an error and a backslash opens an escape; after a
    backslash only `b n r t \ "` (a complete short escape) or `u` (four hex
    digits follow) may come. -/
def json_reader_step : json_reader → Nat → Option json_reader
  | .normal, c =>
    if c = 0x5c then some .escaped
    else if c = 0x22 then none
    else if 0x01 ≤ c ∧ c ≤ 0x1f then none
    else some .normal
  | .escaped, c =>
    if c = 0x62 ∨ c = 0x6e ∨ c = 0x72 ∨ c = 0x74 ∨ c = 0x5c ∨ c = 0x22 then some .normal
    else if c = 0x75 then some (.hex 4)
    else none
  | .hex n, c =>
    if is_hex_digit c then (if n ≤ 1 then some .normal else some (.hex (n - 1)))
    else none

/-- Run the reader over a byte string; accepted when it ends outside an
    escape. -/
def json_reader_run : json_reader → Bytes → Bool
  | st, [] => decide (st = .normal)
  | st, c :: rest =>
    match json_reader_step st c with
    | none => false
    | some st2 => json_reader_run st2 rest

/-- Recogniser of a syntactically valid JSON string fragment: no raw byte in
    0x01..0x1f, no unescaped double-quote, every backslash starts one of
    `\b \n \r \t \\ \"` or `\u` followed by four hex digits. -/
def json_fragment_valid (s : Bytes) : Bool := json_reader_run .normal s

/-! ## Effects, environment, formatting -/

/-- One observable effect of the logging code. Text arguments are the fully
    expanded strings handed to the sink. -/
inductive Event where
  /-- Call `syslog (priority, ...)` with the expanded message. -/
  | syslog (priority : Int) (text : Bytes)
  /-- Call `fprintf (f, ...)` on the open stream with handle `handle`. -/
  | fprintf_file (handle : Nat) (text : Bytes)
  /-- Call `fprintf (stderr, ...)`. -/
  | fprintf_stderr (text : Bytes)
  /-- Call `write (fd, msg, wlen)`. -/
  | write_fd (fd : Int) (text : Bytes)
  /-- Call `backtrace_symbols_fd (array, bt_size, fd)`. -/
  | backtrace_symbols_fd (bt_size : Nat) (fd : Int)
  /-- Call `open (filename, O_CREAT | O_RDONLY, S_IRUSR | S_IWUSR)`. -/
  | open_probe (filename : Option Bytes)
  /-- Call `close (fd)` on the descriptor of a successful probe. -/
  | close_probe
  /-- Call `fopen (filename, "a")`. -/
  | fopen_append (filename : Option Bytes)
  /-- Call `fclose` on the stream with handle `handle`. -/
  | fclose (handle : Nat)
  /-- Call `closelog ()`. -/
  | closelog
  /-- Call `openlog (ident, option, facility)`. -/
  | openlog (ident : Option Bytes) (option : Int) (facility : Int)
  deriving DecidableEq, Repr

/-- Answers of everything outside logging.c during one call.  Each kind of
    request gets the same answer every time it is made within the call. -/
structure Env where
  /-- Result of `gettimeofday`: `none` when it returns -1, else
      `(tv_sec, tv_usec)`. -/
  gettimeofday : Option (Nat × Nat)
  /-- The function `gf_time_fmt (.., tv_sec, gf_timefmt_FT)` (common-utils). -/
  gf_time_fmt : Nat → Bytes
  /-- The function `strerror`. -/
  strerror : Int → Bytes
  /-- The value of `errno` after a failed `open` or `fopen`. -/
  errno : Int
  /-- The catalogue lookup `_gf_get_message` of gf-error-codes.h: `none` is
      the `NULL` return. -/
  _gf_get_message : Int → Option Bytes
  /-- The constant `GF_ERR_DEV` of gf-error-codes.h. -/
  GF_ERR_DEV : Int
  /-- Whether `gf_asprintf` succeeds (does not return -1). -/
  gf_asprintf_ok : Bool
  /-- Whether `vasprintf` succeeds (does not return -1). -/
  vasprintf_ok : Bool
  /-- Whether the probe `open (filename, O_CREAT | O_RDONLY, ..)` succeeds. -/
  open_ok : Bool
  /-- Result of `fopen (filename, "a")`: the new handle, `none` for `NULL`. -/
  fopen_result : Option Nat
  /-- The function `fileno`, of a stream handle or (`none`) of `stderr`. -/
  fileno : Option Nat → Int
  /-- Whether `write` succeeds (does not return -1). -/
  write_ok : Bool
  /-- Number of frames `backtrace (array, n)` captures when asked for `n`. -/
  backtrace : Int → Nat
  /-- The answer of `backtrace_symbols`: `none` when it returns `NULL`, else
      the string describing `array[i]`, by index `i` in the array that
      `backtrace` filled (most recent call first, so a larger index is an
      older frame).  A call `backtrace_symbols (&array[2], n)` therefore
      yields `callingfn[j]`, the string with index `j + 2`. -/
  backtrace_symbols : Option (Nat → Bytes)
  /-- Content of the uninitialised local array `json_msg` on entry to
      `gf_syslog`, byte by byte. -/
  json_msg_garbage : Nat → Nat
  /-- Content of the uninitialised local array `json_error_message` on entry
      to `gf_syslog`, byte by byte. -/
  json_error_message_garbage : Nat → Nat
  /-- The expansion of `__FILE__` in logging.c. -/
  src_file : Bytes
  /-- Whether `fclose` succeeds (returns 0). -/
  fclose_ok : Bool
  /-- Whether `gf_strdup` succeeds (does not return `NULL`). -/
  gf_strdup_ok : Bool
  /-- Whether `stat (GF_LOG_CONTROL_FILE, &buf)` returns 0, i.e. the control
      file `/etc/glusterfs/logger.conf` exists. -/
  control_file_exists : Bool

/-- The context `THIS->ctx` points to, and the effects so far. -/
structure World where
  log : gf_log_handle_t
  out : List Event
  deriving DecidableEq, Repr

/-- Append one effect to the trace. -/
def World.emit (w : World) (e : Event) : World := { w with out := w.out ++ [e] }

def GF_JSON_MSG_LENGTH : Nat := 8192
def GF_LOG_BACKTRACE_DEPTH : Nat := 5
def GF_LOG_BACKTRACE_SIZE : Nat := 4096
def GF_LOG_TIMESTR_SIZE : Nat := 256

/-- The priority `LOG_DEBUG` of syslog.h. -/
def LOG_DEBUG : Int := 7

/-- A natural number in decimal. -/
def decimal (n : Nat) : Bytes := ascii (Nat.repr n)

/-- The conversion `%d` of an `int`. -/
def fmt_d (i : Int) : Bytes :=
  if i < 0 then 0x2d :: decimal (-i).toNat else decimal i.toNat

/-- The conversion `%u` of an `int` argument: the value is read as a 32-bit
    unsigned number. -/
def fmt_u (i : Int) : Bytes := decimal (i % 2 ^ 32).toNat

/-- The format `GF_SYSLOG_CEE_FORMAT`
    `"@cee: {\"msg\": \"%s\", \"gf_code\": \"%u\", \"gf_message\": \"%s\"}"`
    applied to its three arguments. -/
def GF_SYSLOG_CEE_FORMAT (msg : Bytes) (gf_code : Int) (gf_message : Bytes) : Bytes :=
  ascii "@cee: \x7b\"msg\": \"" ++ msg ++ ascii "\", \"gf_code\": \"" ++ fmt_u gf_code ++
    ascii "\", \"gf_message\": \"" ++ gf_message ++ ascii "\"\x7d"

/-- A local array of `GF_JSON_MSG_LENGTH` bytes with the given content. -/
def json_local_array (content : Nat → Nat) : Bytes :=
  (List.range GF_JSON_MSG_LENGTH).map content

/-- The memory of a buffer after `_json_escape (str, buf, len)`: untouched
    when the call returns `NULL`. -/
def json_escape_buf (str : Option Bytes) (buf0 : Bytes) (len : Nat) : Bytes :=
  match _json_escape str (some buf0) len with
  | some r => r.2.buf
  | none => buf0

/-- The function `gf_syslog (error_code, facility_priority, format, ...)`
    (logging.c 499-538).  `format` is `none` for a `NULL` format and
    otherwise the expansion of the format with its arguments, which
    `vasprintf` (whose result the source does not check) leaves in `msg`. -/
def gf_syslog (env : Env) (error_code : Int) (facility_priority : Int)
    (format : Option Bytes) (w : World) : World :=
  let json_msg0 := json_local_array env.json_msg_garbage
  let json_error_message0 := json_local_array env.json_error_message_garbage
  let error_message := env._gf_get_message error_code
  match format with
  | some msg =>
    let json_msg := json_escape_buf (some msg) json_msg0 GF_JSON_MSG_LENGTH
    match error_message with
    | some e =>
      let json_error_message :=
        json_escape_buf (some e) json_error_message0 GF_JSON_MSG_LENGTH
      w.emit (.syslog facility_priority
        (GF_SYSLOG_CEE_FORMAT (cstr json_msg) error_code (cstr json_error_message)))
    | none =>
      -- no error message for the code: normal syslog
      w.emit (.syslog facility_priority msg)
  | none =>
    match error_message with
    | some _ =>
      -- no user message: json_error_message is passed as it stands
      w.emit (.syslog facility_priority
        (GF_SYSLOG_CEE_FORMAT (cstr json_error_message0) error_code
          (cstr json_error_message0)))
    | none => w

/-! ## Formatting helpers -/

/-- The expression `(this->graph) ? this->graph->id : 0`. -/
def graph_id (this : xlator_t) : Int :=
  match this.graph with
  | some id => id
  | none => 0

/-- The part of a string after the last occurrence of the byte `c`
    (`strrchr (s, c) + 1`), `none` when `c` does not occur. -/
def after_last (c : Nat) : Bytes → Option Bytes
  | [] => none
  | b :: rest =>
    match after_last c rest with
    | some t => some t
    | none => if b = c then some rest else none

/-- Modelled from the spec: the macro `GET_FILE_NAME_TO_LOG (file, basename)`
    of logging.h is not among the sources; the origin shown in a record is
    the file name without its directories, computed as the inline code of
    `_gf_log` (logging.c 1515-1519) does with `strrchr (file, '/')`. -/
def GET_FILE_NAME_TO_LOG (file : Bytes) : Bytes :=
  match after_last 0x2f file with
  | some t => t
  | none => file

/-- Modelled from the spec: the macro `SET_LOG_PRIO (level, priority)` of
    logging.h is not among the sources; the syslog priority is derived from
    `level - 1` after special-casing Trace and None to the Debug priority,
    as the inline code of `_gf_log` (logging.c 1526-1530) does. -/
def SET_LOG_PRIO (level : Nat) : Int :=
  if level = GF_LOG_TRACE ∨ level = GF_LOG_NONE then LOG_DEBUG else (level : Int) - 1

/-- Modelled from the spec: the conversion `GF_PRI_SUSECONDS` of the
    microsecond suffix is not among the sources; the timestamp has a
    fixed-width microsecond suffix `NNNNNN`, zero padded. -/
def fmt_usec (usec : Nat) : Bytes :=
  List.replicate (6 - (decimal usec).length) 0x30 ++ decimal usec

/-- The timestamp text: `gf_time_fmt` of the seconds, then `.` and the
    microseconds. -/
def timestamp (env : Env) (tv : Nat × Nat) : Bytes :=
  env.gf_time_fmt tv.1 ++ ascii "." ++ fmt_usec tv.2

/-- The entry `gf_level_strings[level]`. -/
def level_string (level : Nat) : Bytes := gf_level_strings.getD level []

/-- The line `"logging: %s:%s():%d: invalid argument\n"` printed on stderr
    with `__FILE__`, `__PRETTY_FUNCTION__` and `__LINE__`. -/
def invalid_argument_line (env : Env) (fn : Bytes) (line : Nat) : Bytes :=
  ascii "logging: " ++ env.src_file ++ ascii ":" ++ fn ++ ascii "():" ++ decimal line ++
    ascii ": invalid argument\n"

/-- The mirror copy made by every file-backend write (under
    `GF_LINUX_HOST_OS`):
    ```
    if (ctx->log.gf_log_syslog && level && (level <= ctx->log.sys_log_level))
            syslog ((level-1), "%s\n", msg);
    ``` -/
def syslog_mirror (level : Nat) (msg : Bytes) (w : World) : World :=
  if w.log.gf_log_syslog && (level != 0 && decide (level ≤ w.log.sys_log_level)) then
    w.emit (.syslog ((level : Int) - 1) (msg ++ ascii "\n"))
  else w

/-! ## The legacy entry point `_gf_log` and log rotation -/

/-- The part of `_gf_log` from the label `log:` to the end (logging.c
    1575-1635): format the line and write it to the log file, or to stderr
    when no file is open, then mirror it to syslog.  The result of
    `GF_MALLOC` is not checked by the source and is taken to be non-`NULL`. -/
def _gf_log_write (env : Env) (this : xlator_t) (domain basename function : Bytes)
    (line : Int) (level : Nat) (fmt : Bytes) (w : World) : Int × World :=
  match env.gettimeofday with
  | none => (0, w)                     -- goto out
  | some tv =>
    let timestr := timestamp env tv
    if !env.gf_asprintf_ok then (0, w)   -- goto err
    else
      -- "[%s] %s [%s:%d:%s] %d-%s: "
      let str1 := ascii "[" ++ timestr ++ ascii "] " ++ level_string level ++ ascii " [" ++
        basename ++ ascii ":" ++ fmt_d line ++ ascii ":" ++ function ++ ascii "] " ++
        fmt_d (graph_id this) ++ ascii "-" ++ domain ++ ascii ": "
      if !env.vasprintf_ok then (0, w)   -- goto err
      else
        let str2 := fmt
        let msg := str1 ++ str2
        let w1 :=
          match w.log.logfile with
          | some f => w.emit (.fprintf_file f (msg ++ ascii "\n"))
          | none =>
            if w.log.loglevel ≥ level then w.emit (.fprintf_stderr (msg ++ ascii "\n"))
            else w
        (0, syslog_mirror level msg w1)

/-- The function `_gf_log (domain, file, function, line, level, fmt, ...)`
    (logging.c 1468-1636).  `fmt` is `none` for a `NULL` format, else the
    expansion of the format with its arguments.  The nested `gf_log` calls of
    the rotation block are calls of `_gf_log` itself, made after the
    rotation flag has been cleared. -/
def _gf_log (env : Env) (this : xlator_t) (domain file function : Option Bytes)
    (line : Int) (level : Nat) (fmt : Option Bytes) (w : World) : Int × World :=
  if w.log.gf_log_xl_log_set && (this.loglevel != 0 && decide (level > this.loglevel)) then
    (0, w)
  else if level > w.log.loglevel then
    (0, w)
  else
    match domain, file, function, fmt with
    | some domain, some file, some function, some fmt =>
      let basename := GET_FILE_NAME_TO_LOG file
      if w.log.log_control_file_found then
        let priority : Int :=
          if level = GF_LOG_TRACE ∨ level = GF_LOG_NONE then LOG_DEBUG else (level : Int) - 1
        -- gf_syslog (GF_ERR_DEV, priority, "[%s:%d:%s] %d-%s: %s", ...); goto err
        (0, gf_syslog env env.GF_ERR_DEV priority
              (some (ascii "[" ++ basename ++ ascii ":" ++ fmt_d line ++ ascii ":" ++
                function ++ ascii "] " ++ fmt_d (graph_id this) ++ ascii "-" ++ domain ++
                ascii ": " ++ fmt)) w)
      else if hrot : w.log.logrotate = true then
        let w1 : World := { w with log := { w.log with logrotate := false } }
        let w2 := w1.emit (.open_probe w1.log.filename)
        if !env.open_ok then
          -- gf_log ("logrotate", GF_LOG_ERROR, "%s", strerror (errno)); return -1
          let r := _gf_log env this (some (ascii "logrotate")) (some env.src_file)
            (some (ascii "_gf_log")) 1549 GF_LOG_ERROR (some (env.strerror env.errno)) w2
          (-1, r.2)
        else
          let w3 := (w2.emit .close_probe).emit (.fopen_append w1.log.filename)
          match env.fopen_result with
          | none =>
            -- gf_log ("logrotate", GF_LOG_CRITICAL, "failed to open ..."); goto log
            let r := _gf_log env this (some (ascii "logrotate")) (some env.src_file)
              (some (ascii "_gf_log")) 1557 GF_LOG_CRITICAL
              (some (ascii "failed to open logfile " ++ w1.log.filename.getD (ascii "(null)") ++
                ascii " (" ++ env.strerror env.errno ++ ascii ")")) w3
            _gf_log_write env this domain basename function line level fmt r.2
          | some new_logfile =>
            let w4 :=
              match w3.log.logfile with
              | some old => w3.emit (.fclose old)
              | none => w3
            let w5 : World :=
              { w4 with log := { w4.log with gf_log_logfile := some new_logfile,
                                             logfile := some new_logfile } }
            _gf_log_write env this domain basename function line level fmt w5
      else
        _gf_log_write env this domain basename function line level fmt w
    | _, _, _, _ =>
      (-1, w.emit (.fprintf_stderr (invalid_argument_line env (ascii "_gf_log") 1511)))
termination_by (if w.log.logrotate = true then 1 else 0)
decreasing_by
  all_goals simp_wf
  all_goals simp [World.emit, hrot]

/-- Modelled from the spec: the macro `gf_log (dom, levl, fmt...)` of
    logging.h is not among the sources; a failure is logged "through the same
    facility", i.e. by `_gf_log (dom, __FILE__, __FUNCTION__, __LINE__, levl,
    fmt...)`. -/
def gf_log (env : Env) (this : xlator_t) (fn : Bytes) (line : Int) (dom : Bytes)
    (levl : Nat) (text : Bytes) (w : World) : World :=
  (_gf_log env this (some dom) (some env.src_file) (some fn) line levl (some text) w).2

/-- The function `gf_log_rotate (ctx)` (logging.c 235-287), one thread. -/
def gf_log_rotate (env : Env) (this : xlator_t) (w : World) : World :=
  if w.log.logrotate then
    -- under the mutex the flag is still set: clear it
    let w1 : World := { w with log := { w.log with logrotate := false } }
    let w2 := w1.emit (.open_probe w1.log.filename)
    if !env.open_ok then
      gf_log env this (ascii "gf_log_rotate") 258 (ascii "logrotate") GF_LOG_ERROR
        (env.strerror env.errno) w2
    else
      let w3 := (w2.emit .close_probe).emit (.fopen_append w1.log.filename)
      match env.fopen_result with
      | none =>
        gf_log env this (ascii "gf_log_rotate") 266 (ascii "logrotate") GF_LOG_CRITICAL
          (ascii "failed to open logfile " ++ w1.log.filename.getD (ascii "(null)") ++
            ascii " (" ++ env.strerror env.errno ++ ascii ")") w3
      | some new_logfile =>
        let old_logfile := w3.log.logfile
        let w4 : World :=
          { w3 with log := { w3.log with gf_log_logfile := some new_logfile,
                                         logfile := some new_logfile } }
        match old_logfile with
        | some old => w4.emit (.fclose old)
        | none => w4
  else w

/-- The function `_gf_log_callingfn (domain, file, function, line, level,
    fmt, ...)` (logging.c 637-796), built with `HAVE_BACKTRACE`.  `fmt` is
    `none` for a `NULL` format, else the expansion of the format with its
    arguments.  The array `callstr[4096]` starts zeroed and holds the empty
    string unless one of the three `snprintf` calls fills it.  The source
    reads `this->ctx->log` unchecked, so a context is taken to exist; the
    result of `GF_MALLOC` is not checked either and is taken to be
    non-`NULL`. -/
def _gf_log_callingfn (env : Env) (this : xlator_t) (domain file function : Option Bytes)
    (line : Int) (level : Nat) (fmt : Option Bytes) (w : World) : Int × World :=
  if w.log.gf_log_xl_log_set && (this.loglevel != 0 && decide (level > this.loglevel)) then
    (0, w)
  else if level > w.log.loglevel then
    (0, w)
  else
    match domain, file, function, fmt with
    | some domain, some file, some function, some fmt =>
      let basename :=
        match after_last 0x2f file with
        | some t => t
        | none => file
      -- Print 'calling function'
      let size := env.backtrace 5
      let callstr : Bytes :=
        if size = 0 then []
        else
          match env.backtrace_symbols with
          | none => []
          | some sym =>
            let callingfn : Nat → Bytes := fun i => sym (i + 2)
            if size = 5 then
              -- "(-->%s (-->%s (-->%s)))"
              (ascii "(-->" ++ callingfn 2 ++ ascii " (-->" ++ callingfn 1 ++ ascii " (-->" ++
                callingfn 0 ++ ascii ")))").take 4095
            else if size = 4 then
              -- "(-->%s (-->%s))"
              (ascii "(-->" ++ callingfn 1 ++ ascii " (-->" ++ callingfn 0 ++
                ascii "))").take 4095
            else if size = 3 then
              -- "(-->%s)"
              (ascii "(-->" ++ callingfn 0 ++ ascii ")").take 4095
            else []
      if w.log.log_control_file_found then
        let priority : Int :=
          if level = GF_LOG_TRACE ∨ level = GF_LOG_NONE then LOG_DEBUG else (level : Int) - 1
        -- gf_syslog (GF_ERR_DEV, priority, "[%s:%d:%s] %s %d-%s: %s", ...); goto out
        (0, gf_syslog env env.GF_ERR_DEV priority
              (some (ascii "[" ++ basename ++ ascii ":" ++ fmt_d line ++ ascii ":" ++
                function ++ ascii "] " ++ callstr ++ ascii " " ++ fmt_d (graph_id this) ++
                ascii "-" ++ domain ++ ascii ": " ++ fmt)) w)
      else
        match env.gettimeofday with
        | none => (-1, w)
        | some tv =>
          let timestr := timestamp env tv
          if !env.gf_asprintf_ok then (-1, w)
          else
            -- "[%s] %s [%s:%d:%s] %s %d-%s: "
            let str1 := ascii "[" ++ timestr ++ ascii "] " ++ level_string level ++
              ascii " [" ++ basename ++ ascii ":" ++ fmt_d line ++ ascii ":" ++ function ++
              ascii "] " ++ callstr ++ ascii " " ++ fmt_d (graph_id this) ++ ascii "-" ++
              domain ++ ascii ": "
            if !env.vasprintf_ok then (-1, w)
            else
              let str2 := fmt
              let msg := str1 ++ str2
              let w1 :=
                match w.log.logfile with
                | some f => w.emit (.fprintf_file f (msg ++ ascii "\n"))
                | none =>
                  if w.log.loglevel ≥ level then w.emit (.fprintf_stderr (msg ++ ascii "\n"))
                  else w
              ((str2.length : Int), syslog_mirror level msg w1)
    | _, _, _, _ =>
      (-1, w.emit (.fprintf_stderr
        (invalid_argument_line env (ascii "_gf_log_callingfn") 679)))

/-- The function `gf_log_set_xl_loglevel (this, level)` (logging.c 148-156):
    `this` is `none` for a `NULL` pointer.  The result is the component and
    the context after the call. -/
def gf_log_set_xl_loglevel (this : Option xlator_t) (level : Nat) (w : World) :
    Option xlator_t × World :=
  match this with
  | none => (none, w)
  | some xl =>
    (some { xl with loglevel := level },
     { w with log := { w.log with gf_log_xl_log_set := true } })

/-! ## The call stack as a string: `_gf_msg_backtrace` -/

/-- The memory `buf` after the bytes `data` are stored from offset `off` on.
    Stores that would fall behind the end of the memory are left out. -/
def store_at : Bytes → Nat → Bytes → Bytes
  | [], _, _ => []
  | b :: buf, 0, [] => b :: buf
  | _ :: buf, 0, d :: data => d :: store_at buf 0 data
  | b :: buf, off + 1, data => b :: store_at buf off data

/-- The call `snprintf (buf + off, n, ...)` whose expansion is `text`: at
    most `n - 1` bytes of the text and then a NUL are stored from offset
    `off` of the memory `buf` on, nothing is stored when `n` is 0.  A size
    above `INT_MAX` is served like any other.  The result is the memory and
    the value returned, the length of the whole text. -/
def snprintf (buf : Bytes) (off n : Nat) (text : Bytes) : Bytes × Int :=
  if n = 0 then (buf, (text.length : Int))
  else (store_at buf off (text.take (n - 1) ++ [0]), (text.length : Int))

/-- The conversion of a `size_t` to `int` (the initialiser
    `int savstrsize = strsize`). -/
def int_of_size_t (n : Nat) : Int := ((n : Int) + 2 ^ 31) % 2 ^ 32 - 2 ^ 31

/-- The offset from `callstr` of the pointer `callstr + savstrsize - strsize`,
    in 64-bit address arithmetic. -/
def callstr_offset (savstrsize : Int) (strsize : Nat) : Nat :=
  ((savstrsize - (strsize : Int)) % 2 ^ 64).toNat

/-- Modelled from the spec: the macro `PRINT_SIZE_CHECK (ret, label, strsize)`
    of logging.h is not among the sources; the capturer "returns a bounded
    string": a negative `ret` leaves for the label; a print that leaves room
    (`strsize - ret > 0`) takes `ret` off `strsize`; one that leaves none
    sets `ret` to 0 and leaves for the label.  `strsize` is a `size_t`, the
    difference is taken modulo `2^64`.  The result is the value of `ret` and
    the new `strsize`, `none` for the jump to the label. -/
def PRINT_SIZE_CHECK (ret : Int) (strsize : Nat) : Int × Option Nat :=
  if ret < 0 then (ret, none)
  else if (((strsize : Int) - ret) % 2 ^ 64).toNat > 0 then
    (ret, some (((strsize : Int) - ret) % 2 ^ 64).toNat)
  else (0, none)

/-- The loop of `_gf_msg_backtrace` (logging.c 1015-1019),
    ```
    for ((i = size - 3); i >= 0; i--) {
            ret = snprintf (callstr + savstrsize - strsize, strsize,
                            "-->%s ", callingfn[i]);
            PRINT_SIZE_CHECK (ret, out, strsize);
    }
    ```
    with `i + 1` as first argument of the recursion.  The result is `ret`,
    the memory of `callstr` and `strsize`, `none` after a jump to `out`. -/
def _gf_msg_backtrace_loop (callingfn : Nat → Bytes) (savstrsize : Int) :
    Nat → Bytes → Nat → Int → Int × Bytes × Option Nat
  | 0, callstr, strsize, ret => (ret, callstr, some strsize)
  | i + 1, callstr, strsize, _ =>
    let r := snprintf callstr (callstr_offset savstrsize strsize) strsize
      (ascii "-->" ++ callingfn i ++ ascii " ")
    match PRINT_SIZE_CHECK r.2 strsize with
    | (ret, none) => (ret, r.1, none)
    | (ret, some strsize1) => _gf_msg_backtrace_loop callingfn savstrsize i r.1 strsize1 ret

/-- The function `_gf_msg_backtrace (stacksize, callstr, strsize)` (logging.c
    989-1026); `callstr` is the memory the pointer addresses on entry.  The
    result is the value returned and the memory on return. -/
def _gf_msg_backtrace (env : Env) (stacksize : Int) (callstr : Bytes) (strsize : Nat) :
    Int × Bytes :=
  let savstrsize := int_of_size_t strsize
  -- We chop off last 2 anyway, so if request is less than tolerance
  -- nothing to do
  if stacksize < 3 then (-1, callstr)
  else
    let size : Int := env.backtrace (if stacksize ≤ 200 then stacksize else 200)
    if size - 3 < 0 then (-1, callstr)
    else
      -- callingfn = backtrace_symbols (&array[2], size - 2)
      match env.backtrace_symbols with
      | none => (-1, callstr)
      | some sym =>
        let callingfn : Nat → Bytes := fun i => sym (i + 2)
        let r0 := snprintf callstr 0 strsize (ascii "(")
        match PRINT_SIZE_CHECK r0.2 strsize with
        | (ret, none) => (ret, r0.1)
        | (ret, some strsize1) =>
          match _gf_msg_backtrace_loop callingfn savstrsize (size - 2).toNat r0.1 strsize1
              ret with
          | (ret1, callstr1, none) => (ret1, callstr1)
          | (_, callstr1, some strsize2) =>
            let r2 := snprintf callstr1 (callstr_offset savstrsize strsize2) strsize2
              (ascii ")")
            ((PRINT_SIZE_CHECK r2.2 strsize2).1, r2.1)

/-! ## The backends of `_gf_msg` -/

/-- The function `gf_log_syslog (domain, file, function, line, level, errnum,
    msgid, appmsgstr, callstr)` (logging.c 1146-1231). -/
def gf_log_syslog (env : Env) (this : xlator_t) (domain file function : Bytes)
    (line : Int) (level : Nat) (errnum : Int) (msgid : Nat) (appmsgstr : Bytes)
    (callstr : Option Bytes) (w : World) : Int × World :=
  let priority := SET_LOG_PRIO level
  match w.log.logformat with
  | gf_logformat_traditional =>
    match callstr with
    | none =>
      if errnum ≠ 0 then
        -- "[%s:%d:%s] %d-%s: %s [%s]"
        (0, w.emit (.syslog priority
          (ascii "[" ++ file ++ ascii ":" ++ fmt_d line ++ ascii ":" ++ function ++
            ascii "] " ++ fmt_d (graph_id this) ++ ascii "-" ++ domain ++ ascii ": " ++
            appmsgstr ++ ascii " [" ++ env.strerror errnum ++ ascii "]")))
      else
        -- "[%s:%d:%s] %d-%s: %s"
        (0, w.emit (.syslog priority
          (ascii "[" ++ file ++ ascii ":" ++ fmt_d line ++ ascii ":" ++ function ++
            ascii "] " ++ fmt_d (graph_id this) ++ ascii "-" ++ domain ++ ascii ": " ++
            appmsgstr)))
    | some cs =>
      if errnum ≠ 0 then
        -- "[%s:%d:%s] %s %d-%s: %s [%s]"
        (0, w.emit (.syslog priority
          (ascii "[" ++ file ++ ascii ":" ++ fmt_d line ++ ascii ":" ++ function ++
            ascii "] " ++ cs ++ ascii " " ++ fmt_d (graph_id this) ++ ascii "-" ++ domain ++
            ascii ": " ++ appmsgstr ++ ascii " [" ++ env.strerror errnum ++ ascii "]")))
      else
        -- "[%s:%d:%s] %s %d-%s: %s"
        (0, w.emit (.syslog priority
          (ascii "[" ++ file ++ ascii ":" ++ fmt_d line ++ ascii ":" ++ function ++
            ascii "] " ++ cs ++ ascii " " ++ fmt_d (graph_id this) ++ ascii "-" ++ domain ++
            ascii ": " ++ appmsgstr)))
  | gf_logformat_withmsgid =>
    match callstr with
    | none =>
      if errnum ≠ 0 then
        -- "[MSGID: %"PRIu64"] [%s:%d:%s] %d-%s: %s [%s]"
        (0, w.emit (.syslog priority
          (ascii "[MSGID: " ++ decimal msgid ++ ascii "] [" ++ file ++ ascii ":" ++
            fmt_d line ++ ascii ":" ++ function ++ ascii "] " ++ fmt_d (graph_id this) ++
            ascii "-" ++ domain ++ ascii ": " ++ appmsgstr ++ ascii " [" ++
            env.strerror errnum ++ ascii "]")))
      else
        -- "[MSGID: %"PRIu64"] [%s:%d:%s] %d-%s: %s"
        (0, w.emit (.syslog priority
          (ascii "[MSGID: " ++ decimal msgid ++ ascii "] [" ++ file ++ ascii ":" ++
            fmt_d line ++ ascii ":" ++ function ++ ascii "] " ++ fmt_d (graph_id this) ++
            ascii "-" ++ domain ++ ascii ": " ++ appmsgstr)))
    | some cs =>
      if errnum ≠ 0 then
        -- "[MSGID: %"PRIu64"] [%s:%d:%s] %s %d-%s: %s [%s]"
        (0, w.emit (.syslog priority
          (ascii "[MSGID: " ++ decimal msgid ++ ascii "] [" ++ file ++ ascii ":" ++
            fmt_d line ++ ascii ":" ++ function ++ ascii "] " ++ cs ++ ascii " " ++
            fmt_d (graph_id this) ++ ascii "-" ++ domain ++ ascii ": " ++ appmsgstr ++
            ascii " [" ++ env.strerror errnum ++ ascii "]")))
      else
        -- "[MSGID: %"PRIu64"] [%s:%d:%s] %s %d-%s: %s"
        (0, w.emit (.syslog priority
          (ascii "[MSGID: " ++ decimal msgid ++ ascii "] [" ++ file ++ ascii ":" ++
            fmt_d line ++ ascii ":" ++ function ++ ascii "] " ++ cs ++ ascii " " ++
            fmt_d (graph_id this) ++ ascii "-" ++ domain ++ ascii ": " ++ appmsgstr)))
  | gf_logformat_cee =>
    -- gf_syslog (GF_ERR_DEV, priority, "[%s:%d:%s] %d-%s: %s", ...)
    (0, gf_syslog env env.GF_ERR_DEV priority
      (some (ascii "[" ++ file ++ ascii ":" ++ fmt_d line ++ ascii ":" ++ function ++
        ascii "] " ++ fmt_d (graph_id this) ++ ascii "-" ++ domain ++ ascii ": " ++
        appmsgstr)) w)

/-- The header built by `gf_log_glusterlog` (logging.c 1262-1303). -/
def glusterlog_header (this : xlator_t) (logformat : gf_log_format_t) (timestr : Bytes)
    (domain file function : Bytes) (line : Int) (level : Nat) (msgid : Nat)
    (callstr : Option Bytes) : Bytes :=
  if logformat = gf_logformat_traditional then
    match callstr with
    | none =>
      -- "[%s] %s [%s:%d:%s] %d-%s: "
      ascii "[" ++ timestr ++ ascii "] " ++ level_string level ++ ascii " [" ++ file ++
        ascii ":" ++ fmt_d line ++ ascii ":" ++ function ++ ascii "] " ++
        fmt_d (graph_id this) ++ ascii "-" ++ domain ++ ascii ": "
    | some cs =>
      -- "[%s] %s [%s:%d:%s] %s %d-%s: "
      ascii "[" ++ timestr ++ ascii "] " ++ level_string level ++ ascii " [" ++ file ++
        ascii ":" ++ fmt_d line ++ ascii ":" ++ function ++ ascii "] " ++ cs ++ ascii " " ++
        fmt_d (graph_id this) ++ ascii "-" ++ domain ++ ascii ": "
  else
    -- gf_logformat_withmsgid; CEE is unsupported here and prints the same
    match callstr with
    | none =>
      -- "[%s] %s [MSGID: %"PRIu64"] [%s:%d:%s] %d-%s: "
      ascii "[" ++ timestr ++ ascii "] " ++ level_string level ++ ascii " [MSGID: " ++
        decimal msgid ++ ascii "] [" ++ file ++ ascii ":" ++ fmt_d line ++ ascii ":" ++
        function ++ ascii "] " ++ fmt_d (graph_id this) ++ ascii "-" ++ domain ++ ascii ": "
    | some cs =>
      -- "[%s] %s [MSGID: %"PRIu64"] [%s:%d:%s] %s %d-%s: "
      ascii "[" ++ timestr ++ ascii "] " ++ level_string level ++ ascii " [MSGID: " ++
        decimal msgid ++ ascii "] [" ++ file ++ ascii ":" ++ fmt_d line ++ ascii ":" ++
        function ++ ascii "] " ++ cs ++ ascii " " ++ fmt_d (graph_id this) ++ ascii "-" ++
        domain ++ ascii ": "

/-- The function `gf_log_glusterlog (domain, file, function, line, level,
    errnum, msgid, appmsgstr, callstr)` (logging.c 1233-1354).  The value
    returned on success is that of the last `gf_asprintf`, the number of
    bytes it printed; the result of `GF_MALLOC` is not checked by the source
    and is taken to be non-`NULL`. -/
def gf_log_glusterlog (env : Env) (this : xlator_t) (domain file function : Bytes)
    (line : Int) (level : Nat) (errnum : Int) (msgid : Nat) (appmsgstr : Bytes)
    (callstr : Option Bytes) (w0 : World) : Int × World :=
  -- rotate if required
  let w := gf_log_rotate env this w0
  match env.gettimeofday with
  | none => (-1, w)
  | some tv =>
    let timestr := timestamp env tv
    if !env.gf_asprintf_ok then (-1, w)   -- goto err
    else
      let header := glusterlog_header this w.log.logformat timestr domain file function
        line level msgid callstr
      let footer : Option Bytes :=
        if errnum ≠ 0 then some (ascii " [" ++ env.strerror errnum ++ ascii "]") else none
      let ret : Int :=
        match footer with
        | some f => f.length
        | none => header.length
      let msg := header ++ appmsgstr ++ footer.getD []
      let w1 :=
        match w.log.logfile with
        | some f => w.emit (.fprintf_file f (msg ++ ascii "\n"))
        | none =>
          if w.log.loglevel ≥ level then w.emit (.fprintf_stderr (msg ++ ascii "\n"))
          else w
      (ret, syslog_mirror level msg w1)

/-- The function `_gf_msg_internal` (logging.c 1356-1396): the `switch` on
    `ctx->log.logger`, whose syslog case falls through to the gluster log
    when the control file is absent or syslog is disabled. -/
def _gf_msg_internal (env : Env) (this : xlator_t) (domain file function : Bytes)
    (line : Int) (level : Nat) (errnum : Int) (msgid : Nat) (appmsgstr : Bytes)
    (callstr : Option Bytes) (w : World) : Int × World :=
  let basename := GET_FILE_NAME_TO_LOG file
  match w.log.logger with
  | gf_logger_syslog =>
    if w.log.log_control_file_found && w.log.gf_log_syslog then
      gf_log_syslog env this domain basename function line level errnum msgid appmsgstr
        callstr w
    else
      gf_log_glusterlog env this domain basename function line level errnum msgid appmsgstr
        callstr w
  | gf_logger_glusterlog =>
    gf_log_glusterlog env this domain basename function line level errnum msgid appmsgstr
      callstr w

/-- The function `_gf_msg (domain, file, function, line, level, errnum, trace,
    msgid, fmt, ...)` (logging.c 1398-1464), built with `HAVE_BACKTRACE`.
    `fmt` is `none` for a `NULL` format, else the expansion of the format
    with its arguments. -/
def _gf_msg (env : Env) (this : xlator_t) (domain file function : Option Bytes)
    (line : Int) (level : Nat) (errnum : Int) (trace : Bool) (msgid : Nat)
    (fmt : Option Bytes) (w : World) : Int × World :=
  match domain, file, function, fmt with
  | some domain, some file, some function, some fmt =>
    if !this.has_ctx then
      -- messages before context initialization are ignored
      (-1, w)
    else if !_gf_msg_should_log w.log this level then
      (0, w)
    else
      -- char callstr[GF_LOG_BACKTRACE_SIZE] = {0,}
      let callstr : Option Bytes :=
        if trace then
          let r := _gf_msg_backtrace env GF_LOG_BACKTRACE_DEPTH
            (List.replicate GF_LOG_BACKTRACE_SIZE 0) GF_LOG_BACKTRACE_DEPTH
          if r.1 ≥ 0 then some (cstr r.2) else none
        else none
      -- ret = vasprintf (&msgstr, fmt, ap)
      if env.vasprintf_ok then
        _gf_msg_internal env this domain file function line level errnum msgid fmt callstr w
      else (-1, w)
  | _, _, _, _ =>
    (-1, w.emit (.fprintf_stderr (invalid_argument_line env (ascii "_gf_msg") 1415)))

/-! ## Plain messages and the no-memory path -/

/-- The function `_gf_msg_plain_internal (level, msg)` (logging.c 798-846). -/
def _gf_msg_plain_internal (level : Nat) (msg : Bytes) (w : World) : Int × World :=
  match w.log.logger with
  | gf_logger_syslog =>
    if w.log.log_control_file_found && w.log.gf_log_syslog then
      (0, w.emit (.syslog ( SET_LOG_PRIO level) msg))
    else
      let w1 :=
        match w.log.logfile with
        | some f => w.emit (.fprintf_file f (msg ++ ascii "\n"))
        | none => w.emit (.fprintf_stderr (msg ++ ascii "\n"))
      (0, syslog_mirror level msg w1)
  | gf_logger_glusterlog =>
    let w1 :=
      match w.log.logfile with
      | some f => w.emit (.fprintf_file f (msg ++ ascii "\n"))
      | none => w.emit (.fprintf_stderr (msg ++ ascii "\n"))
    (0, syslog_mirror level msg w1)

/-- The function `_gf_msg_plain (level, fmt, ...)` (logging.c 848-883); `fmt`
    is the expansion of the format with its arguments. -/
def _gf_msg_plain (env : Env) (this : xlator_t) (level : Nat) (fmt : Bytes) (w : World) :
    Int × World :=
  if !this.has_ctx then (0, w)
  else if w.log.gf_log_xl_log_set && (this.loglevel != 0 && decide (level > this.loglevel)) then
    (0, w)
  else if level > w.log.loglevel then
    (0, w)
  else if !env.vasprintf_ok then (-1, w)
  else _gf_msg_plain_internal level fmt w

/-- The function `_gf_msg_vplain (level, fmt, ap)` (logging.c 885-916). -/
def _gf_msg_vplain (env : Env) (this : xlator_t) (level : Nat) (fmt : Bytes) (w : World) :
    Int × World :=
  if !this.has_ctx then (0, w)
  else if w.log.gf_log_xl_log_set && (this.loglevel != 0 && decide (level > this.loglevel)) then
    (0, w)
  else if level > w.log.loglevel then
    (0, w)
  else if !env.vasprintf_ok then (-1, w)
  else _gf_msg_plain_internal level fmt w

/-- The function `_gf_msg_plain_nomem (level, msg)` (logging.c 918-942). -/
def _gf_msg_plain_nomem (this : xlator_t) (level : Nat) (msg : Bytes) (w : World) :
    Int × World :=
  if !this.has_ctx then (0, w)
  else if w.log.gf_log_xl_log_set && (this.loglevel != 0 && decide (level > this.loglevel)) then
    (0, w)
  else if level > w.log.loglevel then
    (0, w)
  else _gf_msg_plain_internal level msg w

/-- The function `_gf_msg_backtrace_nomem (level, stacksize)` (logging.c
    945-987). -/
def _gf_msg_backtrace_nomem (env : Env) (this : xlator_t) (level : Nat) (stacksize : Int)
    (w : World) : World :=
  if !this.has_ctx then w
  -- syslog does not have fd support, hence no no-mem variant
  else if w.log.logger ≠ gf_logger_glusterlog then w
  else if w.log.gf_log_xl_log_set && (this.loglevel != 0 && decide (level > this.loglevel)) then
    w
  else if level > w.log.loglevel then
    w
  else
    let bt_size := env.backtrace (if stacksize ≤ 200 then stacksize else 200)
    let fd := env.fileno w.log.logfile
    if bt_size ≠ 0 ∧ fd ≠ -1 then w.emit (.backtrace_symbols_fd bt_size fd) else w

/-- The line `_gf_msg_nomem` formats with `snprintf` into `msg[2048]`
    (logging.c 1080-1085), before truncation. -/
def nomem_line (timestr : Bytes) (domain basename function : Bytes) (line : Int)
    (level : Nat) (size : Nat) : Bytes :=
  ascii "[" ++ timestr ++ ascii "] " ++ level_string level ++ ascii " [MSGID: " ++
    decimal 0 ++ ascii "] [" ++ basename ++ ascii ":" ++ fmt_d line ++ ascii ":" ++
    function ++ ascii "] " ++ domain ++ ascii ": no memory available for size (" ++
    decimal size ++ ascii ") [call stack follows]\n"

/-- The function `_gf_msg_nomem (domain, file, function, line, level, size)`
    (logging.c 1029-1144), built with `HAVE_BACKTRACE`.  A successful `write`
    is taken to write all `wlen` bytes. -/
def _gf_msg_nomem (env : Env) (this : xlator_t) (domain file function : Option Bytes)
    (line : Int) (level : Nat) (size : Nat) (w : World) : Int × World :=
  if !this.has_ctx then (0, w)
  else if w.log.gf_log_xl_log_set && (this.loglevel != 0 && decide (level > this.loglevel)) then
    (0, w)
  else if level > w.log.loglevel then
    (0, w)
  else
    match domain, file, function with
    | some domain, some file, some function =>
      let basename := GET_FILE_NAME_TO_LOG file
      match env.gettimeofday with
      | none => (-1, w)
      | some tv =>
        let timestr := timestamp env tv
        let full := nomem_line timestr domain basename function line level size
        -- snprintf (msg, sizeof msg, ...): at most 2047 bytes are kept
        let msg := full.take 2047
        let ret : Int := full.length
        let file_path : Int × World :=
          let fd := env.fileno w.log.logfile
          if fd = -1 then (ret, w)
          else
            let w1 := w.emit (.write_fd fd msg)
            if !env.write_ok then (-1, w1)
            else
              let w2 := syslog_mirror level msg w1
              ((msg.length : Int), _gf_msg_backtrace_nomem env this level GF_LOG_BACKTRACE_DEPTH w2)
        match w.log.logger with
        | gf_logger_syslog =>
          if w.log.log_control_file_found && w.log.gf_log_syslog then
            -- There is no fd for syslog, hence no stack printed
            (ret, w.emit (.syslog ( SET_LOG_PRIO level) msg))
          else file_path
        | gf_logger_glusterlog => file_path
    | _, _, _ =>
      (-1, w.emit (.fprintf_stderr (invalid_argument_line env (ascii "_gf_msg_nomem") 1061)))

/-- The strings of a sample stack, most recent call first: `main` calls
    `glusterd_handle_commit`, which calls `glusterd_op_commit`, which calls
    `_gf_msg`, which calls `_gf_msg_backtrace`. -/
def sample_symbols : Nat → Bytes := fun i =>
  [ascii "_gf_msg_backtrace", ascii "_gf_msg", ascii "glusterd_op_commit",
   ascii "glusterd_handle_commit", ascii "main"].getD i []

/-- A sample environment: the clock reads 12 s and 34 µs, every allocation,
    open and write succeeds, the catalogue knows the code 30800 only, and
    the stack is the sample stack. -/
def env_sample : Env :=
  { gettimeofday := some (12, 34),
    gf_time_fmt := fun _ => ascii "2014-03-01 10:20:30",
    strerror := fun _ => ascii "No such file or directory",
    errno := 2,
    _gf_get_message := fun c => if c = 30800 then some (ascii "generic error") else none,
    GF_ERR_DEV := 30800,
    gf_asprintf_ok := true,
    vasprintf_ok := true,
    open_ok := true,
    fopen_result := some 7,
    fileno := fun h => match h with
      | some f => (f : Int) + 3
      | none => 2,
    write_ok := true,
    backtrace := fun n => n.toNat,
    backtrace_symbols := some sample_symbols,
    json_msg_garbage := fun _ => 0xaa,
    json_error_message_garbage := fun _ => 0xbb,
    src_file := ascii "logging.c",
    fclose_ok := true,
    gf_strdup_ok := true,
    control_file_exists := false }

/-- A world with the given context and no effect yet. -/
def world_of (log : gf_log_handle_t) : World := { log := log, out := [] }

/-- A sample initialised context: global level Info, syslog mirroring on
    with threshold Critical, no override, no rotation pending; the logger,
    the format, the control-file flag and the open log file are given. -/
def ctx_sample (logger : gf_log_logger_t) (logformat : gf_log_format_t) (found : Bool)
    (logfile : Option Nat) : gf_log_handle_t :=
  { logfile := logfile, gf_log_logfile := logfile,
    filename := some (ascii "/var/log/glusterfs/glusterd.log"),
    loglevel := GF_LOG_INFO, gf_log_syslog := true, sys_log_level := GF_LOG_CRITICAL,
    gf_log_xl_log_set := false, logrotate := false,
    logger := logger, logformat := logformat,
    log_control_file_found := found, ident := some (ascii "glusterd"),
    cmdlogfile := none, cmd_log_filename := none }

/-- The user message `gf_log_syslog` hands to `gf_syslog` in the Cee branch:
    the format `"[%s:%d:%s] %d-%s: %s"` applied to the origin (basename of the
    file, line, function), the graph id, the domain and the message body. -/
def cee_user_message (this : xlator_t) (domain file function : Bytes) (line : Int)
    (body : Bytes) : Bytes :=
  ascii "[" ++ GET_FILE_NAME_TO_LOG file ++ ascii ":" ++ fmt_d line ++ ascii ":" ++ function ++
    ascii "] " ++ fmt_d (graph_id this) ++ ascii "-" ++ domain ++ ascii ": " ++ body

/-- What `_json_escape` leaves of a string in an array of
    `GF_JSON_MSG_LENGTH` bytes: the encoding of the longest prefix that fits. -/
def escape_8192 (s : Bytes) : Bytes :=
  escape_spec (s.take (consumed_spec GF_JSON_MSG_LENGTH s 0))

/-- The one write of the file backend: to the open log file, or to stderr
    when there is none. -/
def file_backend_write (logfile : Option Nat) (text : Bytes) : Event :=
  match logfile with
  | some f => .fprintf_file f text
  | none => .fprintf_stderr text

/-- The mirror copy of a line written by the file backend, as a list of
    effects: one `syslog ((level-1), "%s\n", msg)` when mirroring is enabled,
    the level is not None and is within the syslog threshold, else nothing. -/
def mirror_events (log : gf_log_handle_t) (level : Nat) (msg : Bytes) : List Event :=
  if log.gf_log_syslog && (level != 0 && decide (level ≤ log.sys_log_level)) then
    [.syslog ((level : Int) - 1) (msg ++ ascii "\n")]
  else []

/-! ## Initialisation, teardown, rotation request, audit log -/

/-- The option `LOG_PID` of syslog.h. -/
def LOG_PID : Nat := 0x01

/-- The option `LOG_NDELAY` of syslog.h. -/
def LOG_NDELAY : Nat := 0x08

/-- The facility `LOG_DAEMON` of syslog.h, `3 << 3`. -/
def LOG_DAEMON : Int := 24

/-- The facility `LOG_LOCAL1` of syslog.h, `17 << 3`. -/
def LOG_LOCAL1 : Int := 136

/-- The function `gf_log_logrotate (signum)` (logging.c 73-82): the rotation
    request. -/
def gf_log_logrotate (this : xlator_t) (w : World) : World :=
  if this.has_ctx then { w with log := { w.log with logrotate := true } } else w

/-- The function `set_sys_log_level (level)` (logging.c 626-635). -/
def set_sys_log_level (this : xlator_t) (level : Nat) (w : World) : World :=
  if this.has_ctx then { w with log := { w.log with sys_log_level := level } } else w

/-- The function `gf_log_set_loglevel (level)` (logging.c 120-129). -/
def gf_log_set_loglevel (this : xlator_t) (level : Nat) (w : World) : World :=
  if this.has_ctx then { w with log := { w.log with loglevel := level } } else w

/-- The function `gf_log_globals_init (data)` (logging.c 540-559), built with
    `GF_LINUX_HOST_OS`; `w` holds the context `data` points to.  The
    initialisation of the mutex has no counterpart in the one-thread model. -/
def gf_log_globals_init (w : World) : World :=
  let w1 : World :=
    { w with log := { w.log with loglevel := GF_LOG_INFO,
                                 gf_log_syslog := true,
                                 sys_log_level := GF_LOG_CRITICAL,
                                 logger := gf_logger_glusterlog,
                                 logformat := gf_logformat_withmsgid } }
  w1.emit (.openlog (some (ascii "GlusterFS")) LOG_PID LOG_DAEMON)

/-- The function `gf_openlog (ident, option, facility)` (logging.c 361-383).
    The calls `setlocale`, `bindtextdomain` and `textdomain` do not touch the
    log and are not recorded. -/
def gf_openlog (ident : Option Bytes) (option facility : Int) (w : World) : World :=
  let _option : Int := if -1 = option then ((LOG_PID ||| LOG_NDELAY : Nat) : Int) else option
  let _facility : Int := if -1 = facility then LOG_LOCAL1 else facility
  -- close the previous syslog if open as we are changing settings
  (w.emit .closelog).emit (.openlog ident _option _facility)

/-- The function `gf_log_init (data, file, ident)` (logging.c 561-624); `w`
    holds the context `data` points to. -/
def gf_log_init (env : Env) (file ident : Option Bytes) (w : World) : Int × World :=
  let w1 : World :=
    match ident with
    | some id =>
      { w with log := { w.log with ident := if env.gf_strdup_ok then some id else none } }
    | none => w
  -- both branches of `if (ctx->log.ident)` pass ctx->log.ident, NULL included
  let w2 := gf_openlog w1.log.ident (-1) LOG_DAEMON w1
  let w3 : World :=
    { w2 with log := { w2.log with log_control_file_found := env.control_file_exists } }
  match file with
  | none => (-1, w3.emit (.fprintf_stderr (ascii "ERROR: no filename specified\n")))
  | some file0 =>
    let file := if file0 = ascii "-" then ascii "/dev/stderr" else file0
    if !env.gf_strdup_ok then
      let w4 : World := { w3 with log := { w3.log with filename := none } }
      (-1, w4.emit (.fprintf_stderr (ascii "ERROR: updating log-filename failed: " ++
        env.strerror env.errno ++ ascii "\n")))
    else
      let w4 : World := { w3 with log := { w3.log with filename := some file } }
      let w5 := w4.emit (.open_probe (some file))
      if !env.open_ok then
        (-1, w5.emit (.fprintf_stderr (ascii "ERROR: failed to create logfile \"" ++ file ++
          ascii "\" (" ++ env.strerror env.errno ++ ascii ")\n")))
      else
        let w6 := (w5.emit .close_probe).emit (.fopen_append (some file))
        let w7 : World := { w6 with log := { w6.log with logfile := env.fopen_result } }
        match env.fopen_result with
        | none =>
          (-1, w7.emit (.fprintf_stderr (ascii "ERROR: failed to open logfile \"" ++ file ++
            ascii "\" (" ++ env.strerror env.errno ++ ascii ")\n")))
        | some h =>
          (0, { w7 with log := { w7.log with gf_log_logfile := some h } })

/-- The function `gf_log_fini (data)` (logging.c 298-335); `data` is `none`
    for a `NULL` context. -/
def gf_log_fini (env : Env) (data : Option World) : Int × Option World :=
  match data with
  | none => (-1, none)
  | some w =>
    match w.log.logfile with
    | some old_logfile =>
      let w1 : World :=
        { w with log := { w.log with loglevel := GF_LOG_NONE, logfile := none } }
      let w2 := w1.emit (.fclose old_logfile)
      (if env.fclose_ok then 0 else -1, some w2)
    | none => (0, some w)

/-- The function `gf_cmd_log (domain, fmt, ...)` (logging.c 1734-1797); `fmt`
    is `none` for a `NULL` format, else the expansion of the format with its
    arguments. -/
def gf_cmd_log (env : Env) (this : xlator_t) (domain fmt : Option Bytes) (w : World) :
    Int × World :=
  match w.log.cmdlogfile with
  | none => (-1, w)
  | some f =>
    match domain, fmt with
    | some domain, some fmt =>
      match env.gettimeofday with
      | none => (0, w)                       -- goto out
      | some tv =>
        let timestr := timestamp env tv
        if !env.gf_asprintf_ok then (0, w)   -- goto out
        else
          -- "[%s] %s : "
          let str1 := ascii "[" ++ timestr ++ ascii "] " ++ domain ++ ascii " : "
          if !env.vasprintf_ok then (0, w)   -- goto out
          else
            let msg := str1 ++ fmt
            (0, w.emit (.fprintf_file f (msg ++ ascii "\n")))
    | _, _ =>
      (-1, gf_log env this (ascii "gf_cmd_log") 1753 (ascii "glusterd") GF_LOG_TRACE
        (ascii "logging: invalid argument\n") w)

/-! ## Notions used by the statements on rotation and teardown -/

/-- What a call of `_gf_log` with non-`NULL` arguments does while the
    rotation flag is clear: the gate, then the syslog path when the control
    file was found, else the write of the label `log:`; the rotation block is
    not entered and no further `_gf_log` call is made. -/
def gf_log_flag_clear (env : Env) (this : xlator_t) (domain file function : Bytes)
    (line : Int) (level : Nat) (fmt : Bytes) (w : World) : Int × World :=
  if w.log.gf_log_xl_log_set && (this.loglevel != 0 && decide (level > this.loglevel)) then
    (0, w)
  else if level > w.log.loglevel then
    (0, w)
  else if w.log.log_control_file_found then
    (0, gf_syslog env env.GF_ERR_DEV
          (if level = GF_LOG_TRACE ∨ level = GF_LOG_NONE then LOG_DEBUG else (level : Int) - 1)
          (some (ascii "[" ++ GET_FILE_NAME_TO_LOG file ++ ascii ":" ++ fmt_d line ++ ascii ":" ++
            function ++ ascii "] " ++ fmt_d (graph_id this) ++ ascii "-" ++ domain ++
            ascii ": " ++ fmt)) w)
  else
    _gf_log_write env this domain (GET_FILE_NAME_TO_LOG file) function line level fmt w

/-- Whether an effect is a step of a reopen: the probe `open`, its `close`,
    the `fopen` in append mode, or an `fclose`. -/
def Event.is_reopen_step : Event → Bool
  | .open_probe _ => true
  | .close_probe => true
  | .fopen_append _ => true
  | .fclose _ => true
  | _ => false

/-- The number of reopen attempts in a trace: its probe `open` calls. -/
def reopen_attempts (out : List Event) : Nat :=
  out.countP (fun e => match e with
    | .open_probe _ => true
    | _ => false)

/-- The number of `fclose` calls on the handle `h` in a trace. -/
def fclose_count (h : Nat) (out : List Event) : Nat :=
  out.countP (fun e => decide (e = .fclose h))

/-- A run of `gf_log_rotate` calls, one per environment of the list. -/
def gf_log_rotate_calls (this : xlator_t) : List Env → World → World
  | [], w => w
  | env :: envs, w => gf_log_rotate_calls this envs (gf_log_rotate env this w)

/-- Whether an effect writes a record somewhere: a syslog submission, a
    write to a stream or to stderr, a `write` or a backtrace dump. -/
def Event.is_output : Event → Bool
  | .syslog _ _ => true
  | .fprintf_file _ _ => true
  | .fprintf_stderr _ => true
  | .write_fd _ _ => true
  | .backtrace_symbols_fd _ _ => true
  | _ => false

/-- The line `gf_log_glusterlog` writes, without its newline: the header,
    the message and, when `errnum` is not 0, the footer ` [<strerror>]`. -/
def glusterlog_line (env : Env) (this : xlator_t) (logformat : gf_log_format_t)
    (tv : Nat × Nat) (domain file function : Bytes) (line : Int) (level : Nat)
    (errnum : Int) (msgid : Nat) (appmsgstr : Bytes) (callstr : Option Bytes) : Bytes :=
  glusterlog_header this logformat (timestamp env tv) domain file function line level msgid
      callstr ++ appmsgstr ++
    (if errnum ≠ 0 then some (ascii " [" ++ env.strerror errnum ++ ascii "]") else none).getD []

/-- The write of the file backend as a list of effects: to the open log
    file; with no file, to stderr when the level is within the global level,
    else nothing. -/
def file_backend_events (log : gf_log_handle_t) (level : Nat) (text : Bytes) : List Event :=
  match log.logfile with
  | some f => [.fprintf_file f text]
  | none => if log.loglevel ≥ level then [.fprintf_stderr text] else []

/-- The world `w2` is the world `w1` with the same context and some more
    records in the trace, and no other effect. -/
def World.adds_output (w1 w2 : World) : Prop :=
  ∃ es, w2 = { log := w1.log, out := w1.out ++ es } ∧ ∀ e ∈ es, e.is_output = true

/-- The world after the first step of a rotation: the flag cleared and the
    probe `open (filename, O_CREAT | O_RDONLY, ..)` made. -/
def rotate_probe (w : World) : World :=
  ({ w with log := { w.log with logrotate := false } } : World).emit
    (.open_probe w.log.filename)

/-- The world after a successful probe: its descriptor closed and
    `fopen (filename, "a")` called. -/
def rotate_fopen (w : World) : World :=
  ((rotate_probe w).emit .close_probe).emit (.fopen_append w.log.filename)

/-- The text of the report of a failed `fopen`:
    `"failed to open logfile %s (%s)"`. -/
def rotate_fopen_failure_text (env : Env) (w : World) : Bytes :=
  ascii "failed to open logfile " ++ w.log.filename.getD (ascii "(null)") ++
    ascii " (" ++ env.strerror env.errno ++ ascii ")"

/-- One statement of the body of `gf_log_rotate` (logging.c 235-287) that
    acts on the context or on the outside. -/
inductive rotate_stmt where
  /-- The assignment `ctx->log.logrotate = 0`. -/
  | clear_flag
  /-- The call `fd = open (ctx->log.filename, O_CREAT | O_RDONLY, ..)`. -/
  | open_probe
  /-- The call `gf_log ("logrotate", GF_LOG_ERROR, "%s", strerror (errno))`. -/
  | report_probe
  /-- The call `close (fd)`. -/
  | close_probe
  /-- The call `new_logfile = fopen (ctx->log.filename, "a")`. -/
  | fopen_append
  /-- The call `gf_log ("logrotate", GF_LOG_CRITICAL, "failed to open ...")`. -/
  | report_fopen
  /-- The assignment
      `ctx->log.gf_log_logfile = ctx->log.logfile = new_logfile`. -/
  | swap (new_logfile : Nat)
  /-- The call `fclose (old_logfile)`. -/
  | fclose (old_logfile : Nat)
  deriving DecidableEq, Repr

/-- What one statement of `gf_log_rotate` does to the world. -/
def rotate_stmt.run (env : Env) (this : xlator_t) : rotate_stmt → World → World
  | .clear_flag, w => { w with log := { w.log with logrotate := false } }
  | .open_probe, w => w.emit (.open_probe w.log.filename)
  | .report_probe, w =>
    gf_log env this (ascii "gf_log_rotate") 258 (ascii "logrotate") GF_LOG_ERROR
      (env.strerror env.errno) w
  | .close_probe, w => w.emit .close_probe
  | .fopen_append, w => w.emit (.fopen_append w.log.filename)
  | .report_fopen, w =>
    gf_log env this (ascii "gf_log_rotate") 266 (ascii "logrotate") GF_LOG_CRITICAL
      (ascii "failed to open logfile " ++ w.log.filename.getD (ascii "(null)") ++
        ascii " (" ++ env.strerror env.errno ++ ascii ")") w
  | .swap new_logfile, w =>
    { w with log := { w.log with gf_log_logfile := some new_logfile,
                                 logfile := some new_logfile } }
  | .fclose old_logfile, w => w.emit (.fclose old_logfile)

/-- The statements a call `gf_log_rotate (ctx)` executes, in program order
    (logging.c 243-284), one thread.  `old_logfile` is read from
    `ctx->log.logfile` before the assignment of the new handle and closed
    after it. -/
def gf_log_rotate_stmts (env : Env) (w : World) : List rotate_stmt :=
  if w.log.logrotate then
    .clear_flag :: .open_probe ::
      (if !env.open_ok then [.report_probe]
       else
         .close_probe :: .fopen_append ::
           (match env.fopen_result with
            | none => [.report_fopen]
            | some new_logfile =>
              .swap new_logfile ::
                (match w.log.logfile with
                 | some old_logfile => [.fclose old_logfile]
                 | none => [])))
  else []

/-- The world after a list of statements of `gf_log_rotate`, run in order. -/
def run_rotate_stmts (env : Env) (this : xlator_t) (stmts : List rotate_stmt) (w : World) :
    World :=
  stmts.foldl (fun w1 s => s.run env this w1) w

/-- The sample environment with a failing probe `open`. -/
def env_probe_fails : Env := { env_sample with open_ok := false }

/-- The sample environment with a failing `fopen`. -/
def env_fopen_fails : Env := { env_sample with fopen_result := none }

/-- The context and trace `gf_log_fini` leaves for the context of `w`. -/
def after_fini (env : Env) (w : World) : World :=
  match (gf_log_fini env (some w)).2 with
  | some w2 => w2
  | none => w

/-- The emergency line as the specification words it:
    `[<timestamp>] <level tag> [MSGID: 0] [<basename>:<line>:<function>]
    <domain>: no memory available for size (<size>) [call stack follows]`
    followed by a newline. -/
def nomem_line_spec (timestr level_tag basename : Bytes) (line : Int)
    (function domain : Bytes) (size : Nat) : Bytes :=
  ascii "[" ++ timestr ++ ascii "] " ++ level_tag ++ ascii " [MSGID: 0] [" ++ basename ++
    ascii ":" ++ fmt_d line ++ ascii ":" ++ function ++ ascii "] " ++ domain ++
    ascii ": no memory available for size (" ++ decimal size ++
    ascii ") [call stack follows]" ++ ascii "\n"

/-- The sample environment in which the local array `json_error_message` of
    `gf_syslog` happens to hold `???` and NUL bytes on entry. -/
def env_garbage : Env :=
  { env_sample with json_error_message_garbage := fun i => if i < 3 then 0x3f else 0 }

/-- The sample environment with a stack nobody can capture: `backtrace`
    returns 0. -/
def env_no_frames : Env := { env_sample with backtrace := fun _ => 0 }

/-- The strings of the frames left after the two innermost are dropped,
    `callingfn[0]`, ..., `callingfn[size - 3]`: the frame nearest to the
    caller first, the oldest last. -/
def remaining_frames (sym : Nat → Bytes) (size : Nat) : List Bytes :=
  (List.range (size - 2)).map (fun i => sym (i + 2))

/-- The text `-->frame ` for each frame of a list in turn. -/
def frames_rendering : List Bytes → Bytes
  | [] => []
  | f :: rest => ascii "-->" ++ f ++ ascii " " ++ frames_rendering rest

/-- The flat form: `(`, then `-->frame ` for each frame of the list in the
    order of the list, then `)`. -/
def flat_rendering (frames : List Bytes) : Bytes :=
  ascii "(" ++ frames_rendering frames ++ ascii ")"

/-- The nested form `(-->frame_k (-->frame_{k-1} ...))` as the
    specification words it, for the frames in the order they are printed. -/
def nested_rendering_spec : List Bytes → Bytes
  | [] => []
  | [f] => ascii "(-->" ++ f ++ ascii ")"
  | f :: g :: rest =>
    ascii "(-->" ++ f ++ ascii " " ++ nested_rendering_spec (g :: rest) ++ ascii ")"

/-- The gate predicate stated in C28, for a requested level `L`, the global
    level `G`, the override flag `f` and the component override `O`:
    `L <= G` and (`f` is unset or `O` is None(0) or `L <= O`). -/
def gate_spec (L G : Nat) (f : Bool) (O : Nat) : Prop :=
  L ≤ G ∧ (f = false ∨ O = 0 ∨ L ≤ O)

/-- The call that led from `w` to `w2` has emitted: the trace has grown. -/
def World.emitted (w w2 : World) : Prop := w.out.length < w2.out.length

/-- The call that led from `w` to `w2` has emitted: the context is the same
    and records, at least one and nothing but records, were added to the
    trace. -/
def World.emits (w w2 : World) : Prop := w.adds_output w2 ∧ w.emitted w2

/-- The sample context with a log file open and a rotation pending. -/
def ctx_rotation_pending : gf_log_handle_t :=
  { ctx_sample gf_logger_glusterlog gf_logformat_withmsgid false (some 4) with
    logrotate := true }

/-- The sample context with a rotation pending and the override flag set. -/
def ctx_rotation_pending_override : gf_log_handle_t :=
  { ctx_rotation_pending with gf_log_xl_log_set := true }

/-! ## Theorems: level gate -/

/-- C1 (as stated, refuted): with global level Info(7), an active component
    override Debug(8) and a Debug(8) request, the specification's rule
    `L <= effective_threshold` (threshold = override when active) says
    "emit", but the gate of `_gf_msg` suppresses the record, because the
    global check is applied as well. -/
theorem C1_override_alone_does_not_decide :
    effective_threshold_spec true GF_LOG_DEBUG GF_LOG_INFO = GF_LOG_DEBUG ∧
    GF_LOG_INFO < GF_LOG_DEBUG ∧
    _gf_msg_should_log (ctx_with_level GF_LOG_INFO true) (xl_with_level GF_LOG_DEBUG)
      GF_LOG_DEBUG = false ∧
    ¬ (_gf_msg_should_log (ctx_with_level GF_LOG_INFO true) (xl_with_level GF_LOG_DEBUG)
        GF_LOG_DEBUG = true ↔
       GF_LOG_DEBUG ≤ effective_threshold_spec true GF_LOG_DEBUG GF_LOG_INFO) := by
  decide

/-- C1 (amended): for every requested level L, global level G, override O
    and override flag, the gate of `_gf_msg` emits iff `L <= G` and, when the
    override is active and O is not None(0), also `L <= O`. -/
theorem C1_gate_amended (log : gf_log_handle_t) (this : xlator_t) (L : Nat) :
    _gf_msg_should_log log this L = true ↔
      (L ≤ log.loglevel ∧
        (log.gf_log_xl_log_set = false ∨ this.loglevel = 0 ∨ L ≤ this.loglevel)) := by
  unfold _gf_msg_should_log
  cases hset : log.gf_log_xl_log_set
  · simp
  · simp; omega

/-- C2: while the "override is active" flag is not set, the gate ignores the
    component's override field: the record is emitted iff `L <= G`. -/
theorem C2_flag_unset_ignores_override (log : gf_log_handle_t) (this : xlator_t) (L : Nat)
    (hflag : log.gf_log_xl_log_set = false) :
    _gf_msg_should_log log this L = true ↔ L ≤ log.loglevel := by
  unfold _gf_msg_should_log
  simp [hflag]

/-- C2, witness: global Info(7), flag unset, override field Emergency(1):
    Debug(8) is suppressed and Warning(5) is emitted. -/
theorem C2_flag_unset_ignores_override_witness :
    (ctx_with_level GF_LOG_INFO false).gf_log_xl_log_set = false ∧
    (_gf_msg_should_log (ctx_with_level GF_LOG_INFO false) (xl_with_level GF_LOG_EMERG)
        GF_LOG_WARNING = true ↔ GF_LOG_WARNING ≤ (ctx_with_level GF_LOG_INFO false).loglevel) ∧
    _gf_msg_should_log (ctx_with_level GF_LOG_INFO false) (xl_with_level GF_LOG_EMERG)
        GF_LOG_WARNING = true ∧
    _gf_msg_should_log (ctx_with_level GF_LOG_INFO false) (xl_with_level GF_LOG_EMERG)
        GF_LOG_DEBUG = false :=
  ⟨rfl,
   C2_flag_unset_ignores_override (ctx_with_level GF_LOG_INFO false)
     (xl_with_level GF_LOG_EMERG) GF_LOG_WARNING rfl,
   by decide, by decide⟩

/-! ## Lemmas: `_json_escape` -/

theorem escape_byte_spec_length (c : Nat) :
    (escape_byte_spec c).length = 1 ∨ (escape_byte_spec c).length = 2 ∨
      (escape_byte_spec c).length = 6 := by
  unfold escape_byte_spec
  split_ifs <;> simp

theorem escape_byte_spec_length_pos (c : Nat) : 0 < (escape_byte_spec c).length := by
  rcases escape_byte_spec_length c with h | h | h <;> omega

theorem json_hex_hi (c : Nat) (h1 : 1 ≤ c) (h2 : c ≤ 0x1f) :
    json_hex_chars.getD (c >>> 4) 0 = hex_digit_spec (c / 16) := by
  interval_cases c <;> rfl

theorem json_hex_lo (c : Nat) (h1 : 1 ≤ c) (h2 : c ≤ 0x1f) :
    json_hex_chars.getD (c &&& 0xf) 0 = hex_digit_spec (c % 16) := by
  interval_cases c <;> rfl

theorem escape_byte_spec_plain (c : Nat) (hx : json_exceptions c = 0) :
    escape_byte_spec c = [c] := by
  unfold json_exceptions at hx
  have hn : ¬ ((0x01 ≤ c ∧ c ≤ 0x1f) ∨ c = 0x5c ∨ c = 0x22) := by
    intro hcon
    rw [if_pos hcon] at hx
    exact absurd hx (by decide)
  unfold escape_byte_spec
  rw [if_neg (by omega), if_neg (by omega), if_neg (by omega), if_neg (by omega),
    if_neg (by omega), if_neg (by omega), if_neg (by omega)]

theorem json_exceptions_cases (c : Nat) (hx : ¬ json_exceptions c = 0) :
    c = 0x08 ∨ c = 0x0a ∨ c = 0x0d ∨ c = 0x09 ∨ c = 0x5c ∨ c = 0x22 ∨
    ((1 ≤ c ∧ c ≤ 0x1f) ∧ c ≠ 0x08 ∧ c ≠ 0x0a ∧ c ≠ 0x0d ∧ c ≠ 0x09 ∧ c ≠ 0x5c ∧ c ≠ 0x22) := by
  unfold json_exceptions at hx
  have hn : (0x01 ≤ c ∧ c ≤ 0x1f) ∨ c = 0x5c ∨ c = 0x22 := by
    by_contra hcon
    rw [if_neg hcon] at hx
    exact hx rfl
  omega

theorem escape_byte_spec_ctl (c : Nat) (h : 1 ≤ c ∧ c ≤ 0x1f)
    (h8 : c ≠ 0x08) (ha : c ≠ 0x0a) (hd : c ≠ 0x0d) (h9 : c ≠ 0x09) (hb : c ≠ 0x5c)
    (hq : c ≠ 0x22) :
    escape_byte_spec c =
      [0x5c, 0x75, 0x30, 0x30, hex_digit_spec (c / 16), hex_digit_spec (c % 16)] := by
  unfold escape_byte_spec
  rw [if_neg h8, if_neg ha, if_neg hd, if_neg h9, if_neg hb, if_neg hq, if_pos h]

/-- One iteration of the loop on a byte whose encoding and the terminator
    fit: the whole encoding is stored and the loop goes on. -/
theorem json_escape_loop_cons_fits (len c : Nat) (rest : Bytes) (p : Nat) (st : EscState)
    (hc : c ≠ 0) (hfit : st.pos + (escape_byte_spec c).length < len) :
    _json_escape_loop len (c :: rest) p st =
      _json_escape_loop len rest (p + 1) (st.putAll (escape_byte_spec c)) := by
  rw [_json_escape_loop]
  have h1 : st.pos + 1 < len := by
    have := escape_byte_spec_length_pos c
    omega
  rw [if_neg (by simp [hc, h1])]
  by_cases hx : json_exceptions c = 0
  · rw [if_pos hx, escape_byte_spec_plain c hx]
    rfl
  · rw [if_neg hx]
    rcases json_exceptions_cases c hx with h | h | h | h | h | h | ⟨h, h8, ha, hd, h9, hb, hq⟩
    · subst h
      rw [if_neg (by simpa [escape_byte_spec] using Nat.not_le.mpr hfit)]
      rfl
    · subst h
      rw [if_neg (by simpa [escape_byte_spec] using Nat.not_le.mpr hfit)]
      rfl
    · subst h
      rw [if_neg (by simpa [escape_byte_spec] using Nat.not_le.mpr hfit)]
      rfl
    · subst h
      rw [if_neg (by simpa [escape_byte_spec] using Nat.not_le.mpr hfit)]
      rfl
    · subst h
      rw [if_neg (by simpa [escape_byte_spec] using Nat.not_le.mpr hfit)]
      rfl
    · subst h
      rw [if_neg (by simpa [escape_byte_spec] using Nat.not_le.mpr hfit)]
      rfl
    · rw [escape_byte_spec_ctl c h h8 ha hd h9 hb hq] at hfit ⊢
      simp only [List.length_cons, List.length_nil] at hfit
      rw [if_neg (by omega), if_neg h8, if_neg ha, if_neg hd, if_neg h9, if_neg hb,
        if_neg hq, if_neg (by omega), json_hex_hi c h.1 h.2, json_hex_lo c h.1 h.2]
      rfl

/-- The loop stops, storing only the terminator, at a NUL or at a byte whose
    encoding and the terminator do not fit. -/
theorem json_escape_loop_cons_stop (len c : Nat) (rest : Bytes) (p : Nat) (st : EscState)
    (hstop : c = 0 ∨ len ≤ st.pos + (escape_byte_spec c).length) :
    _json_escape_loop len (c :: rest) p st = (p, st.terminate) := by
  rw [_json_escape_loop]
  by_cases h0 : c = 0 ∨ ¬ (st.pos + 1 < len)
  · rw [if_pos h0]
  · rw [if_neg h0]
    push_neg at h0
    rcases hstop with hz | hlen
    · exact absurd hz h0.1
    · by_cases hx : json_exceptions c = 0
      · rw [escape_byte_spec_plain c hx] at hlen
        simp only [List.length_cons, List.length_nil] at hlen
        omega
      · rw [if_neg hx]
        by_cases h2 : st.pos + 2 ≥ len
        · rw [if_pos h2]
        · rw [if_neg h2]
          rcases json_exceptions_cases c hx with
            h | h | h | h | h | h | ⟨h, h8, ha, hd, h9, hb, hq⟩
          · subst h; simp [escape_byte_spec] at hlen; omega
          · subst h; simp [escape_byte_spec] at hlen; omega
          · subst h; simp [escape_byte_spec] at hlen; omega
          · subst h; simp [escape_byte_spec] at hlen; omega
          · subst h; simp [escape_byte_spec] at hlen; omega
          · subst h; simp [escape_byte_spec] at hlen; omega
          · rw [escape_byte_spec_ctl c h h8 ha hd h9 hb hq] at hlen
            simp only [List.length_cons, List.length_nil] at hlen
            rw [if_neg h8, if_neg ha, if_neg hd, if_neg h9, if_neg hb, if_neg hq,
              if_pos (by omega)]

theorem pos_putAll (st : EscState) (bs : Bytes) :
    (st.putAll bs).pos = st.pos + bs.length := by
  induction bs generalizing st with
  | nil => rfl
  | cons v vs ih =>
    rw [EscState.putAll, ih]
    simp only [EscState.put, List.length_cons]
    omega

theorem putAll_append (st : EscState) (as bs : Bytes) :
    st.putAll (as ++ bs) = (st.putAll as).putAll bs := by
  induction as generalizing st with
  | nil => rfl
  | cons v vs ih =>
    rw [List.cons_append, EscState.putAll, EscState.putAll, ih]

theorem written_putAll (st : EscState) (bs : Bytes) :
    (st.putAll bs).written = st.written ++ List.range' st.pos bs.length := by
  induction bs generalizing st with
  | nil => simp [EscState.putAll]
  | cons v vs ih =>
    rw [EscState.putAll, ih]
    simp [EscState.put, List.range'_succ]

theorem take_set_self (l : Bytes) (n v : Nat) (h : n < l.length) :
    (l.set n v).take (n + 1) = l.take n ++ [v] := by
  induction l generalizing n with
  | nil => simp at h
  | cons a l ih =>
    cases n with
    | zero => simp
    | succ n =>
      simp only [List.length_cons] at h
      simp [ih n (by omega)]

theorem drop_set_above (l : Bytes) (n m v : Nat) (h : n < m) :
    (l.set n v).drop m = l.drop m := by
  induction l generalizing n m with
  | nil => simp
  | cons a l ih =>
    cases m with
    | zero => omega
    | succ m =>
      cases n with
      | zero => simp
      | succ n => simp [ih n m (by omega)]

theorem buf_putAll (st : EscState) (bs : Bytes) (h : st.pos + bs.length ≤ st.buf.length) :
    (st.putAll bs).buf = st.buf.take st.pos ++ bs ++ st.buf.drop (st.pos + bs.length) := by
  induction bs generalizing st with
  | nil => simp [EscState.putAll]
  | cons v vs ih =>
    simp only [List.length_cons] at h
    rw [EscState.putAll, ih (st.put v) (by simp [EscState.put]; omega)]
    simp only [EscState.put, List.length_cons]
    rw [take_set_self st.buf st.pos v (by omega), drop_set_above st.buf st.pos _ v (by omega)]
    simp [Nat.add_assoc, Nat.add_comm 1]

theorem buf_terminate (st : EscState) (h : st.pos < st.buf.length) :
    st.terminate.buf = st.buf.take st.pos ++ 0 :: st.buf.drop (st.pos + 1) := by
  simp only [EscState.terminate]
  exact List.set_eq_take_cons_drop 0 h

/-- The loop, characterised: it consumes exactly `consumed_spec` bytes and
    stores their whole encodings followed by the terminator. -/
theorem json_escape_loop_eq (len : Nat) (s : Bytes) (p : Nat) (st : EscState) :
    _json_escape_loop len s p st =
      (p + consumed_spec len s st.pos,
       (st.putAll (escape_spec (s.take (consumed_spec len s st.pos)))).terminate) := by
  induction s generalizing p st with
  | nil => rfl
  | cons c rest ih =>
    by_cases h : c ≠ 0 ∧ st.pos + (escape_byte_spec c).length < len
    · rw [json_escape_loop_cons_fits len c rest p st h.1 h.2, ih, pos_putAll]
      simp only [consumed_spec, if_pos h, List.take_succ_cons, escape_spec, putAll_append]
      congr 1
      omega
    · rw [json_escape_loop_cons_stop len c rest p st (by
        by_cases hc : c = 0
        · exact Or.inl hc
        · exact Or.inr (by
            by_contra hcon
            exact h ⟨hc, by omega⟩))]
      simp only [consumed_spec, if_neg h, List.take_zero, escape_spec, EscState.putAll,
        Nat.add_zero]

theorem consumed_spec_le (len : Nat) (s : Bytes) (pos : Nat) :
    consumed_spec len s pos ≤ s.length := by
  induction s generalizing pos with
  | nil => simp [consumed_spec]
  | cons c rest ih =>
    simp only [consumed_spec, List.length_cons]
    split_ifs
    · have := ih (pos + (escape_byte_spec c).length)
      omega
    · omega

theorem consumed_spec_fits (len : Nat) (s : Bytes) (pos : Nat) (hpos : pos < len) :
    pos + (escape_spec (s.take (consumed_spec len s pos))).length < len := by
  induction s generalizing pos with
  | nil => simpa [consumed_spec, escape_spec] using hpos
  | cons c rest ih =>
    simp only [consumed_spec]
    split_ifs with h
    · have := ih (pos + (escape_byte_spec c).length) h.2
      simp only [List.take_succ_cons, escape_spec, List.length_append]
      omega
    · simpa [escape_spec] using hpos

theorem consumed_spec_nonzero (len : Nat) (s : Bytes) (pos : Nat) :
    ∀ b ∈ s.take (consumed_spec len s pos), b ≠ 0 := by
  induction s generalizing pos with
  | nil => simp
  | cons c rest ih =>
    simp only [consumed_spec]
    split_ifs with h
    · intro b hb
      simp only [List.take_succ_cons, List.mem_cons] at hb
      rcases hb with hb | hb
      · rw [hb]; exact h.1
      · exact ih _ b hb
    · simp

theorem consumed_spec_full (len : Nat) (s : Bytes) (pos : Nat) (h0 : ∀ b ∈ s, b ≠ 0)
    (hfit : pos + (escape_spec s).length < len) : consumed_spec len s pos = s.length := by
  induction s generalizing pos with
  | nil => rfl
  | cons c rest ih =>
    simp only [escape_spec, List.length_append] at hfit
    have hc : c ≠ 0 := h0 c (List.mem_cons_self _ _)
    simp only [consumed_spec, List.length_cons]
    rw [if_pos ⟨hc, by omega⟩, ih _ (fun b hb => h0 b (List.mem_cons_of_mem _ hb)) (by omega)]

theorem escape_byte_spec_nonzero (c : Nat) (hc : c ≠ 0) : ∀ b ∈ escape_byte_spec c, b ≠ 0 := by
  by_cases hx : json_exceptions c = 0
  · rw [escape_byte_spec_plain c hx]
    simpa using hc
  · rcases json_exceptions_cases c hx with h | h | h | h | h | h | ⟨h, h8, ha, hd, h9, hb, hq⟩
    · subst h; decide
    · subst h; decide
    · subst h; decide
    · subst h; decide
    · subst h; decide
    · subst h; decide
    · rw [escape_byte_spec_ctl c h h8 ha hd h9 hb hq]
      intro b hb
      simp only [List.mem_cons, List.mem_singleton, List.not_mem_nil, or_false] at hb
      unfold hex_digit_spec at hb
      rcases hb with hb | hb | hb | hb | hb | hb <;> (try split_ifs at hb) <;> omega

theorem escape_spec_nonzero (s : Bytes) (h0 : ∀ b ∈ s, b ≠ 0) : ∀ b ∈ escape_spec s, b ≠ 0 := by
  induction s with
  | nil => simp [escape_spec]
  | cons c rest ih =>
    intro b hb
    simp only [escape_spec, List.mem_append] at hb
    rcases hb with hb | hb
    · exact escape_byte_spec_nonzero c (h0 c (List.mem_cons_self _ _)) b hb
    · exact ih (fun x hx => h0 x (List.mem_cons_of_mem _ hx)) b hb

theorem cstr_append_zero (bs tail : Bytes) (h0 : ∀ b ∈ bs, b ≠ 0) :
    cstr (bs ++ 0 :: tail) = bs := by
  unfold cstr
  induction bs with
  | nil => simp
  | cons b bs ih =>
    have hb : b ≠ 0 := h0 b (List.mem_cons_self _ _)
    simp only [List.cons_append]
    rw [List.takeWhile_cons_of_pos (by simpa using hb),
      ih (fun x hx => h0 x (List.mem_cons_of_mem _ hx))]

theorem set_zero_drop (l : Bytes) (n v : Nat) (h : n < l.length) :
    (l.drop n).set 0 v = v :: l.drop (n + 1) := by
  induction l generalizing n with
  | nil => simp at h
  | cons a l ih =>
    cases n with
    | zero => simp
    | succ n =>
      simp only [List.length_cons] at h
      simpa using ih n (by omega)

theorem buf_putAll_terminate_zero (buf0 bs : Bytes) (h : bs.length < buf0.length) :
    ((EscState.mk buf0 0 []).putAll bs).terminate.buf = bs ++ 0 :: buf0.drop (bs.length + 1) := by
  simp only [EscState.terminate, pos_putAll, Nat.zero_add]
  rw [buf_putAll _ _ (by simp only [Nat.zero_add]; omega)]
  simp only [Nat.zero_add, List.take_zero, List.nil_append]
  rw [List.set_append_right _ _ (Nat.le_refl _), Nat.sub_self, set_zero_drop buf0 _ 0 h]

/-- The whole result of `_json_escape` on non-`NULL` arguments with
    `1 <= len <= ` size of `buf`: the returned offset, the cursor, the
    indices stored to and the memory of `buf` on return. -/
theorem json_escape_result (str buf0 : Bytes) (len : Nat) (hlen : 1 ≤ len)
    (hbuf : len ≤ buf0.length) :
    ∃ st, _json_escape (some str) (some buf0) len = some (consumed_spec len str 0, st) ∧
      st.pos = (escape_spec (str.take (consumed_spec len str 0))).length ∧
      st.pos < len ∧
      st.written = List.range' 0 (st.pos + 1) ∧
      st.buf = escape_spec (str.take (consumed_spec len str 0)) ++ 0 :: buf0.drop (st.pos + 1) := by
  have hfit := consumed_spec_fits len str 0 (by omega)
  simp only [Nat.zero_add] at hfit
  refine ⟨((EscState.mk buf0 0 []).putAll
      (escape_spec (str.take (consumed_spec len str 0)))).terminate, ?_, ?_, ?_, ?_, ?_⟩
  · simp only [_json_escape]
    rw [if_neg (by omega), json_escape_loop_eq]
    simp
  · simp [EscState.terminate, pos_putAll]
  · simpa [EscState.terminate, pos_putAll] using hfit
  · simp [EscState.terminate, pos_putAll, written_putAll, List.range'_concat]
  · have hb := buf_putAll_terminate_zero buf0
      (escape_spec (str.take (consumed_spec len str 0))) (by omega)
    rw [hb]
    simp [EscState.terminate, pos_putAll]

theorem json_escape_cursor (str buf0 : Bytes) (len : Nat) (hlen : 1 ≤ len) :
    ∃ st, _json_escape (some str) (some buf0) len = some (consumed_spec len str 0, st) ∧
      st.pos < len ∧ st.written = List.range' 0 (st.pos + 1) := by
  have hfit := consumed_spec_fits len str 0 (by omega)
  simp only [Nat.zero_add] at hfit
  refine ⟨((EscState.mk buf0 0 []).putAll
      (escape_spec (str.take (consumed_spec len str 0)))).terminate, ?_, ?_, ?_⟩
  · simp only [_json_escape]
    rw [if_neg (by omega), json_escape_loop_eq]
    simp
  · simpa [EscState.terminate, pos_putAll] using hfit
  · simp [EscState.terminate, pos_putAll, written_putAll, List.range'_concat]

theorem is_hex_digit_spec (d : Nat) (h : d < 16) : is_hex_digit (hex_digit_spec d) = true := by
  interval_cases d <;> rfl

theorem json_reader_run_byte (c : Nat) (t : Bytes) :
    json_reader_run .normal (escape_byte_spec c ++ t) = json_reader_run .normal t := by
  by_cases hx : json_exceptions c = 0
  · rw [escape_byte_spec_plain c hx]
    unfold json_exceptions at hx
    have hn : ¬ ((0x01 ≤ c ∧ c ≤ 0x1f) ∨ c = 0x5c ∨ c = 0x22) := by
      intro hcon
      rw [if_pos hcon] at hx
      exact absurd hx (by decide)
    simp only [List.singleton_append, json_reader_run, json_reader_step]
    rw [if_neg (by omega), if_neg (by omega), if_neg (by omega)]
    rfl
  · rcases json_exceptions_cases c hx with h | h | h | h | h | h | ⟨h, h8, ha, hd, h9, hb, hq⟩
    · subst h; rfl
    · subst h; rfl
    · subst h; rfl
    · subst h; rfl
    · subst h; rfl
    · subst h; rfl
    · rw [escape_byte_spec_ctl c h h8 ha hd h9 hb hq]
      have h1 := is_hex_digit_spec (c / 16) (by omega)
      have h2 := is_hex_digit_spec (c % 16) (by omega)
      have h3 : is_hex_digit 0x30 = true := by decide
      simp [json_reader_run, json_reader_step, h1, h2, h3]

theorem json_fragment_valid_escape_spec (s : Bytes) : json_fragment_valid (escape_spec s) = true := by
  induction s with
  | nil => rfl
  | cons c rest ih =>
    unfold json_fragment_valid at ih ⊢
    rw [escape_spec, json_reader_run_byte, ih]

theorem escape_byte_spec_no_ctl (c : Nat) (hc : c ≠ 0) :
    ∀ b ∈ escape_byte_spec c, 0x20 ≤ b := by
  by_cases hx : json_exceptions c = 0
  · rw [escape_byte_spec_plain c hx]
    unfold json_exceptions at hx
    have hn : ¬ ((0x01 ≤ c ∧ c ≤ 0x1f) ∨ c = 0x5c ∨ c = 0x22) := by
      intro hcon
      rw [if_pos hcon] at hx
      exact absurd hx (by decide)
    intro b hb
    simp only [List.mem_singleton] at hb
    omega
  · rcases json_exceptions_cases c hx with h | h | h | h | h | h | ⟨h, h8, ha, hd, h9, hb, hq⟩
    · subst h; decide
    · subst h; decide
    · subst h; decide
    · subst h; decide
    · subst h; decide
    · subst h; decide
    · rw [escape_byte_spec_ctl c h h8 ha hd h9 hb hq]
      intro b hb
      simp only [List.mem_cons, List.mem_singleton, List.not_mem_nil, or_false] at hb
      unfold hex_digit_spec at hb
      rcases hb with hb | hb | hb | hb | hb | hb <;> (try split_ifs at hb) <;> omega

theorem escape_spec_no_ctl (s : Bytes) (h0 : ∀ b ∈ s, b ≠ 0) : ∀ b ∈ escape_spec s, 0x20 ≤ b := by
  induction s with
  | nil => simp [escape_spec]
  | cons c rest ih =>
    intro b hb
    simp only [escape_spec, List.mem_append] at hb
    rcases hb with hb | hb
    · exact escape_byte_spec_no_ctl c (h0 c (List.mem_cons_self _ _)) b hb
    · exact ih (fun x hx => h0 x (List.mem_cons_of_mem _ hx)) b hb

/-- The string left in `buf`: the whole encoding of the consumed prefix. -/
theorem json_escape_cstr (str buf0 : Bytes) (len : Nat) (hlen : 1 ≤ len)
    (hbuf : len ≤ buf0.length) :
    ∃ st, _json_escape (some str) (some buf0) len = some (consumed_spec len str 0, st) ∧
      cstr st.buf = escape_spec (str.take (consumed_spec len str 0)) := by
  obtain ⟨st, h1, _, _, _, h5⟩ := json_escape_result str buf0 len hlen hbuf
  refine ⟨st, h1, ?_⟩
  rw [h5]
  exact cstr_append_zero _ _ (escape_spec_nonzero _ (consumed_spec_nonzero len str 0))

theorem json_escape_output_eq (str buf0 : Bytes) (len : Nat) (hlen : 1 ≤ len)
    (hbuf : len ≤ buf0.length) :
    json_escape_output str buf0 len = escape_spec (str.take (consumed_spec len str 0)) := by
  obtain ⟨st, h1, h2⟩ := json_escape_cstr str buf0 len hlen hbuf
  simp only [json_escape_output, h1, h2]

theorem json_escape_output_full (str buf0 : Bytes) (len : Nat) (h0 : ∀ b ∈ str, b ≠ 0)
    (hfit : (escape_spec str).length < len) (hbuf : len ≤ buf0.length) :
    json_escape_output str buf0 len = escape_spec str := by
  rw [json_escape_output_eq str buf0 len (by omega) hbuf,
    consumed_spec_full len str 0 h0 (by omega), List.take_length]

/-! ## Theorems: `_json_escape` -/

/-- C4: for every input string (no NUL byte inside) and a buffer large enough
    to hold the whole result and its terminator, `_json_escape` consumes the
    whole input and leaves in `buf` the concatenation, in input order, of
    the encodings of the input bytes (`escape_spec`: two-character short
    forms, `\u00XX` for the other bytes of 0x01..0x1f, other bytes
    unchanged). -/
theorem C4_json_escape_byte_mapping (str buf0 : Bytes) (len : Nat)
    (h0 : ∀ b ∈ str, b ≠ 0) (hfit : (escape_spec str).length < len)
    (hbuf : len ≤ buf0.length) :
    ∃ st, _json_escape (some str) (some buf0) len = some (str.length, st) ∧
      cstr st.buf = escape_spec str := by
  obtain ⟨st, h1, h2⟩ := json_escape_cstr str buf0 len (by omega) hbuf
  rw [consumed_spec_full len str 0 h0 (by omega)] at h1 h2
  rw [List.take_length] at h2
  exact ⟨st, h1, h2⟩

/-- C4, witness: the sample of the source comment, in a 64-byte buffer; and
    the encodings of a tab, of 0x01 and of 0x1b computed by the code. -/
theorem C4_json_escape_byte_mapping_witness :
    (∀ b ∈ ascii "I/O error on \"/tmp/foo\" file", b ≠ 0) ∧
    (escape_spec (ascii "I/O error on \"/tmp/foo\" file")).length < 64 ∧
    64 ≤ (List.replicate 64 0xff).length ∧
    (∃ st, _json_escape (some (ascii "I/O error on \"/tmp/foo\" file"))
        (some (List.replicate 64 0xff)) 64 = some (28, st) ∧
      cstr st.buf = ascii "I/O error on \\\"/tmp/foo\\\" file") ∧
    json_escape_output [0x09] (List.replicate 8 0xff) 8 = ascii "\\t" ∧
    json_escape_output [0x01] (List.replicate 8 0xff) 8 = ascii "\\u0001" ∧
    json_escape_output [0x1b] (List.replicate 8 0xff) 8 = ascii "\\u001b" :=
  ⟨by decide, by decide, by decide,
   C4_json_escape_byte_mapping (ascii "I/O error on \"/tmp/foo\" file")
     (List.replicate 64 0xff) 64 (by decide) (by decide) (by decide),
   by decide, by decide, by decide⟩

/-- C5: for every input string and every bound `len >= 1`, `_json_escape`
    returns normally, every index of `buf` it stores to is below `len`, the
    last store is the terminator, at index `pos < len`; and when `buf` really
    has `len` bytes, the memory beyond index `len` is untouched, the byte at
    `pos` is NUL and the resulting string has length at most `len - 1`. -/
theorem C5_json_escape_in_bounds (str buf0 : Bytes) (len : Nat) (hlen : 1 ≤ len) :
    ∃ p st, _json_escape (some str) (some buf0) len = some (p, st) ∧
      (∀ i ∈ st.written, i < len) ∧
      st.written.getLast? = some st.pos ∧ st.pos < len ∧
      (len ≤ buf0.length →
        st.buf.length = buf0.length ∧ st.buf.drop len = buf0.drop len ∧
        st.buf[st.pos]? = some 0 ∧ (cstr st.buf).length ≤ len - 1) := by
  obtain ⟨st, h1, h2, h3⟩ := json_escape_cursor str buf0 len hlen
  refine ⟨_, st, h1, ?_, ?_, h2, ?_⟩
  · intro i hi
    rw [h3] at hi
    have := (List.mem_range'_1.mp hi).2
    omega
  · rw [h3, List.range'_concat]
    simp
  · intro hbuf
    obtain ⟨st2, g1, g2, _, _, g5⟩ := json_escape_result str buf0 len hlen hbuf
    have hst : st2 = st := by
      rw [h1] at g1
      injection g1 with g1
      injection g1 with _ g1
      exact g1.symm
    subst hst
    have hc : cstr st2.buf = escape_spec (str.take (consumed_spec len str 0)) := by
      rw [g5]
      exact cstr_append_zero _ _ (escape_spec_nonzero _ (consumed_spec_nonzero len str 0))
    refine ⟨?_, ?_, ?_, ?_⟩
    · rw [g5]
      simp only [List.length_append, List.length_cons, List.length_drop]
      omega
    · rw [g5, List.drop_append_eq_append_drop, List.drop_of_length_le (by omega)]
      have hsub : len - (escape_spec (str.take (consumed_spec len str 0))).length
          = (len - (st2.pos + 1)) + 1 := by omega
      rw [hsub, List.nil_append, List.drop_succ_cons, List.drop_drop]
      congr 1
      omega
    · rw [g5, List.getElem?_append_right (by omega), g2]
      simp
    · rw [hc, ← g2]
      omega

/-- C5, witness: a 4-byte buffer and the input `ab"cd`: the stores go to the
    indices 0, 1, 2, the escape of the double-quote does not fit and is not
    started, and `buf` holds `ab`. -/
theorem C5_json_escape_in_bounds_witness :
    1 ≤ 4 ∧
    (∃ p st, _json_escape (some (ascii "ab\"cd")) (some (List.replicate 4 0xff)) 4 = some (p, st) ∧
      (∀ i ∈ st.written, i < 4) ∧
      st.written.getLast? = some st.pos ∧ st.pos < 4 ∧
      (4 ≤ (List.replicate 4 0xff).length →
        st.buf.length = (List.replicate 4 0xff).length ∧
        st.buf.drop 4 = (List.replicate 4 0xff).drop 4 ∧
        st.buf[st.pos]? = some 0 ∧ (cstr st.buf).length ≤ 4 - 1)) ∧
    _json_escape (some (ascii "ab\"cd")) (some (List.replicate 4 0xff)) 4 =
      some (2, { buf := [0x61, 0x62, 0, 0xff], pos := 2, written := [0, 1, 2] }) :=
  ⟨by decide,
   C5_json_escape_in_bounds (ascii "ab\"cd") (List.replicate 4 0xff) 4 (by decide),
   by decide⟩

/-- C6: for every input and every bound `len >= 1` (`buf` having `len`
    bytes), the returned position `p` is the offset of the first unprocessed
    input byte and the string left in `buf` is exactly the complete encoding
    of the `p` input bytes before it: no escape sequence is split. -/
theorem C6_json_escape_whole_sequences (str buf0 : Bytes) (len : Nat) (hlen : 1 ≤ len)
    (hbuf : len ≤ buf0.length) :
    ∃ p st, _json_escape (some str) (some buf0) len = some (p, st) ∧
      p ≤ str.length ∧ (∀ b ∈ str.take p, b ≠ 0) ∧
      cstr st.buf = escape_spec (str.take p) := by
  obtain ⟨st, h1, h2⟩ := json_escape_cstr str buf0 len hlen hbuf
  exact ⟨_, st, h1, consumed_spec_le len str 0, consumed_spec_nonzero len str 0, h2⟩

/-- C6, witness: a 9-byte buffer and the input `a`, 0x01, `b`: after `a` the
    six characters of `\u0001` fit, `b` fits after them. With 7 bytes the
    escape would need the indices 1..6 and the terminator index 7: the code
    stops at offset 1 and leaves `a`. -/
theorem C6_json_escape_whole_sequences_witness :
    1 ≤ 9 ∧ 9 ≤ (List.replicate 9 0xff).length ∧
    (∃ p st, _json_escape (some [0x61, 0x01, 0x62]) (some (List.replicate 9 0xff)) 9
        = some (p, st) ∧
      p ≤ [0x61, 0x01, 0x62].length ∧ (∀ b ∈ [0x61, 0x01, 0x62].take p, b ≠ 0) ∧
      cstr st.buf = escape_spec ([0x61, 0x01, 0x62].take p)) ∧
    json_escape_output [0x61, 0x01, 0x62] (List.replicate 9 0xff) 9 = ascii "a\\u0001b" ∧
    (_json_escape (some [0x61, 0x01, 0x62]) (some (List.replicate 7 0xff)) 7).map (fun r => r.1)
      = some 1 ∧
    json_escape_output [0x61, 0x01, 0x62] (List.replicate 7 0xff) 7 = ascii "a" :=
  ⟨by decide, by decide,
   C6_json_escape_whole_sequences [0x61, 0x01, 0x62] (List.replicate 9 0xff) 9
     (by decide) (by decide),
   by decide, by decide, by decide⟩

/-- C7: for every input string and every bound `len >= 1` (`buf` having `len`
    bytes), the string left in `buf` by `_json_escape` is a syntactically
    valid JSON string fragment: it holds no byte in 0x01..0x1f, and read left
    to right every backslash starts one of `\b \n \r \t \\ \"` or `\u` plus
    four hex digits and no double-quote stands outside such an escape. -/
theorem C7_json_escape_output_valid (str buf0 : Bytes) (len : Nat) (hlen : 1 ≤ len)
    (hbuf : len ≤ buf0.length) :
    ∃ p st, _json_escape (some str) (some buf0) len = some (p, st) ∧
      json_fragment_valid (cstr st.buf) = true ∧
      (∀ b ∈ cstr st.buf, ¬ (0x01 ≤ b ∧ b ≤ 0x1f)) := by
  obtain ⟨st, h1, h2⟩ := json_escape_cstr str buf0 len hlen hbuf
  refine ⟨_, st, h1, ?_, ?_⟩
  · rw [h2]
    exact json_fragment_valid_escape_spec _
  · intro b hb
    rw [h2] at hb
    have := escape_spec_no_ctl _ (consumed_spec_nonzero len str 0) b hb
    omega

/-- C7, witness: the input `"`, backslash, ESC, newline in a 12-byte buffer
    is cut after the three-escape prefix `\"\\\u001b`, which the reader
    accepts; the raw input is not a valid fragment. -/
theorem C7_json_escape_output_valid_witness :
    1 ≤ 12 ∧ 12 ≤ (List.replicate 12 0xff).length ∧
    (∃ p st, _json_escape (some [0x22, 0x5c, 0x1b, 0x0a]) (some (List.replicate 12 0xff)) 12
        = some (p, st) ∧
      json_fragment_valid (cstr st.buf) = true ∧
      (∀ b ∈ cstr st.buf, ¬ (0x01 ≤ b ∧ b ≤ 0x1f))) ∧
    json_escape_output [0x22, 0x5c, 0x1b, 0x0a] (List.replicate 12 0xff) 12
      = ascii "\\\"\\\\\\u001b" ∧
    json_fragment_valid [0x22, 0x5c, 0x1b, 0x0a] = false :=
  ⟨by decide, by decide,
   C7_json_escape_output_valid [0x22, 0x5c, 0x1b, 0x0a] (List.replicate 12 0xff) 12
     (by decide) (by decide),
   by decide, by decide⟩

/-! ## Lemmas: `gf_syslog` -/

theorem json_local_array_length (content : Nat → Nat) :
    (json_local_array content).length = GF_JSON_MSG_LENGTH := by
  simp [json_local_array]

/-- The string left in a local array of `gf_syslog` by `_json_escape`. -/
theorem cstr_json_escape_buf (str : Bytes) (content : Nat → Nat) :
    cstr (json_escape_buf (some str) (json_local_array content) GF_JSON_MSG_LENGTH) =
      escape_spec (str.take (consumed_spec GF_JSON_MSG_LENGTH str 0)) := by
  obtain ⟨st, h1, h2⟩ := json_escape_cstr str (json_local_array content) GF_JSON_MSG_LENGTH
    (by decide) (by rw [json_local_array_length])
  simp only [json_escape_buf, h1, h2]

/-- A string without NUL whose encoding is shorter than the local array is
    escaped whole. -/
theorem cstr_json_escape_buf_short (str : Bytes) (content : Nat → Nat)
    (h0 : ∀ b ∈ str, b ≠ 0) (hfit : (escape_spec str).length < GF_JSON_MSG_LENGTH) :
    cstr (json_escape_buf (some str) (json_local_array content) GF_JSON_MSG_LENGTH) =
      escape_spec str := by
  rw [cstr_json_escape_buf, consumed_spec_full _ str 0 h0 (by omega), List.take_length]

theorem fmt_u_of_nonneg (c : Int) (h0 : 0 ≤ c) (h1 : c < 2 ^ 32) :
    fmt_u c = decimal c.toNat := by
  unfold fmt_u
  rw [Int.emod_eq_of_lt h0 h1]

/-- The submission of `gf_syslog` when both a user message and a catalogue
    message exist. -/
theorem gf_syslog_cee (env : Env) (c prio : Int) (m e : Bytes) (w : World)
    (hlookup : env._gf_get_message c = some e) :
    gf_syslog env c prio (some m) w =
      w.emit (.syslog prio (GF_SYSLOG_CEE_FORMAT
        (escape_spec (m.take (consumed_spec GF_JSON_MSG_LENGTH m 0))) c
        (escape_spec (e.take (consumed_spec GF_JSON_MSG_LENGTH e 0))))) := by
  simp only [gf_syslog, hlookup, cstr_json_escape_buf]

/-! ## Theorems: CEE framing -/

/-- C8: for every error code `c` (a non-negative `int`) whose lookup returns
    a message `e` and every formatted user message `m`, `gf_syslog` submits
    exactly one record, with the caller's priority, whose payload is
    `@cee: {"msg": "<escape(m)>", "gf_code": "<c in decimal>", "gf_message":
    "<escape(e)>"}`, where `escape` is what `_json_escape` leaves in an
    8192-byte array: the encoding of the longest prefix that fits, and of
    the whole string when it has no NUL and its encoding is shorter than
    8192. -/
theorem C8_cee_framing (env : Env) (c prio : Int) (m e : Bytes) (w : World)
    (hlookup : env._gf_get_message c = some e) (hc0 : 0 ≤ c) (hc1 : c < 2 ^ 31) :
    gf_syslog env c prio (some m) w =
      w.emit (.syslog prio
        (ascii "@cee: \x7b\"msg\": \"" ++
          json_escape_output m (json_local_array env.json_msg_garbage) 8192 ++
          ascii "\", \"gf_code\": \"" ++ decimal c.toNat ++ ascii "\", \"gf_message\": \"" ++
          json_escape_output e (json_local_array env.json_error_message_garbage) 8192 ++
          ascii "\"\x7d")) ∧
    (∀ garbage, json_escape_output m (json_local_array garbage) 8192 =
        escape_spec (m.take (consumed_spec 8192 m 0))) ∧
    (∀ garbage, json_escape_output e (json_local_array garbage) 8192 =
        escape_spec (e.take (consumed_spec 8192 e 0))) ∧
    (∀ s : Bytes, (∀ b ∈ s, b ≠ 0) → (escape_spec s).length < 8192 →
        escape_spec (s.take (consumed_spec 8192 s 0)) = escape_spec s) := by
  have hout : ∀ (s : Bytes) (garbage : Nat → Nat),
      json_escape_output s (json_local_array garbage) 8192 =
        escape_spec (s.take (consumed_spec 8192 s 0)) := fun s garbage =>
    json_escape_output_eq s _ 8192 (by decide) (by rw [json_local_array_length]; decide)
  refine ⟨?_, hout m, hout e, ?_⟩
  · rw [gf_syslog_cee env c prio m e w hlookup, hout, hout, GF_SYSLOG_CEE_FORMAT,
      fmt_u_of_nonneg c hc0 (by omega)]
    rfl
  · intro s h0 hfit
    rw [consumed_spec_full 8192 s 0 h0 (by omega), List.take_length]

/-- C8, witness: code 30800, message `devel error`, lookup `generic error`. -/
theorem C8_cee_framing_witness :
    env_sample._gf_get_message 30800 = some (ascii "generic error") ∧
    (0 : Int) ≤ 30800 ∧ (30800 : Int) < 2 ^ 31 ∧
    gf_syslog env_sample 30800 3 (some (ascii "devel error")) (world_of (ctx_with_level 7 false))
      = (world_of (ctx_with_level 7 false)).emit (.syslog 3 (ascii
        "@cee: \x7b\"msg\": \"devel error\", \"gf_code\": \"30800\", \"gf_message\": \"generic error\"\x7d")) :=
  ⟨rfl, by decide, by decide,
   ((C8_cee_framing env_sample 30800 3 (ascii "devel error") (ascii "generic error")
      (world_of (ctx_with_level 7 false)) rfl (by decide) (by decide)).1).trans
    (by
      rw [json_escape_output_full _ _ 8192 (by decide) (by decide)
            (by rw [json_local_array_length]; decide),
          json_escape_output_full _ _ 8192 (by decide) (by decide)
            (by rw [json_local_array_length]; decide)]
      rfl)⟩

/-! ## Theorems: the gate of the other entry points -/

/-- The gate of `_gf_msg` fails exactly when one of its two tests fires. -/
theorem gf_msg_should_log_false (log : gf_log_handle_t) (this : xlator_t) (level : Nat)
    (h : _gf_msg_should_log log this level = false) :
    (log.gf_log_xl_log_set && (this.loglevel != 0 && decide (level > this.loglevel))) = true ∨
      level > log.loglevel := by
  unfold _gf_msg_should_log at h
  by_cases h1 : (log.gf_log_xl_log_set && (this.loglevel != 0 &&
      decide (level > this.loglevel))) = true
  · exact Or.inl h1
  · rw [if_neg h1] at h
    by_cases h2 : level > log.loglevel
    · exact Or.inr h2
    · rw [if_neg h2] at h
      exact absurd h (by decide)

/-- C3: the emergency path and the other entry points use the gate of
    `_gf_msg`, and evaluate it before anything else: for every environment,
    component, level and context state in which the gate of `_gf_msg`
    suppresses the level, `_gf_msg_nomem`, `_gf_msg_plain`, `_gf_msg_vplain`,
    `_gf_msg_plain_nomem`, `_gf_msg_backtrace_nomem` and `_gf_log` return
    with no effect at all (trace and context unchanged, also for `NULL`
    arguments), so none of them produces output unless the gate passes. -/
theorem C3_emergency_path_same_gate (env : Env) (this : xlator_t) (level : Nat) (w : World)
    (hgate : _gf_msg_should_log w.log this level = false) :
    (∀ domain file function line size,
      _gf_msg_nomem env this domain file function line level size w = (0, w)) ∧
    (∀ fmt, _gf_msg_plain env this level fmt w = (0, w)) ∧
    (∀ fmt, _gf_msg_vplain env this level fmt w = (0, w)) ∧
    (∀ msg, _gf_msg_plain_nomem this level msg w = (0, w)) ∧
    (∀ stacksize, _gf_msg_backtrace_nomem env this level stacksize w = w) ∧
    (∀ domain file function line fmt,
      _gf_log env this domain file function line level fmt w = (0, w)) := by
  have hg := gf_msg_should_log_false w.log this level hgate
  refine ⟨?_, ?_, ?_, ?_, ?_, ?_⟩
  · intro domain file function line size
    unfold _gf_msg_nomem
    by_cases hc : this.has_ctx = true
    · rcases hg with h1 | h2
      · simp [hc, h1]
      · by_cases h1 : (w.log.gf_log_xl_log_set && (this.loglevel != 0 &&
            decide (level > this.loglevel))) = true
        · simp [hc, h1]
        · simp only [hc, Bool.not_true, Bool.false_eq_true, if_false, if_neg h1, if_pos h2]
    · simp [hc]
  · intro fmt
    unfold _gf_msg_plain
    by_cases hc : this.has_ctx = true
    · rcases hg with h1 | h2
      · simp [hc, h1]
      · by_cases h1 : (w.log.gf_log_xl_log_set && (this.loglevel != 0 &&
            decide (level > this.loglevel))) = true
        · simp [hc, h1]
        · simp only [hc, Bool.not_true, Bool.false_eq_true, if_false, if_neg h1, if_pos h2]
    · simp [hc]
  · intro fmt
    unfold _gf_msg_vplain
    by_cases hc : this.has_ctx = true
    · rcases hg with h1 | h2
      · simp [hc, h1]
      · by_cases h1 : (w.log.gf_log_xl_log_set && (this.loglevel != 0 &&
            decide (level > this.loglevel))) = true
        · simp [hc, h1]
        · simp only [hc, Bool.not_true, Bool.false_eq_true, if_false, if_neg h1, if_pos h2]
    · simp [hc]
  · intro msg
    unfold _gf_msg_plain_nomem
    by_cases hc : this.has_ctx = true
    · rcases hg with h1 | h2
      · simp [hc, h1]
      · by_cases h1 : (w.log.gf_log_xl_log_set && (this.loglevel != 0 &&
            decide (level > this.loglevel))) = true
        · simp [hc, h1]
        · simp only [hc, Bool.not_true, Bool.false_eq_true, if_false, if_neg h1, if_pos h2]
    · simp [hc]
  · intro stacksize
    unfold _gf_msg_backtrace_nomem
    by_cases hc : this.has_ctx = true
    · by_cases hl : w.log.logger ≠ gf_logger_glusterlog
      · simp [hc, hl]
      · rcases hg with h1 | h2
        · simp only [hc, Bool.not_true, Bool.false_eq_true, if_false, if_neg hl, if_pos h1]
        · by_cases h1 : (w.log.gf_log_xl_log_set && (this.loglevel != 0 &&
              decide (level > this.loglevel))) = true
          · simp only [hc, Bool.not_true, Bool.false_eq_true, if_false, if_neg hl, if_pos h1]
          · simp only [hc, Bool.not_true, Bool.false_eq_true, if_false, if_neg hl, if_neg h1,
              if_pos h2]
    · simp [hc]
  · intro domain file function line fmt
    unfold _gf_log
    rcases hg with h1 | h2
    · rw [if_pos h1]
    · by_cases h1 : (w.log.gf_log_xl_log_set && (this.loglevel != 0 &&
          decide (level > this.loglevel))) = true
      · rw [if_pos h1]
      · rw [if_neg h1, if_pos h2]

/-- C3, witness: global level Info(7), no override; a Debug(8) call of each
    entry point has no effect, while an Error(4) call of `_gf_msg_nomem` in
    the same state writes its line. -/
theorem C3_emergency_path_same_gate_witness :
    _gf_msg_should_log (world_of (ctx_with_level GF_LOG_INFO false)).log (xl_with_level 0)
      GF_LOG_DEBUG = false ∧
    ((∀ domain file function line size,
      _gf_msg_nomem env_sample (xl_with_level 0) domain file function line GF_LOG_DEBUG size
        (world_of (ctx_with_level GF_LOG_INFO false))
        = (0, world_of (ctx_with_level GF_LOG_INFO false))) ∧
    (∀ fmt, _gf_msg_plain env_sample (xl_with_level 0) GF_LOG_DEBUG fmt
        (world_of (ctx_with_level GF_LOG_INFO false))
        = (0, world_of (ctx_with_level GF_LOG_INFO false))) ∧
    (∀ fmt, _gf_msg_vplain env_sample (xl_with_level 0) GF_LOG_DEBUG fmt
        (world_of (ctx_with_level GF_LOG_INFO false))
        = (0, world_of (ctx_with_level GF_LOG_INFO false))) ∧
    (∀ msg, _gf_msg_plain_nomem (xl_with_level 0) GF_LOG_DEBUG msg
        (world_of (ctx_with_level GF_LOG_INFO false))
        = (0, world_of (ctx_with_level GF_LOG_INFO false))) ∧
    (∀ stacksize, _gf_msg_backtrace_nomem env_sample (xl_with_level 0) GF_LOG_DEBUG stacksize
        (world_of (ctx_with_level GF_LOG_INFO false))
        = world_of (ctx_with_level GF_LOG_INFO false)) ∧
    (∀ domain file function line fmt,
      _gf_log env_sample (xl_with_level 0) domain file function line GF_LOG_DEBUG fmt
        (world_of (ctx_with_level GF_LOG_INFO false))
        = (0, world_of (ctx_with_level GF_LOG_INFO false)))) ∧
    (_gf_msg_nomem env_sample (xl_with_level 0) (some (ascii "glusterd"))
        (some (ascii "/src/mem-pool.c")) (some (ascii "__gf_malloc")) 90 GF_LOG_ERROR 4096
        (world_of (ctx_with_level GF_LOG_INFO false))).2.out =
      [Event.write_fd 2 (ascii ("[2014-03-01 10:20:30.000034] E [MSGID: 0] " ++
          "[mem-pool.c:90:__gf_malloc] glusterd: no memory available for size (4096) " ++
          "[call stack follows]\n")),
       Event.backtrace_symbols_fd 5 2] :=
  ⟨by decide,
   C3_emergency_path_same_gate env_sample (xl_with_level 0) GF_LOG_DEBUG
     (world_of (ctx_with_level GF_LOG_INFO false)) (by decide),
   by decide⟩

/-! ## Lemmas: what the backends leave of the context -/

@[simp] theorem emit_log (w : World) (e : Event) : (w.emit e).log = w.log := rfl

@[simp] theorem emit_out (w : World) (e : Event) : (w.emit e).out = w.out ++ [e] := rfl

@[simp] theorem syslog_mirror_log (level : Nat) (msg : Bytes) (w : World) :
    (syslog_mirror level msg w).log = w.log := by
  unfold syslog_mirror
  split_ifs <;> rfl

@[simp] theorem gf_syslog_log (env : Env) (c prio : Int) (format : Option Bytes) (w : World) :
    (gf_syslog env c prio format w).log = w.log := by
  unfold gf_syslog
  cases format <;> cases env._gf_get_message c <;> rfl

@[simp] theorem gf_log_write_log (env : Env) (this : xlator_t) (domain basename function : Bytes)
    (line : Int) (level : Nat) (fmt : Bytes) (w : World) :
    (_gf_log_write env this domain basename function line level fmt w).2.log = w.log := by
  unfold _gf_log_write
  cases env.gettimeofday with
  | none => rfl
  | some tv =>
    cases env.gf_asprintf_ok <;> cases env.vasprintf_ok <;> cases hf : w.log.logfile <;>
      simp [hf]
    split_ifs <;> simp

/-- A call of `_gf_log` made with the rotation flag clear leaves the context
    as it is. -/
theorem gf_log_log_of_no_rotate (env : Env) (this : xlator_t)
    (domain file function : Option Bytes) (line : Int) (level : Nat) (fmt : Option Bytes)
    (w : World) (hrot : w.log.logrotate = false) :
    (_gf_log env this domain file function line level fmt w).2.log = w.log := by
  unfold _gf_log
  by_cases h1 : (w.log.gf_log_xl_log_set && (this.loglevel != 0 &&
      decide (level > this.loglevel))) = true
  · rw [if_pos h1]
  · rw [if_neg h1]
    by_cases h2 : level > w.log.loglevel
    · rw [if_pos h2]
    · rw [if_neg h2]
      cases domain <;> cases file <;> cases function <;> cases fmt <;> try rfl
      dsimp only
      by_cases h3 : w.log.log_control_file_found = true
      · rw [if_pos h3]
        simp
      · rw [if_neg h3, dif_neg (by rw [hrot]; decide)]
        simp

/-- The function `gf_log_rotate` changes at most the rotation flag and the
    two stream members of the context. -/
theorem gf_log_rotate_log (env : Env) (this : xlator_t) (w : World) :
    ∃ lf glf, (gf_log_rotate env this w).log =
      { w.log with logrotate := false, logfile := lf, gf_log_logfile := glf } := by
  unfold gf_log_rotate
  by_cases hrot : w.log.logrotate = true
  · rw [if_pos hrot]
    simp only
    cases env.open_ok with
    | false =>
      refine ⟨w.log.logfile, w.log.gf_log_logfile, ?_⟩
      simp only [Bool.not_false, if_true, gf_log]
      rw [gf_log_log_of_no_rotate _ _ _ _ _ _ _ _ _ rfl]
      rfl
    | true =>
      simp only [Bool.not_true, Bool.false_eq_true, if_false]
      cases env.fopen_result with
      | none =>
        refine ⟨w.log.logfile, w.log.gf_log_logfile, ?_⟩
        simp only [gf_log]
        rw [gf_log_log_of_no_rotate _ _ _ _ _ _ _ _ _ rfl]
        rfl
      | some new_logfile =>
        refine ⟨some new_logfile, some new_logfile, ?_⟩
        simp only [emit_log]
        cases w.log.logfile <;> rfl
  · rw [if_neg hrot]
    refine ⟨w.log.logfile, w.log.gf_log_logfile, ?_⟩
    have : w.log.logrotate = false := by simpa using hrot
    cases hw : w.log
    rw [hw] at this
    simp only at this
    subst this
    rfl

/-! ## Theorems: the Cee variant -/

/-- The run of `_gf_msg` through the syslog backend with the Cee format. -/
theorem gf_msg_syslog_cee (env : Env) (this : xlator_t) (domain file function : Bytes)
    (line : Int) (level : Nat) (errnum : Int) (trace : Bool) (msgid : Nat) (body e : Bytes)
    (w : World) (hctx : this.has_ctx = true)
    (hgate : _gf_msg_should_log w.log this level = true) (hfmt : env.vasprintf_ok = true)
    (hlogger : w.log.logger = gf_logger_syslog)
    (hfound : w.log.log_control_file_found = true) (hsys : w.log.gf_log_syslog = true)
    (hcee : w.log.logformat = gf_logformat_cee)
    (hlookup : env._gf_get_message env.GF_ERR_DEV = some e) :
    _gf_msg env this (some domain) (some file) (some function) line level errnum trace msgid
        (some body) w =
      (0, w.emit (.syslog ( SET_LOG_PRIO level)
        (GF_SYSLOG_CEE_FORMAT (escape_8192 (cee_user_message this domain file function line body))
          env.GF_ERR_DEV (escape_8192 e)))) := by
  simp only [_gf_msg, hctx, hgate, hfmt, _gf_msg_internal, hlogger, hfound, hsys, gf_log_syslog,
    hcee, Bool.not_true, Bool.false_eq_true, if_false, if_true, Bool.and_self]
  rw [gf_syslog_cee env _ _ _ e w hlookup]
  rfl

/-- C9 (as stated, refuted): a record with body `devel error`, message id
    106001, origin `/src/glusterd.c:42:init`, domain `glusterd`, delivered by
    `_gf_msg` through the syslog backend with the Cee format.  The payload
    carries the origin, the graph id and the domain inside "msg" and the
    fixed code `GF_ERR_DEV` (30800 here) as "gf_code": it is not the payload
    whose "msg" is the escaped body alone, whichever of the two codes is
    taken for "gf_code". -/
theorem C9_cee_msg_carries_origin :
    (_gf_msg env_sample (xl_with_level 0) (some (ascii "glusterd"))
      (some (ascii "/src/glusterd.c")) (some (ascii "init")) 42 GF_LOG_ERROR 0 false 106001
      (some (ascii "devel error"))
      (world_of (ctx_sample gf_logger_syslog gf_logformat_cee true (some 3)))).2.out =
    [Event.syslog 3 (ascii ("@cee: \x7b\"msg\": \"[glusterd.c:42:init] 0-glusterd: devel error\", " ++
       "\"gf_code\": \"30800\", \"gf_message\": \"generic error\"\x7d"))] ∧
    ascii ("@cee: \x7b\"msg\": \"[glusterd.c:42:init] 0-glusterd: devel error\", " ++
       "\"gf_code\": \"30800\", \"gf_message\": \"generic error\"\x7d") ≠
      GF_SYSLOG_CEE_FORMAT (escape_spec (ascii "devel error")) 106001
        (escape_spec (ascii "generic error")) ∧
    ascii ("@cee: \x7b\"msg\": \"[glusterd.c:42:init] 0-glusterd: devel error\", " ++
       "\"gf_code\": \"30800\", \"gf_message\": \"generic error\"\x7d") ≠
      GF_SYSLOG_CEE_FORMAT (escape_spec (ascii "devel error")) 30800
        (escape_spec (ascii "generic error")) := by
  refine ⟨?_, by decide, by decide⟩
  rw [gf_msg_syslog_cee env_sample (xl_with_level 0) (ascii "glusterd") (ascii "/src/glusterd.c")
    (ascii "init") 42 GF_LOG_ERROR 0 false 106001 (ascii "devel error") (ascii "generic error")
    (world_of (ctx_sample gf_logger_syslog gf_logformat_cee true (some 3)))
    rfl (by decide) rfl rfl rfl rfl rfl rfl]
  decide

/-- C9 (amended): when `_gf_msg` delivers a record through the syslog backend
    with the Cee format (and the catalogue has a message `e` for
    `GF_ERR_DEV`), it submits exactly one syslog record, at the priority of
    the level, whose payload is the CEE line with "msg" the escape of
    `[<basename>:<line>:<function>] <graph id>-<domain>: <body>`, "gf_code"
    the fixed code `GF_ERR_DEV` and "gf_message" the escape of `e`; the
    timestamp, the level tag, the message id, the call stack and the errno
    do not appear, and nothing is written to the log file or to stderr. -/
theorem C9_cee_payload_amended (env : Env) (this : xlator_t) (domain file function : Bytes)
    (line : Int) (level : Nat) (errnum : Int) (trace : Bool) (msgid : Nat) (body e : Bytes)
    (w : World) (hctx : this.has_ctx = true)
    (hgate : _gf_msg_should_log w.log this level = true) (hfmt : env.vasprintf_ok = true)
    (hlogger : w.log.logger = gf_logger_syslog)
    (hfound : w.log.log_control_file_found = true) (hsys : w.log.gf_log_syslog = true)
    (hcee : w.log.logformat = gf_logformat_cee)
    (hlookup : env._gf_get_message env.GF_ERR_DEV = some e) :
    _gf_msg env this (some domain) (some file) (some function) line level errnum trace msgid
        (some body) w =
      (0, w.emit (.syslog ( SET_LOG_PRIO level)
        (ascii "@cee: \x7b\"msg\": \"" ++
          escape_8192 (ascii "[" ++ GET_FILE_NAME_TO_LOG file ++ ascii ":" ++ fmt_d line ++
            ascii ":" ++ function ++ ascii "] " ++ fmt_d (graph_id this) ++ ascii "-" ++
            domain ++ ascii ": " ++ body) ++
          ascii "\", \"gf_code\": \"" ++ fmt_u env.GF_ERR_DEV ++
          ascii "\", \"gf_message\": \"" ++ escape_8192 e ++ ascii "\"\x7d"))) :=
  gf_msg_syslog_cee env this domain file function line level errnum trace msgid body e w
    hctx hgate hfmt hlogger hfound hsys hcee hlookup

/-- C9 (amended), witness: the record of the counterexample, with errno 5
    and a call stack requested. -/
theorem C9_cee_payload_amended_witness :
    (xl_with_level 0).has_ctx = true ∧
    _gf_msg_should_log (world_of (ctx_sample gf_logger_syslog gf_logformat_cee true (some 3))).log
      (xl_with_level 0) GF_LOG_ERROR = true ∧
    env_sample.vasprintf_ok = true ∧
    env_sample._gf_get_message env_sample.GF_ERR_DEV = some (ascii "generic error") ∧
    _gf_msg env_sample (xl_with_level 0) (some (ascii "glusterd"))
        (some (ascii "/src/glusterd.c")) (some (ascii "init")) 42 GF_LOG_ERROR 5 true 106001
        (some (ascii "devel error"))
        (world_of (ctx_sample gf_logger_syslog gf_logformat_cee true (some 3))) =
      (0, (world_of (ctx_sample gf_logger_syslog gf_logformat_cee true (some 3))).emit
        (.syslog 3 (ascii ("@cee: \x7b\"msg\": \"[glusterd.c:42:init] 0-glusterd: devel error\", " ++
          "\"gf_code\": \"30800\", \"gf_message\": \"generic error\"\x7d")))) :=
  ⟨rfl, by decide, rfl, rfl,
   (C9_cee_payload_amended env_sample (xl_with_level 0) (ascii "glusterd")
      (ascii "/src/glusterd.c") (ascii "init") 42 GF_LOG_ERROR 5 true 106001
      (ascii "devel error") (ascii "generic error")
      (world_of (ctx_sample gf_logger_syslog gf_logformat_cee true (some 3)))
      rfl (by decide) rfl rfl rfl rfl rfl rfl).trans (by decide)⟩

/-! ## Theorems: backend selection -/

theorem syslog_mirror_eq (level : Nat) (msg : Bytes) (w : World) :
    syslog_mirror level msg w =
      { log := w.log, out := w.out ++ mirror_events w.log level msg } := by
  unfold syslog_mirror mirror_events
  split_ifs
  · rfl
  · simp

/-- The syslog backend submits exactly one record and does nothing else. -/
theorem gf_log_syslog_one_record (env : Env) (this : xlator_t) (domain file function : Bytes)
    (line : Int) (level : Nat) (errnum : Int) (msgid : Nat) (appmsgstr : Bytes)
    (callstr : Option Bytes) (w : World) :
    ∃ text, gf_log_syslog env this domain file function line level errnum msgid appmsgstr
        callstr w = (0, w.emit (.syslog ( SET_LOG_PRIO level) text)) := by
  unfold gf_log_syslog
  cases w.log.logformat with
  | gf_logformat_traditional =>
    cases callstr <;> dsimp only <;> split_ifs <;> exact ⟨_, rfl⟩
  | gf_logformat_withmsgid =>
    cases callstr <;> dsimp only <;> split_ifs <;> exact ⟨_, rfl⟩
  | gf_logformat_cee =>
    simp only [gf_syslog]
    cases env._gf_get_message env.GF_ERR_DEV <;> exact ⟨_, rfl⟩

/-- The file backend, when the clock and the allocations answer and the
    level is within the global level: the rotation step, then one write of
    the line to the log file (or to stderr when there is none), then the
    mirror copy. -/
theorem gf_log_glusterlog_one_write (env : Env) (this : xlator_t)
    (domain file function : Bytes) (line : Int) (level : Nat) (errnum : Int) (msgid : Nat)
    (appmsgstr : Bytes) (callstr : Option Bytes) (w : World) (tv : Nat × Nat)
    (hclock : env.gettimeofday = some tv) (halloc : env.gf_asprintf_ok = true)
    (hgate : level ≤ w.log.loglevel) :
    ∃ ret msg, gf_log_glusterlog env this domain file function line level errnum msgid
        appmsgstr callstr w =
      (ret, { log := (gf_log_rotate env this w).log,
              out := (gf_log_rotate env this w).out ++
                file_backend_write (gf_log_rotate env this w).log.logfile (msg ++ ascii "\n") ::
                mirror_events w.log level msg }) := by
  obtain ⟨lf, glf, hlog⟩ := gf_log_rotate_log env this w
  have hlevel : (gf_log_rotate env this w).log.loglevel = w.log.loglevel := by rw [hlog]
  have hmirror : ∀ msg, mirror_events (gf_log_rotate env this w).log level msg =
      mirror_events w.log level msg := by
    intro msg
    unfold mirror_events
    rw [hlog]
  refine ⟨(gf_log_glusterlog env this domain file function line level errnum msgid
      appmsgstr callstr w).1,
    glusterlog_header this (gf_log_rotate env this w).log.logformat (timestamp env tv)
      domain file function line level msgid callstr ++ appmsgstr ++
      (if errnum ≠ 0 then some (ascii " [" ++ env.strerror errnum ++ ascii "]")
        else none).getD [], ?_⟩
  refine Prod.ext rfl ?_
  unfold gf_log_glusterlog
  simp only [hclock, halloc, Bool.not_true, Bool.false_eq_true, if_false]
  rw [syslog_mirror_eq]
  cases hf : (gf_log_rotate env this w).log.logfile with
  | some f =>
    simp only [emit_log, emit_out, file_backend_write, hmirror, List.append_assoc,
      List.singleton_append]
  | none =>
    have hge : (gf_log_rotate env this w).log.loglevel ≥ level := by rw [hlevel]; exact hgate
    simp only [hge, if_true, emit_log, emit_out, file_backend_write, hmirror, List.append_assoc,
      List.singleton_append]

/-- C10: backend selection in `_gf_msg_internal`, for every context state.
    When `logger == syslog` and the control file was found and syslog is
    enabled, the record is delivered by exactly one syslog submission and
    nothing else happens (no file or stderr write, no rotation).  In every
    other state (also `logger == syslog` with the control file absent) the
    call is the file backend: for a gated record, the clock and the
    allocations answering, after the rotation step the line is written
    exactly once, to the log file or to stderr when there is none, and the
    only syslog submission that follows is the mirror copy (priority
    `level - 1`, the line plus a newline), not the primary syslog path. -/
theorem C10_backend_selection (env : Env) (this : xlator_t) (domain file function : Bytes)
    (line : Int) (level : Nat) (errnum : Int) (msgid : Nat) (appmsgstr : Bytes)
    (callstr : Option Bytes) (w : World) (tv : Nat × Nat)
    (hclock : env.gettimeofday = some tv) (halloc : env.gf_asprintf_ok = true)
    (hgate : level ≤ w.log.loglevel) :
    ((w.log.logger = gf_logger_syslog ∧ w.log.log_control_file_found = true ∧
        w.log.gf_log_syslog = true) →
      ∃ text, _gf_msg_internal env this domain file function line level errnum msgid
          appmsgstr callstr w = (0, w.emit (.syslog ( SET_LOG_PRIO level) text))) ∧
    (¬ (w.log.logger = gf_logger_syslog ∧ w.log.log_control_file_found = true ∧
        w.log.gf_log_syslog = true) →
      _gf_msg_internal env this domain file function line level errnum msgid
          appmsgstr callstr w =
        gf_log_glusterlog env this domain (GET_FILE_NAME_TO_LOG file) function line level
          errnum msgid appmsgstr callstr w ∧
      ∃ ret msg, _gf_msg_internal env this domain file function line level errnum msgid
          appmsgstr callstr w =
        (ret, { log := (gf_log_rotate env this w).log,
                out := (gf_log_rotate env this w).out ++
                  file_backend_write (gf_log_rotate env this w).log.logfile
                    (msg ++ ascii "\n") ::
                  mirror_events w.log level msg })) := by
  constructor
  · rintro ⟨h1, h2, h3⟩
    simp only [_gf_msg_internal, h1, h2, h3, Bool.and_self, if_true]
    exact gf_log_syslog_one_record env this domain _ function line level errnum msgid
      appmsgstr callstr w
  · intro hn
    have hsel : _gf_msg_internal env this domain file function line level errnum msgid
          appmsgstr callstr w =
        gf_log_glusterlog env this domain (GET_FILE_NAME_TO_LOG file) function line level
          errnum msgid appmsgstr callstr w := by
      unfold _gf_msg_internal
      cases hl : w.log.logger with
      | gf_logger_glusterlog => rfl
      | gf_logger_syslog =>
        have hc : (w.log.log_control_file_found && w.log.gf_log_syslog) = false := by
          cases h2 : w.log.log_control_file_found <;> cases h3 : w.log.gf_log_syslog <;>
            simp_all
        simp only [hc, Bool.false_eq_true, if_false]
    refine ⟨hsel, ?_⟩
    rw [hsel]
    exact gf_log_glusterlog_one_write env this domain _ function line level errnum msgid
      appmsgstr callstr w tv hclock halloc hgate

/-- C10, witness: a Critical(3) record with `logger == syslog`.  With the
    control file present it goes to syslog only; with the control file
    absent it is written once to the log file (handle 3) and mirrored. -/
theorem C10_backend_selection_witness :
    env_sample.gettimeofday = some (12, 34) ∧ env_sample.gf_asprintf_ok = true ∧
    GF_LOG_CRITICAL ≤
      (world_of (ctx_sample gf_logger_syslog gf_logformat_withmsgid true (some 3))).log.loglevel ∧
    (∃ text, _gf_msg_internal env_sample (xl_with_level 0) (ascii "glusterd")
        (ascii "/src/glusterd.c") (ascii "init") 42 GF_LOG_CRITICAL 0 106001 (ascii "devel error")
        none (world_of (ctx_sample gf_logger_syslog gf_logformat_withmsgid true (some 3))) =
      (0, (world_of (ctx_sample gf_logger_syslog gf_logformat_withmsgid true (some 3))).emit
        (.syslog ( SET_LOG_PRIO GF_LOG_CRITICAL) text))) ∧
    (∃ ret msg, _gf_msg_internal env_sample (xl_with_level 0) (ascii "glusterd")
        (ascii "/src/glusterd.c") (ascii "init") 42 GF_LOG_CRITICAL 0 106001 (ascii "devel error")
        none (world_of (ctx_sample gf_logger_syslog gf_logformat_withmsgid false (some 3))) =
      (ret, { log := (gf_log_rotate env_sample (xl_with_level 0)
                (world_of (ctx_sample gf_logger_syslog gf_logformat_withmsgid false (some 3)))).log,
              out := (gf_log_rotate env_sample (xl_with_level 0)
                (world_of (ctx_sample gf_logger_syslog gf_logformat_withmsgid false (some 3)))).out ++
                file_backend_write (gf_log_rotate env_sample (xl_with_level 0)
                  (world_of (ctx_sample gf_logger_syslog gf_logformat_withmsgid false
                    (some 3)))).log.logfile (msg ++ ascii "\n") ::
                mirror_events
                  (world_of (ctx_sample gf_logger_syslog gf_logformat_withmsgid false (some 3))).log
                  GF_LOG_CRITICAL msg })) ∧
    (_gf_msg_internal env_sample (xl_with_level 0) (ascii "glusterd")
        (ascii "/src/glusterd.c") (ascii "init") 42 GF_LOG_CRITICAL 0 106001 (ascii "devel error")
        none (world_of (ctx_sample gf_logger_syslog gf_logformat_withmsgid true (some 3)))).2.out =
      [Event.syslog 2 (ascii "[MSGID: 106001] [glusterd.c:42:init] 0-glusterd: devel error")] ∧
    (_gf_msg_internal env_sample (xl_with_level 0) (ascii "glusterd")
        (ascii "/src/glusterd.c") (ascii "init") 42 GF_LOG_CRITICAL 0 106001 (ascii "devel error")
        none (world_of (ctx_sample gf_logger_syslog gf_logformat_withmsgid false (some 3)))).2.out =
      [Event.fprintf_file 3 (ascii ("[2014-03-01 10:20:30.000034] C [MSGID: 106001] " ++
          "[glusterd.c:42:init] 0-glusterd: devel error\n")),
       Event.syslog 2 (ascii ("[2014-03-01 10:20:30.000034] C [MSGID: 106001] " ++
          "[glusterd.c:42:init] 0-glusterd: devel error\n"))] :=
  ⟨rfl, rfl, by decide,
   (C10_backend_selection env_sample (xl_with_level 0) (ascii "glusterd")
      (ascii "/src/glusterd.c") (ascii "init") 42 GF_LOG_CRITICAL 0 106001 (ascii "devel error")
      none (world_of (ctx_sample gf_logger_syslog gf_logformat_withmsgid true (some 3))) (12, 34)
      rfl rfl (by decide)).1 ⟨rfl, rfl, rfl⟩,
   ((C10_backend_selection env_sample (xl_with_level 0) (ascii "glusterd")
      (ascii "/src/glusterd.c") (ascii "init") 42 GF_LOG_CRITICAL 0 106001 (ascii "devel error")
      none (world_of (ctx_sample gf_logger_syslog gf_logformat_withmsgid false (some 3))) (12, 34)
      rfl rfl (by decide)).2 (by decide)).2,
   by decide, by decide⟩

/-! ## Theorems: the syslog mirror -/

/-- The trace of the file backend when the clock and the allocations
    answer: the rotation step, the write of the line, the mirror copy. -/
theorem gf_log_glusterlog_trace (env : Env) (this : xlator_t)
    (domain file function : Bytes) (line : Int) (level : Nat) (errnum : Int) (msgid : Nat)
    (appmsgstr : Bytes) (callstr : Option Bytes) (w : World) (tv : Nat × Nat)
    (hclock : env.gettimeofday = some tv) (halloc : env.gf_asprintf_ok = true) :
    (gf_log_glusterlog env this domain file function line level errnum msgid appmsgstr
        callstr w).2 =
      { log := (gf_log_rotate env this w).log,
        out := (gf_log_rotate env this w).out ++
          file_backend_events (gf_log_rotate env this w).log level
            (glusterlog_line env this w.log.logformat tv domain file function line level errnum
              msgid appmsgstr callstr ++ ascii "\n") ++
          mirror_events w.log level
            (glusterlog_line env this w.log.logformat tv domain file function line level errnum
              msgid appmsgstr callstr) } := by
  obtain ⟨lf, glf, hlog⟩ := gf_log_rotate_log env this w
  have hfmt : (gf_log_rotate env this w).log.logformat = w.log.logformat := by rw [hlog]
  have hmirror : ∀ msg, mirror_events (gf_log_rotate env this w).log level msg =
      mirror_events w.log level msg := by
    intro msg
    unfold mirror_events
    rw [hlog]
  unfold gf_log_glusterlog
  simp only [hclock, halloc, Bool.not_true, Bool.false_eq_true, if_false]
  rw [syslog_mirror_eq]
  unfold glusterlog_line file_backend_events
  rw [hfmt]
  cases hf : (gf_log_rotate env this w).log.logfile with
  | some f => simp only [emit_log, emit_out, hmirror]
  | none =>
    by_cases hge : (gf_log_rotate env this w).log.loglevel ≥ level
    · simp only [hge, if_true, emit_log, emit_out, hmirror]
    · simp only [hge, if_false, hmirror, List.append_nil]

theorem mirror_events_of_cond (log : gf_log_handle_t) (level : Nat) (msg : Bytes)
    (h : log.gf_log_syslog = true ∧ level ≠ GF_LOG_NONE ∧ level ≤ log.sys_log_level) :
    mirror_events log level msg = [.syslog ((level : Int) - 1) (msg ++ ascii "\n")] := by
  obtain ⟨h1, h2, h3⟩ := h
  unfold mirror_events
  rw [if_pos (by simpa [h1, GF_LOG_NONE] using ⟨h2, h3⟩)]

theorem mirror_events_of_not_cond (log : gf_log_handle_t) (level : Nat) (msg : Bytes)
    (h : ¬ (log.gf_log_syslog = true ∧ level ≠ GF_LOG_NONE ∧ level ≤ log.sys_log_level)) :
    mirror_events log level msg = [] := by
  unfold mirror_events
  rw [if_neg]
  intro hc
  apply h
  simp only [Bool.and_eq_true, bne_iff_ne, ne_eq, decide_eq_true_eq] at hc
  exact ⟨hc.1, hc.2.1, hc.2.2⟩

/-- C11: the syslog mirror rule.  Whenever `gf_log_glusterlog` delivers a
    record of level L (clock and allocations answering), the effects after
    the rotation step are the write of the line (to the log file, or to
    stderr) followed by the mirror copy, and the mirror copy is one
    `syslog (L-1, line + newline)` when syslog mirroring is enabled and L is
    not None and L <= syslog threshold, and nothing otherwise; with the
    defaults of `gf_log_globals_init` (enabled, threshold Critical) exactly
    Emergency, Alert and Critical are mirrored. -/
theorem C11_syslog_mirror_rule (env : Env) (this : xlator_t)
    (domain file function : Bytes) (line : Int) (L : Nat) (errnum : Int) (msgid : Nat)
    (appmsgstr : Bytes) (callstr : Option Bytes) (w : World) (tv : Nat × Nat)
    (hclock : env.gettimeofday = some tv) (halloc : env.gf_asprintf_ok = true) :
    (gf_log_glusterlog env this domain file function line L errnum msgid appmsgstr
        callstr w).2.out =
      (gf_log_rotate env this w).out ++
        file_backend_events (gf_log_rotate env this w).log L
          (glusterlog_line env this w.log.logformat tv domain file function line L errnum
            msgid appmsgstr callstr ++ ascii "\n") ++
        mirror_events w.log L
          (glusterlog_line env this w.log.logformat tv domain file function line L errnum
            msgid appmsgstr callstr) ∧
    (∀ msg, (w.log.gf_log_syslog = true ∧ L ≠ GF_LOG_NONE ∧ L ≤ w.log.sys_log_level) →
      mirror_events w.log L msg = [.syslog ((L : Int) - 1) (msg ++ ascii "\n")]) ∧
    (∀ msg, ¬ (w.log.gf_log_syslog = true ∧ L ≠ GF_LOG_NONE ∧ L ≤ w.log.sys_log_level) →
      mirror_events w.log L msg = []) ∧
    (∀ e ∈ file_backend_events (gf_log_rotate env this w).log L
          (glusterlog_line env this w.log.logformat tv domain file function line L errnum
            msgid appmsgstr callstr ++ ascii "\n"), ∀ p t, e ≠ .syslog p t) ∧
    (gf_log_globals_init w).log.gf_log_syslog = true ∧
    (gf_log_globals_init w).log.sys_log_level = GF_LOG_CRITICAL ∧
    (∀ msg, mirror_events (gf_log_globals_init w).log L msg ≠ [] ↔
      (L = GF_LOG_EMERG ∨ L = GF_LOG_ALERT ∨ L = GF_LOG_CRITICAL)) := by
  refine ⟨?_, ?_, ?_, ?_, rfl, rfl, ?_⟩
  · rw [gf_log_glusterlog_trace env this domain file function line L errnum msgid appmsgstr
      callstr w tv hclock halloc]
  · intro msg h
    exact mirror_events_of_cond w.log L msg h
  · intro msg h
    exact mirror_events_of_not_cond w.log L msg h
  · intro e he p t
    unfold file_backend_events at he
    cases hf : (gf_log_rotate env this w).log.logfile with
    | some f =>
      rw [hf] at he
      simp only [List.mem_singleton] at he
      rw [he]
      exact fun h => Event.noConfusion h
    | none =>
      rw [hf] at he
      simp only at he
      split_ifs at he
      · simp only [List.mem_singleton] at he
        rw [he]
        exact fun h => Event.noConfusion h
      · simp at he
  · intro msg
    by_cases hc : ((gf_log_globals_init w).log.gf_log_syslog = true ∧ L ≠ GF_LOG_NONE ∧
        L ≤ (gf_log_globals_init w).log.sys_log_level)
    · rw [mirror_events_of_cond _ L msg hc]
      have h2 : L ≠ 0 := hc.2.1
      have h3 : L ≤ 3 := hc.2.2
      simp only [ne_eq, List.cons_ne_nil, not_false_eq_true, GF_LOG_EMERG, GF_LOG_ALERT,
        GF_LOG_CRITICAL, true_iff]
      omega
    · rw [mirror_events_of_not_cond _ L msg hc]
      simp only [ne_eq, not_true_eq_false, false_iff]
      intro hL
      apply hc
      refine ⟨rfl, ?_, ?_⟩
      · rcases hL with h | h | h <;> rw [h] <;> decide
      · show L ≤ GF_LOG_CRITICAL
        rcases hL with h | h | h <;> rw [h] <;> decide

/-- C11, witness: the context `gf_log_globals_init` sets up, log file 3 open;
    a Critical(3) record is written and mirrored at priority 2, an Error(4)
    record is written only. -/
theorem C11_syslog_mirror_rule_witness :
    env_sample.gettimeofday = some (12, 34) ∧ env_sample.gf_asprintf_ok = true ∧
    (gf_log_glusterlog env_sample (xl_with_level 0) (ascii "glusterd") (ascii "glusterd.c")
        (ascii "init") 42 GF_LOG_CRITICAL 0 106001 (ascii "devel error") none
        (gf_log_globals_init (world_of
          (ctx_sample gf_logger_glusterlog gf_logformat_traditional false (some 3))))).2.out =
      [Event.openlog (some (ascii "GlusterFS")) 1 24,
       Event.fprintf_file 3 (ascii ("[2014-03-01 10:20:30.000034] C [MSGID: 106001] " ++
          "[glusterd.c:42:init] 0-glusterd: devel error\n")),
       Event.syslog 2 (ascii ("[2014-03-01 10:20:30.000034] C [MSGID: 106001] " ++
          "[glusterd.c:42:init] 0-glusterd: devel error\n"))] ∧
    (gf_log_glusterlog env_sample (xl_with_level 0) (ascii "glusterd") (ascii "glusterd.c")
        (ascii "init") 42 GF_LOG_ERROR 0 106001 (ascii "devel error") none
        (gf_log_globals_init (world_of
          (ctx_sample gf_logger_glusterlog gf_logformat_traditional false (some 3))))).2.out =
      [Event.openlog (some (ascii "GlusterFS")) 1 24,
       Event.fprintf_file 3 (ascii ("[2014-03-01 10:20:30.000034] E [MSGID: 106001] " ++
          "[glusterd.c:42:init] 0-glusterd: devel error\n"))] :=
  ⟨rfl, rfl,
   ((C11_syslog_mirror_rule env_sample (xl_with_level 0) (ascii "glusterd") (ascii "glusterd.c")
      (ascii "init") 42 GF_LOG_CRITICAL 0 106001 (ascii "devel error") none
      (gf_log_globals_init (world_of
        (ctx_sample gf_logger_glusterlog gf_logformat_traditional false (some 3))))
      (12, 34) rfl rfl).1).trans (by decide),
   ((C11_syslog_mirror_rule env_sample (xl_with_level 0) (ascii "glusterd") (ascii "glusterd.c")
      (ascii "init") 42 GF_LOG_ERROR 0 106001 (ascii "devel error") none
      (gf_log_globals_init (world_of
        (ctx_sample gf_logger_glusterlog gf_logformat_traditional false (some 3))))
      (12, 34) rfl rfl).1).trans (by decide)⟩

/-- C12 (the code at the failing input): with the syslog threshold and the
    global level both raised to Trace(9) by `set_sys_log_level` and
    `gf_log_set_loglevel`, a Trace record written by `gf_log_glusterlog` is
    mirrored with `syslog (8, ..)`: 8 is `level - 1`, not the Debug priority
    7 that the primary path (`SET_LOG_PRIO`) uses for Trace, and it is not a
    syslog severity in 0..7.  In general the priority of a mirror copy is
    `level - 1` for every level. -/
theorem C12_mirror_priority_of_trace :
    (gf_log_glusterlog env_sample (xl_with_level 0) (ascii "glusterd") (ascii "glusterd.c")
        (ascii "init") 42 GF_LOG_TRACE 0 106001 (ascii "entering") none
        (set_sys_log_level (xl_with_level 0) GF_LOG_TRACE
          (gf_log_set_loglevel (xl_with_level 0) GF_LOG_TRACE
            (world_of
              (ctx_sample gf_logger_glusterlog gf_logformat_withmsgid false (some 3)))))).2.out =
      [Event.fprintf_file 3 (ascii ("[2014-03-01 10:20:30.000034] T [MSGID: 106001] " ++
          "[glusterd.c:42:init] 0-glusterd: entering\n")),
       Event.syslog 8 (ascii ("[2014-03-01 10:20:30.000034] T [MSGID: 106001] " ++
          "[glusterd.c:42:init] 0-glusterd: entering\n"))] ∧
    SET_LOG_PRIO GF_LOG_TRACE = 7 ∧
    ¬ ((0 : Int) ≤ 8 ∧ (8 : Int) ≤ 7) ∧
    (∀ (log : gf_log_handle_t) (L : Nat) (msg : Bytes),
      mirror_events log L msg = [] ∨
      mirror_events log L msg = [Event.syslog ((L : Int) - 1) (msg ++ ascii "\n")]) := by
  refine ⟨by decide, by decide, by decide, ?_⟩
  intro log L msg
  unfold mirror_events
  split_ifs
  · exact Or.inr rfl
  · exact Or.inl rfl

/-! ## Lemmas: rotation -/

/-- With the rotation flag clear, `_gf_log` is its non-recursive part. -/
theorem gf_log_eq_flag_clear (env : Env) (this : xlator_t) (domain file function : Bytes)
    (line : Int) (level : Nat) (fmt : Bytes) (w : World) (hrot : w.log.logrotate = false) :
    _gf_log env this (some domain) (some file) (some function) line level (some fmt) w =
      gf_log_flag_clear env this domain file function line level fmt w := by
  unfold _gf_log gf_log_flag_clear
  by_cases h1 : (w.log.gf_log_xl_log_set && (this.loglevel != 0 &&
      decide (level > this.loglevel))) = true
  · rw [if_pos h1, if_pos h1]
  · rw [if_neg h1, if_neg h1]
    by_cases h2 : level > w.log.loglevel
    · rw [if_pos h2, if_pos h2]
    · rw [if_neg h2, if_neg h2]
      dsimp only
      by_cases h3 : w.log.log_control_file_found = true
      · rw [if_pos h3, if_pos h3]
      · rw [if_neg h3, if_neg h3, dif_neg (by rw [hrot]; decide)]

theorem adds_output_refl (w : World) : w.adds_output w :=
  ⟨[], by simp, by simp⟩

theorem adds_output_emit (w : World) (e : Event) (he : e.is_output = true) :
    w.adds_output (w.emit e) :=
  ⟨[e], rfl, by simpa using he⟩

theorem adds_output_trans {w1 w2 w3 : World} (h12 : w1.adds_output w2)
    (h23 : w2.adds_output w3) : w1.adds_output w3 := by
  obtain ⟨es, h1, h2⟩ := h12
  obtain ⟨fs, h3, h4⟩ := h23
  refine ⟨es ++ fs, ?_, ?_⟩
  · rw [h3, h1]
    simp
  · intro e he
    rcases List.mem_append.mp he with h | h
    · exact h2 e h
    · exact h4 e h

theorem adds_output_mirror (level : Nat) (msg : Bytes) (w : World) :
    w.adds_output (syslog_mirror level msg w) := by
  unfold syslog_mirror
  split_ifs
  · exact adds_output_emit w _ rfl
  · exact adds_output_refl w

theorem gf_syslog_out (env : Env) (c prio : Int) (format : Option Bytes) (w : World) :
    w.adds_output (gf_syslog env c prio format w) := by
  unfold gf_syslog
  cases format <;> cases env._gf_get_message c
  · exact adds_output_refl w
  · exact adds_output_emit w _ rfl
  · exact adds_output_emit w _ rfl
  · exact adds_output_emit w _ rfl

theorem gf_log_write_out (env : Env) (this : xlator_t) (domain basename function : Bytes)
    (line : Int) (level : Nat) (fmt : Bytes) (w : World) :
    w.adds_output (_gf_log_write env this domain basename function line level fmt w).2 := by
  unfold _gf_log_write
  cases env.gettimeofday with
  | none => exact adds_output_refl w
  | some tv =>
    dsimp only
    cases env.gf_asprintf_ok with
    | false => exact adds_output_refl w
    | true =>
      cases env.vasprintf_ok with
      | false => exact adds_output_refl w
      | true =>
        simp only [Bool.not_true, Bool.false_eq_true, if_false]
        refine adds_output_trans ?_ (adds_output_mirror _ _ _)
        cases w.log.logfile with
        | some f => exact adds_output_emit w _ rfl
        | none =>
          dsimp only
          split_ifs
          · exact adds_output_emit w _ rfl
          · exact adds_output_refl w

/-- A call of `_gf_log` made while the rotation flag is clear leaves the
    context as it is and only adds records to the trace. -/
theorem gf_log_flag_clear_out (env : Env) (this : xlator_t) (domain file function : Bytes)
    (line : Int) (level : Nat) (fmt : Bytes) (w : World) :
    w.adds_output (gf_log_flag_clear env this domain file function line level fmt w).2 := by
  unfold gf_log_flag_clear
  by_cases h1 : (w.log.gf_log_xl_log_set && (this.loglevel != 0 &&
      decide (level > this.loglevel))) = true
  · rw [if_pos h1]
    exact adds_output_refl w
  · rw [if_neg h1]
    by_cases h2 : level > w.log.loglevel
    · rw [if_pos h2]
      exact adds_output_refl w
    · rw [if_neg h2]
      by_cases h3 : w.log.log_control_file_found = true
      · rw [if_pos h3]
        dsimp only
        exact gf_syslog_out env _ _ _ w
      · rw [if_neg h3]
        exact gf_log_write_out env this domain _ function line level fmt w

theorem adds_output_log {w1 w2 : World} (h : w1.adds_output w2) : w2.log = w1.log := by
  obtain ⟨es, h1, _⟩ := h
  rw [h1]

theorem reopen_attempts_append_output (out es : List Event)
    (h : ∀ e ∈ es, e.is_output = true) :
    reopen_attempts (out ++ es) = reopen_attempts out := by
  unfold reopen_attempts
  rw [List.countP_append]
  have : List.countP (fun e => match e with
      | .open_probe _ => true
      | _ => false) es = 0 := by
    rw [List.countP_eq_zero]
    intro e he
    have := h e he
    cases e <;> simp_all [Event.is_output]
  omega

theorem fclose_count_append_output (hd : Nat) (out es : List Event)
    (h : ∀ e ∈ es, e.is_output = true) :
    fclose_count hd (out ++ es) = fclose_count hd out := by
  unfold fclose_count
  rw [List.countP_append]
  have : List.countP (fun e => decide (e = Event.fclose hd)) es = 0 := by
    rw [List.countP_eq_zero]
    intro e he
    have := h e he
    cases e <;> simp_all [Event.is_output]
  omega

/-- A call of `gf_log_rotate` with the flag clear does nothing. -/
theorem gf_log_rotate_flag_clear (env : Env) (this : xlator_t) (w : World)
    (hrot : w.log.logrotate = false) : gf_log_rotate env this w = w := by
  unfold gf_log_rotate
  rw [if_neg (by rw [hrot]; decide)]

/-- Rotation with a failing probe: the flag is cleared, the probe made and
    the failure reported at level Error by a `_gf_log` call that does not
    rotate. -/
theorem gf_log_rotate_probe_fails (env : Env) (this : xlator_t) (w : World)
    (hrot : w.log.logrotate = true) (hopen : env.open_ok = false) :
    gf_log_rotate env this w =
      (gf_log_flag_clear env this (ascii "logrotate") env.src_file (ascii "gf_log_rotate") 258
        GF_LOG_ERROR (env.strerror env.errno) (rotate_probe w)).2 := by
  unfold gf_log_rotate
  rw [if_pos hrot]
  simp only [hopen, Bool.not_false, if_true, gf_log]
  rw [gf_log_eq_flag_clear _ _ _ _ _ _ _ _ _ rfl]
  rfl

/-- Rotation with a failing `fopen`: the flag is cleared, probe and `fopen`
    are made and the failure reported at level Critical by a `_gf_log` call
    that does not rotate. -/
theorem gf_log_rotate_fopen_fails (env : Env) (this : xlator_t) (w : World)
    (hrot : w.log.logrotate = true) (hopen : env.open_ok = true)
    (hfopen : env.fopen_result = none) :
    gf_log_rotate env this w =
      (gf_log_flag_clear env this (ascii "logrotate") env.src_file (ascii "gf_log_rotate") 266
        GF_LOG_CRITICAL (rotate_fopen_failure_text env w) (rotate_fopen w)).2 := by
  unfold gf_log_rotate
  rw [if_pos hrot]
  simp only [hopen, hfopen, Bool.not_true, Bool.false_eq_true, if_false, gf_log]
  rw [gf_log_eq_flag_clear _ _ _ _ _ _ _ _ _ rfl]
  rfl

/-- Rotation when probe and `fopen` succeed. -/
theorem gf_log_rotate_succeeds (env : Env) (this : xlator_t) (w : World) (new_logfile : Nat)
    (hrot : w.log.logrotate = true) (hopen : env.open_ok = true)
    (hfopen : env.fopen_result = some new_logfile) :
    gf_log_rotate env this w =
      { log := { w.log with logrotate := false, logfile := some new_logfile,
                            gf_log_logfile := some new_logfile },
        out := (rotate_fopen w).out ++
          (match w.log.logfile with
           | some old => [Event.fclose old]
           | none => []) } := by
  unfold gf_log_rotate
  rw [if_pos hrot]
  simp only [hopen, hfopen, Bool.not_true, Bool.false_eq_true, if_false]
  cases hf : w.log.logfile with
  | some old =>
    simp only [emit_log, hf]
    rfl
  | none =>
    simp only [emit_log, hf, List.append_nil]
    rfl

theorem reopen_attempts_rotate_probe (w : World) :
    reopen_attempts (rotate_probe w).out = reopen_attempts w.out + 1 := by
  simp [rotate_probe, reopen_attempts, List.countP_append]

theorem reopen_attempts_rotate_fopen (w : World) :
    reopen_attempts (rotate_fopen w).out = reopen_attempts w.out + 1 := by
  simp [rotate_fopen, rotate_probe, reopen_attempts, List.countP_append]

theorem reopen_attempts_adds_output {w1 w2 : World} (h : w1.adds_output w2) :
    reopen_attempts w2.out = reopen_attempts w1.out := by
  obtain ⟨es, h1, h2⟩ := h
  rw [h1]
  exact reopen_attempts_append_output _ _ h2

/-- A call of `gf_log_rotate` with the flag set makes exactly one probe. -/
theorem gf_log_rotate_one_attempt (env : Env) (this : xlator_t) (w : World)
    (hrot : w.log.logrotate = true) :
    reopen_attempts (gf_log_rotate env this w).out = reopen_attempts w.out + 1 := by
  cases hopen : env.open_ok with
  | false =>
    rw [gf_log_rotate_probe_fails env this w hrot hopen,
      reopen_attempts_adds_output (gf_log_flag_clear_out _ _ _ _ _ _ _ _ _),
      reopen_attempts_rotate_probe]
  | true =>
    cases hfopen : env.fopen_result with
    | none =>
      rw [gf_log_rotate_fopen_fails env this w hrot hopen hfopen,
        reopen_attempts_adds_output (gf_log_flag_clear_out _ _ _ _ _ _ _ _ _),
        reopen_attempts_rotate_fopen]
    | some new_logfile =>
      rw [gf_log_rotate_succeeds env this w new_logfile hrot hopen hfopen]
      simp only
      cases w.log.logfile with
      | none => simp [reopen_attempts_rotate_fopen]
      | some old =>
        have := reopen_attempts_rotate_fopen w
        simp only [reopen_attempts, List.countP_append] at this ⊢
        simp [this]

theorem gf_log_rotate_clears_flag (env : Env) (this : xlator_t) (w : World) :
    (gf_log_rotate env this w).log.logrotate = false := by
  obtain ⟨lf, glf, hlog⟩ := gf_log_rotate_log env this w
  rw [hlog]

theorem gf_log_rotate_calls_flag_clear (this : xlator_t) (envs : List Env) (w : World)
    (hrot : w.log.logrotate = false) : gf_log_rotate_calls this envs w = w := by
  induction envs with
  | nil => rfl
  | cons env envs ih =>
    rw [gf_log_rotate_calls, gf_log_rotate_flag_clear env this w hrot, ih]

/-! ## Theorems: rotation -/

/-- C13: exactly one reopen per rotation request (sequential model).  A call
    of `gf_log_rotate` with the flag clear leaves the whole state and the
    trace unchanged; a call with the flag set makes exactly one reopen
    attempt (one probe `open`) and returns with the flag clear whatever the
    outcome; the request `gf_log_logrotate` sets the flag and does nothing
    else; hence in any non-empty sequence of `gf_log_rotate` calls that
    follows one request, whatever the environment answers each time, the
    first call makes the one attempt and the later calls do nothing. -/
theorem C13_one_reopen_per_request (this : xlator_t) (w : World)
    (hctx : this.has_ctx = true) :
    (∀ env, w.log.logrotate = false → gf_log_rotate env this w = w) ∧
    (∀ env, w.log.logrotate = true →
      (gf_log_rotate env this w).log.logrotate = false ∧
      reopen_attempts (gf_log_rotate env this w).out = reopen_attempts w.out + 1) ∧
    ((gf_log_logrotate this w).log = { w.log with logrotate := true } ∧
      (gf_log_logrotate this w).out = w.out) ∧
    (∀ env envs,
      gf_log_rotate_calls this (env :: envs) (gf_log_logrotate this w) =
        gf_log_rotate env this (gf_log_logrotate this w) ∧
      reopen_attempts
          (gf_log_rotate_calls this (env :: envs) (gf_log_logrotate this w)).out =
        reopen_attempts w.out + 1 ∧
      (gf_log_rotate_calls this (env :: envs) (gf_log_logrotate this w)).log.logrotate =
        false) := by
  have hreq : (gf_log_logrotate this w).log.logrotate = true := by
    simp [gf_log_logrotate, hctx]
  have hout : (gf_log_logrotate this w).out = w.out := by
    simp [gf_log_logrotate, hctx]
  refine ⟨fun env h => gf_log_rotate_flag_clear env this w h,
    fun env h => ⟨gf_log_rotate_clears_flag env this w, gf_log_rotate_one_attempt env this w h⟩,
    ⟨by simp [gf_log_logrotate, hctx], hout⟩, ?_⟩
  intro env envs
  have hcalls : gf_log_rotate_calls this (env :: envs) (gf_log_logrotate this w) =
      gf_log_rotate env this (gf_log_logrotate this w) := by
    rw [gf_log_rotate_calls]
    exact gf_log_rotate_calls_flag_clear this envs _ (gf_log_rotate_clears_flag env this _)
  refine ⟨hcalls, ?_, ?_⟩
  · rw [hcalls, gf_log_rotate_one_attempt env this _ hreq, hout]
  · rw [hcalls]
    exact gf_log_rotate_clears_flag env this _

/-- C13, witness: log file 3 open, one request, then three calls of
    `gf_log_rotate`: one probe, one `fopen`, one `fclose` of handle 3 in all,
    and the new handle 7 in place. -/
theorem C13_one_reopen_per_request_witness :
    (xl_with_level 0).has_ctx = true ∧
    (gf_log_rotate_calls (xl_with_level 0) (env_sample :: [env_sample, env_sample])
        (gf_log_logrotate (xl_with_level 0)
          (world_of (ctx_sample gf_logger_glusterlog gf_logformat_withmsgid false (some 3)))) =
      gf_log_rotate env_sample (xl_with_level 0)
        (gf_log_logrotate (xl_with_level 0)
          (world_of (ctx_sample gf_logger_glusterlog gf_logformat_withmsgid false (some 3)))) ∧
    reopen_attempts
        (gf_log_rotate_calls (xl_with_level 0) (env_sample :: [env_sample, env_sample])
          (gf_log_logrotate (xl_with_level 0)
            (world_of
              (ctx_sample gf_logger_glusterlog gf_logformat_withmsgid false (some 3))))).out =
      reopen_attempts
        (world_of (ctx_sample gf_logger_glusterlog gf_logformat_withmsgid false (some 3))).out
        + 1 ∧
    (gf_log_rotate_calls (xl_with_level 0) (env_sample :: [env_sample, env_sample])
        (gf_log_logrotate (xl_with_level 0)
          (world_of
            (ctx_sample gf_logger_glusterlog gf_logformat_withmsgid false
              (some 3))))).log.logrotate = false) ∧
    (gf_log_rotate_calls (xl_with_level 0) (env_sample :: [env_sample, env_sample])
        (gf_log_logrotate (xl_with_level 0)
          (world_of
            (ctx_sample gf_logger_glusterlog gf_logformat_withmsgid false (some 3))))).out =
      [Event.open_probe (some (ascii "/var/log/glusterfs/glusterd.log")),
       Event.close_probe,
       Event.fopen_append (some (ascii "/var/log/glusterfs/glusterd.log")),
       Event.fclose 3] :=
  ⟨rfl,
   (C13_one_reopen_per_request (xl_with_level 0)
      (world_of (ctx_sample gf_logger_glusterlog gf_logformat_withmsgid false (some 3)))
      rfl).2.2.2 env_sample [env_sample, env_sample],
   by decide⟩

/-- The state passing of `gf_log_rotate` and the run of its statements in
    program order are the same function. -/
theorem gf_log_rotate_eq_stmts (env : Env) (this : xlator_t) (w : World) :
    gf_log_rotate env this w = run_rotate_stmts env this (gf_log_rotate_stmts env w) w := by
  unfold gf_log_rotate gf_log_rotate_stmts run_rotate_stmts
  by_cases hrot : w.log.logrotate = true
  · rw [if_pos hrot, if_pos hrot]
    cases hopen : env.open_ok with
    | false => rfl
    | true =>
      cases hfopen : env.fopen_result with
      | none => rfl
      | some n =>
        cases hf : w.log.logfile with
        | none =>
          simp only [Bool.not_true, Bool.false_eq_true, if_false, emit_log, hf, List.foldl_cons,
            List.foldl_nil, rotate_stmt.run]
        | some old =>
          simp only [Bool.not_true, Bool.false_eq_true, if_false, emit_log, hf, List.foldl_cons,
            List.foldl_nil, rotate_stmt.run]
  · rw [if_neg hrot, if_neg hrot]
    rfl

/-- C14: rotation success.  When `gf_log_rotate` runs with the flag set and
    both the probe and the append-mode `fopen` succeed, on return `logfile`
    and `gf_log_logfile` are both the new handle and nothing else of the
    context changed but the flag; the effects are the probe, its close, the
    `fopen` and then, when there was a previous handle, one `fclose` of it,
    made as the last effect on a context that already holds the new handle;
    with no previous handle nothing is closed.  In program order the
    statements executed are: clear the flag, probe, close the probe, `fopen`,
    assign the new handle to both members, and then, only when there was a
    previous handle, the one `fclose` of it; before the assignment the
    previous handle is still the current one, after it and before the
    `fclose` both members hold the new handle. -/
theorem C14_rotation_success (env : Env) (this : xlator_t) (w : World) (new_logfile : Nat)
    (hrot : w.log.logrotate = true) (hopen : env.open_ok = true)
    (hfopen : env.fopen_result = some new_logfile) :
    (gf_log_rotate env this w).log.logfile = some new_logfile ∧
    (gf_log_rotate env this w).log.gf_log_logfile = some new_logfile ∧
    (gf_log_rotate env this w).log =
      { w.log with logrotate := false, logfile := some new_logfile,
                   gf_log_logfile := some new_logfile } ∧
    (∀ old, w.log.logfile = some old →
      (gf_log_rotate env this w).out =
        w.out ++ [Event.open_probe w.log.filename, Event.close_probe,
                  Event.fopen_append w.log.filename, Event.fclose old] ∧
      (∃ swapped : World, swapped.log.logfile = some new_logfile ∧
        swapped.log.gf_log_logfile = some new_logfile ∧
        gf_log_rotate env this w = swapped.emit (Event.fclose old)) ∧
      fclose_count old (gf_log_rotate env this w).out = fclose_count old w.out + 1) ∧
    (w.log.logfile = none →
      (gf_log_rotate env this w).out =
        w.out ++ [Event.open_probe w.log.filename, Event.close_probe,
                  Event.fopen_append w.log.filename] ∧
      ∀ h, fclose_count h (gf_log_rotate env this w).out = fclose_count h w.out) ∧
    gf_log_rotate env this w = run_rotate_stmts env this (gf_log_rotate_stmts env w) w ∧
    (∀ old, w.log.logfile = some old →
      gf_log_rotate_stmts env w =
        [rotate_stmt.clear_flag, rotate_stmt.open_probe, rotate_stmt.close_probe,
         rotate_stmt.fopen_append, rotate_stmt.swap new_logfile, rotate_stmt.fclose old] ∧
      (run_rotate_stmts env this
        [rotate_stmt.clear_flag, rotate_stmt.open_probe, rotate_stmt.close_probe,
         rotate_stmt.fopen_append] w).log.logfile = some old ∧
      (run_rotate_stmts env this
        [rotate_stmt.clear_flag, rotate_stmt.open_probe, rotate_stmt.close_probe,
         rotate_stmt.fopen_append, rotate_stmt.swap new_logfile] w).log.logfile =
        some new_logfile ∧
      (run_rotate_stmts env this
        [rotate_stmt.clear_flag, rotate_stmt.open_probe, rotate_stmt.close_probe,
         rotate_stmt.fopen_append, rotate_stmt.swap new_logfile] w).log.gf_log_logfile =
        some new_logfile ∧
      gf_log_rotate env this w =
        (run_rotate_stmts env this
          [rotate_stmt.clear_flag, rotate_stmt.open_probe, rotate_stmt.close_probe,
           rotate_stmt.fopen_append, rotate_stmt.swap new_logfile] w).emit
          (Event.fclose old)) ∧
    (w.log.logfile = none →
      gf_log_rotate_stmts env w =
        [rotate_stmt.clear_flag, rotate_stmt.open_probe, rotate_stmt.close_probe,
         rotate_stmt.fopen_append, rotate_stmt.swap new_logfile]) := by
  have h := gf_log_rotate_succeeds env this w new_logfile hrot hopen hfopen
  have hstmts : gf_log_rotate_stmts env w =
      rotate_stmt.clear_flag :: rotate_stmt.open_probe :: rotate_stmt.close_probe ::
        rotate_stmt.fopen_append :: rotate_stmt.swap new_logfile ::
          (match w.log.logfile with
           | some old_logfile => [rotate_stmt.fclose old_logfile]
           | none => []) := by
    unfold gf_log_rotate_stmts
    rw [if_pos hrot]
    simp only [hopen, hfopen, Bool.not_true, Bool.false_eq_true, if_false]
  refine ⟨by rw [h], by rw [h], by rw [h], ?_, ?_, gf_log_rotate_eq_stmts env this w, ?_, ?_⟩
  · intro old hold
    rw [h, hold]
    refine ⟨?_, ?_, ?_⟩
    · simp [rotate_fopen, rotate_probe]
    · refine ⟨{ log := { w.log with logrotate := false, logfile := some new_logfile,
                                     gf_log_logfile := some new_logfile },
                out := (rotate_fopen w).out }, rfl, rfl, rfl⟩
    · simp [rotate_fopen, rotate_probe, fclose_count, List.countP_append, List.countP_cons]
  · intro hnone
    rw [h, hnone]
    refine ⟨?_, ?_⟩
    · simp [rotate_fopen, rotate_probe]
    · intro hd
      simp [rotate_fopen, rotate_probe, fclose_count, List.countP_append, List.countP_cons]
  · intro old hold
    refine ⟨by rw [hstmts, hold], hold, rfl, rfl, ?_⟩
    rw [gf_log_rotate_eq_stmts, hstmts, hold]
    rfl
  · intro hnone
    rw [hstmts, hnone]

/-- C14, witness: rotation of the sample context with log file 3 open; the
    new handle is 7.  The statements run are: clear the flag, probe, close
    the probe, `fopen`, assign handle 7, `fclose` of handle 3. -/
theorem C14_rotation_success_witness :
    (gf_log_logrotate (xl_with_level 0)
      (world_of (ctx_sample gf_logger_glusterlog gf_logformat_withmsgid false
        (some 3)))).log.logrotate = true ∧
    env_sample.open_ok = true ∧ env_sample.fopen_result = some 7 ∧
    (gf_log_rotate env_sample (xl_with_level 0)
      (gf_log_logrotate (xl_with_level 0)
        (world_of (ctx_sample gf_logger_glusterlog gf_logformat_withmsgid false
          (some 3))))).log.logfile = some 7 ∧
    gf_log_rotate env_sample (xl_with_level 0)
      (gf_log_logrotate (xl_with_level 0)
        (world_of (ctx_sample gf_logger_glusterlog gf_logformat_withmsgid false (some 3)))) =
      { log := ctx_sample gf_logger_glusterlog gf_logformat_withmsgid false (some 7),
        out := [Event.open_probe (some (ascii "/var/log/glusterfs/glusterd.log")),
                Event.close_probe,
                Event.fopen_append (some (ascii "/var/log/glusterfs/glusterd.log")),
                Event.fclose 3] } ∧
    gf_log_rotate_stmts env_sample
      (gf_log_logrotate (xl_with_level 0)
        (world_of (ctx_sample gf_logger_glusterlog gf_logformat_withmsgid false (some 3)))) =
      [rotate_stmt.clear_flag, rotate_stmt.open_probe, rotate_stmt.close_probe,
       rotate_stmt.fopen_append, rotate_stmt.swap 7, rotate_stmt.fclose 3] :=
  ⟨rfl, rfl, rfl,
   (C14_rotation_success env_sample (xl_with_level 0)
      (gf_log_logrotate (xl_with_level 0)
        (world_of (ctx_sample gf_logger_glusterlog gf_logformat_withmsgid false (some 3))))
      7 rfl rfl rfl).1,
   by decide,
   by decide⟩

theorem fclose_count_rotate_probe (h : Nat) (w : World) :
    fclose_count h (rotate_probe w).out = fclose_count h w.out := by
  simp [rotate_probe, fclose_count, List.countP_append, List.countP_cons]

theorem fclose_count_rotate_fopen (h : Nat) (w : World) :
    fclose_count h (rotate_fopen w).out = fclose_count h w.out := by
  simp [rotate_fopen, rotate_probe, fclose_count, List.countP_append, List.countP_cons]

theorem fclose_count_adds_output (h : Nat) {w1 w2 : World} (hw : w1.adds_output w2) :
    fclose_count h w2.out = fclose_count h w1.out := by
  obtain ⟨es, h1, h2⟩ := hw
  rw [h1]
  exact fclose_count_append_output h _ _ h2

/-- C15: rotation failure.  When `gf_log_rotate` runs with the flag set and
    the probe `open` or the append-mode `fopen` fails, the context on return
    is the old one with the flag cleared (`logfile` and `gf_log_logfile`
    unchanged), no `fclose` is made, exactly one probe was made, and the
    failure is reported by one nested `_gf_log` call, at level Error for the
    probe and Critical for the `fopen`; that nested call finds the flag
    clear, so it is the non-rotating part of `_gf_log` (no probe, no `fopen`,
    no further nested call) and only adds records to the trace. -/
theorem C15_rotation_failure (env : Env) (this : xlator_t) (w : World)
    (hrot : w.log.logrotate = true)
    (hfail : env.open_ok = false ∨ env.fopen_result = none) :
    (gf_log_rotate env this w).log = { w.log with logrotate := false } ∧
    (gf_log_rotate env this w).log.logfile = w.log.logfile ∧
    (gf_log_rotate env this w).log.gf_log_logfile = w.log.gf_log_logfile ∧
    (∀ h, fclose_count h (gf_log_rotate env this w).out = fclose_count h w.out) ∧
    reopen_attempts (gf_log_rotate env this w).out = reopen_attempts w.out + 1 ∧
    (env.open_ok = false →
      gf_log_rotate env this w =
        (_gf_log env this (some (ascii "logrotate")) (some env.src_file)
          (some (ascii "gf_log_rotate")) 258 GF_LOG_ERROR (some (env.strerror env.errno))
          (rotate_probe w)).2 ∧
      gf_log_rotate env this w =
        (gf_log_flag_clear env this (ascii "logrotate") env.src_file (ascii "gf_log_rotate")
          258 GF_LOG_ERROR (env.strerror env.errno) (rotate_probe w)).2 ∧
      (rotate_probe w).adds_output (gf_log_rotate env this w)) ∧
    (env.open_ok = true → env.fopen_result = none →
      gf_log_rotate env this w =
        (_gf_log env this (some (ascii "logrotate")) (some env.src_file)
          (some (ascii "gf_log_rotate")) 266 GF_LOG_CRITICAL
          (some (rotate_fopen_failure_text env w)) (rotate_fopen w)).2 ∧
      gf_log_rotate env this w =
        (gf_log_flag_clear env this (ascii "logrotate") env.src_file (ascii "gf_log_rotate")
          266 GF_LOG_CRITICAL (rotate_fopen_failure_text env w) (rotate_fopen w)).2 ∧
      (rotate_fopen w).adds_output (gf_log_rotate env this w)) := by
  have hA : env.open_ok = false →
      gf_log_rotate env this w =
        (gf_log_flag_clear env this (ascii "logrotate") env.src_file (ascii "gf_log_rotate")
          258 GF_LOG_ERROR (env.strerror env.errno) (rotate_probe w)).2 :=
    fun ho => gf_log_rotate_probe_fails env this w hrot ho
  have hB : env.open_ok = true → env.fopen_result = none →
      gf_log_rotate env this w =
        (gf_log_flag_clear env this (ascii "logrotate") env.src_file (ascii "gf_log_rotate")
          266 GF_LOG_CRITICAL (rotate_fopen_failure_text env w) (rotate_fopen w)).2 :=
    fun ho hf => gf_log_rotate_fopen_fails env this w hrot ho hf
  have hcase : (env.open_ok = false) ∨ (env.open_ok = true ∧ env.fopen_result = none) := by
    cases ho : env.open_ok with
    | false => exact Or.inl rfl
    | true =>
      rcases hfail with h | h
      · rw [ho] at h
        exact absurd h (by decide)
      · exact Or.inr ⟨rfl, h⟩
  have hlog : (gf_log_rotate env this w).log = { w.log with logrotate := false } := by
    rcases hcase with ho | ⟨ho, hf⟩
    · rw [hA ho, adds_output_log (gf_log_flag_clear_out _ _ _ _ _ _ _ _ _)]
      rfl
    · rw [hB ho hf, adds_output_log (gf_log_flag_clear_out _ _ _ _ _ _ _ _ _)]
      rfl
  refine ⟨hlog, by rw [hlog], by rw [hlog], ?_, gf_log_rotate_one_attempt env this w hrot,
    ?_, ?_⟩
  · intro h
    rcases hcase with ho | ⟨ho, hf⟩
    · rw [hA ho, fclose_count_adds_output h (gf_log_flag_clear_out _ _ _ _ _ _ _ _ _),
        fclose_count_rotate_probe]
    · rw [hB ho hf, fclose_count_adds_output h (gf_log_flag_clear_out _ _ _ _ _ _ _ _ _),
        fclose_count_rotate_fopen]
  · intro ho
    refine ⟨?_, hA ho, ?_⟩
    · rw [hA ho, gf_log_eq_flag_clear _ _ _ _ _ _ _ _ _ rfl]
    · rw [hA ho]
      exact gf_log_flag_clear_out _ _ _ _ _ _ _ _ _
  · intro ho hf
    refine ⟨?_, hB ho hf, ?_⟩
    · rw [hB ho hf, gf_log_eq_flag_clear _ _ _ _ _ _ _ _ _ rfl]
    · rw [hB ho hf]
      exact gf_log_flag_clear_out _ _ _ _ _ _ _ _ _

set_option maxRecDepth 8000 in
/-- C15, witness: the sample context with log file 3 open and a rotation
    requested.  With a failing probe the report is the Error line written to
    the old file; with a failing `fopen` it is the Critical line, written to
    the old file and mirrored to syslog. -/
theorem C15_rotation_failure_witness :
    (gf_log_logrotate (xl_with_level 0)
      (world_of (ctx_sample gf_logger_glusterlog gf_logformat_withmsgid false
        (some 3)))).log.logrotate = true ∧
    (env_probe_fails.open_ok = false ∨ env_probe_fails.fopen_result = none) ∧
    gf_log_rotate env_probe_fails (xl_with_level 0)
      (gf_log_logrotate (xl_with_level 0)
        (world_of (ctx_sample gf_logger_glusterlog gf_logformat_withmsgid false (some 3)))) =
      { log := ctx_sample gf_logger_glusterlog gf_logformat_withmsgid false (some 3),
        out := [Event.open_probe (some (ascii "/var/log/glusterfs/glusterd.log")),
                Event.fprintf_file 3 (ascii ("[2014-03-01 10:20:30.000034] E " ++
                  "[logging.c:258:gf_log_rotate] 0-logrotate: No such file or directory\n"))] } ∧
    gf_log_rotate env_fopen_fails (xl_with_level 0)
      (gf_log_logrotate (xl_with_level 0)
        (world_of (ctx_sample gf_logger_glusterlog gf_logformat_withmsgid false (some 3)))) =
      { log := ctx_sample gf_logger_glusterlog gf_logformat_withmsgid false (some 3),
        out := [Event.open_probe (some (ascii "/var/log/glusterfs/glusterd.log")),
                Event.close_probe,
                Event.fopen_append (some (ascii "/var/log/glusterfs/glusterd.log")),
                Event.fprintf_file 3 (ascii ("[2014-03-01 10:20:30.000034] C " ++
                  "[logging.c:266:gf_log_rotate] 0-logrotate: failed to open logfile " ++
                  "/var/log/glusterfs/glusterd.log (No such file or directory)\n")),
                Event.syslog 2 (ascii ("[2014-03-01 10:20:30.000034] C " ++
                  "[logging.c:266:gf_log_rotate] 0-logrotate: failed to open logfile " ++
                  "/var/log/glusterfs/glusterd.log (No such file or directory)\n"))] } :=
  ⟨rfl, Or.inl rfl,
   (((C15_rotation_failure env_probe_fails (xl_with_level 0)
      (gf_log_logrotate (xl_with_level 0)
        (world_of (ctx_sample gf_logger_glusterlog gf_logformat_withmsgid false (some 3))))
      rfl (Or.inl rfl)).2.2.2.2.2.1 rfl).2.1).trans (by decide),
   (((C15_rotation_failure env_fopen_fails (xl_with_level 0)
      (gf_log_logrotate (xl_with_level 0)
        (world_of (ctx_sample gf_logger_glusterlog gf_logformat_withmsgid false (some 3))))
      rfl (Or.inr rfl)).2.2.2.2.2.2 rfl rfl).2.1).trans (by decide)⟩

/-! ## Theorems: teardown -/

/-- C16 (as stated, refuted): a non-null context with no log file open and
    global level Info(7).  `gf_log_fini` returns 0 and leaves the context as
    it was: the global level is still Info, not None. -/
theorem C16_fini_without_file_keeps_level :
    gf_log_fini env_sample
        (some (world_of (ctx_sample gf_logger_glusterlog gf_logformat_withmsgid false none))) =
      (0, some (world_of (ctx_sample gf_logger_glusterlog gf_logformat_withmsgid false none))) ∧
    (after_fini env_sample
      (world_of (ctx_sample gf_logger_glusterlog gf_logformat_withmsgid false none))).log.loglevel
      = GF_LOG_INFO ∧
    ¬ ((after_fini env_sample
      (world_of (ctx_sample gf_logger_glusterlog gf_logformat_withmsgid false none))).log.loglevel
      = GF_LOG_NONE) := by
  decide

/-- C16 (amended): for every non-null context with a log file open
    beforehand, `gf_log_fini` sets the global level to None, makes `logfile`
    absent and closes the handle once (returning 0, or -1 when `fclose`
    fails); for a context with no log file open it changes nothing and
    returns 0. -/
theorem C16_fini_amended (env : Env) (w : World) :
    (∀ old, w.log.logfile = some old →
      gf_log_fini env (some w) =
        (if env.fclose_ok then 0 else -1,
         some { log := { w.log with loglevel := GF_LOG_NONE, logfile := none },
                out := w.out ++ [Event.fclose old] })) ∧
    (w.log.logfile = none → gf_log_fini env (some w) = (0, some w)) := by
  constructor
  · intro old hold
    simp only [gf_log_fini, hold]
    rfl
  · intro hnone
    simp only [gf_log_fini, hnone]

/-- C16 (amended), witness: the sample context with log file 3 open. -/
theorem C16_fini_amended_witness :
    (world_of (ctx_sample gf_logger_glusterlog gf_logformat_withmsgid false
      (some 3))).log.logfile = some 3 ∧
    gf_log_fini env_sample
        (some (world_of (ctx_sample gf_logger_glusterlog gf_logformat_withmsgid false (some 3))))
      = (0, some
          { log := { ctx_sample gf_logger_glusterlog gf_logformat_withmsgid false (some 3) with
                       loglevel := GF_LOG_NONE, logfile := none },
            out := [Event.fclose 3] }) :=
  ⟨rfl,
   (C16_fini_amended env_sample
      (world_of (ctx_sample gf_logger_glusterlog gf_logformat_withmsgid false (some 3)))).1
      3 rfl⟩

theorem after_fini_of_open (env : Env) (w : World) (old : Nat)
    (hold : w.log.logfile = some old) :
    after_fini env w =
      { log := { w.log with loglevel := GF_LOG_NONE, logfile := none },
        out := w.out ++ [Event.fclose old] } := by
  simp only [after_fini, gf_log_fini, hold]
  rfl

/-- C17 (as stated, refuted): the state `gf_log_fini` establishes for the
    sample context with log file 3 open (global level None, no file).  A
    subsequent `_gf_msg` call at level None(0) passes the gate (`0 > 0` is
    false) and the file backend writes the line to stderr. -/
theorem C17_level_none_passes_after_fini :
    (after_fini env_sample
      (world_of (ctx_sample gf_logger_glusterlog gf_logformat_withmsgid false
        (some 3)))).log.loglevel = GF_LOG_NONE ∧
    (after_fini env_sample
      (world_of (ctx_sample gf_logger_glusterlog gf_logformat_withmsgid false
        (some 3)))).log.logfile = none ∧
    _gf_msg_should_log (after_fini env_sample
      (world_of (ctx_sample gf_logger_glusterlog gf_logformat_withmsgid false (some 3)))).log
      (xl_with_level 0) GF_LOG_NONE = true ∧
    (_gf_msg env_sample (xl_with_level 0) (some (ascii "glusterd"))
        (some (ascii "/src/glusterd.c")) (some (ascii "cleanup")) 42 GF_LOG_NONE 0 false 106001
        (some (ascii "bye"))
        (after_fini env_sample
          (world_of
            (ctx_sample gf_logger_glusterlog gf_logformat_withmsgid false (some 3))))).2.out =
      [Event.fclose 3,
       Event.fprintf_stderr (ascii ("[2014-03-01 10:20:30.000034]  [MSGID: 106001] " ++
          "[glusterd.c:42:cleanup] 0-glusterd: bye\n"))] := by
  decide

/-- C17 (amended): in the state `gf_log_fini` establishes for a context that
    had an open log file, for every requested level from Emergency(1)
    upwards a subsequent `_gf_msg` call with non-`NULL` arguments writes
    nothing to the file, to stderr or to syslog and leaves the context as it
    is; it returns 0 (or -1 when the component has no context). -/
theorem C17_suppression_after_fini_amended (env env2 : Env) (this : xlator_t) (w : World)
    (old : Nat) (domain file function : Bytes) (line : Int) (level : Nat) (errnum : Int)
    (trace : Bool) (msgid : Nat) (fmt : Bytes)
    (hold : w.log.logfile = some old) (hlevel : GF_LOG_EMERG ≤ level) :
    (after_fini env w).log.loglevel = GF_LOG_NONE ∧
    (after_fini env w).log.logfile = none ∧
    _gf_msg_should_log (after_fini env w).log this level = false ∧
    _gf_msg env2 this (some domain) (some file) (some function) line level errnum trace msgid
        (some fmt) (after_fini env w) =
      (if this.has_ctx then 0 else -1, after_fini env w) := by
  have hlvl : (after_fini env w).log.loglevel = GF_LOG_NONE := by
    rw [after_fini_of_open env w old hold]
  have hgate : _gf_msg_should_log (after_fini env w).log this level = false := by
    unfold _gf_msg_should_log
    split_ifs with h1 h2
    · rfl
    · rfl
    · rw [hlvl] at h2
      simp only [GF_LOG_NONE, GF_LOG_EMERG] at h2 hlevel
      omega
  refine ⟨hlvl, by rw [after_fini_of_open env w old hold], hgate, ?_⟩
  unfold _gf_msg
  cases hc : this.has_ctx with
  | false => simp
  | true => simp [hgate]

/-- C17 (amended), witness: an Emergency(1) and a Trace(9) call after the
    teardown of the sample context. -/
theorem C17_suppression_after_fini_amended_witness :
    (world_of (ctx_sample gf_logger_glusterlog gf_logformat_withmsgid false
      (some 3))).log.logfile = some 3 ∧
    GF_LOG_EMERG ≤ GF_LOG_EMERG ∧ GF_LOG_EMERG ≤ GF_LOG_TRACE ∧
    (_gf_msg env_sample (xl_with_level 0) (some (ascii "glusterd"))
        (some (ascii "/src/glusterd.c")) (some (ascii "cleanup")) 42 GF_LOG_EMERG 0 false 106001
        (some (ascii "bye"))
        (after_fini env_sample
          (world_of
            (ctx_sample gf_logger_glusterlog gf_logformat_withmsgid false (some 3))))).2.out =
      [Event.fclose 3] ∧
    (_gf_msg env_sample (xl_with_level 0) (some (ascii "glusterd"))
        (some (ascii "/src/glusterd.c")) (some (ascii "cleanup")) 42 GF_LOG_TRACE 0 false 106001
        (some (ascii "bye"))
        (after_fini env_sample
          (world_of
            (ctx_sample gf_logger_glusterlog gf_logformat_withmsgid false (some 3))))).2.out =
      [Event.fclose 3] :=
  ⟨rfl, by decide, by decide,
   (congrArg (fun r => r.2.out)
      (C17_suppression_after_fini_amended env_sample env_sample (xl_with_level 0)
        (world_of (ctx_sample gf_logger_glusterlog gf_logformat_withmsgid false (some 3)))
        3 (ascii "glusterd") (ascii "/src/glusterd.c") (ascii "cleanup") 42 GF_LOG_EMERG 0 false
        106001 (ascii "bye") rfl (by decide)).2.2.2).trans (by decide),
   (congrArg (fun r => r.2.out)
      (C17_suppression_after_fini_amended env_sample env_sample (xl_with_level 0)
        (world_of (ctx_sample gf_logger_glusterlog gf_logformat_withmsgid false (some 3)))
        3 (ascii "glusterd") (ascii "/src/glusterd.c") (ascii "cleanup") 42 GF_LOG_TRACE 0 false
        106001 (ascii "bye") rfl (by decide)).2.2.2).trans (by decide)⟩

/-! ## Theorems: audit log and initialisation -/

/-- C19 (as stated, refuted): `gf_cmd_log` called on the sample context,
    whose audit file is absent, writes nothing but returns -1, not 0. -/
theorem C19_cmd_log_without_file_returns_error :
    (world_of (ctx_sample gf_logger_glusterlog gf_logformat_withmsgid false
      (some 3))).log.cmdlogfile = none ∧
    gf_cmd_log env_sample (xl_with_level 0) (some (ascii "cli")) (some (ascii "volume start"))
        (world_of (ctx_sample gf_logger_glusterlog gf_logformat_withmsgid false (some 3))) =
      (-1, world_of (ctx_sample gf_logger_glusterlog gf_logformat_withmsgid false (some 3))) ∧
    (gf_cmd_log env_sample (xl_with_level 0) (some (ascii "cli")) (some (ascii "volume start"))
        (world_of (ctx_sample gf_logger_glusterlog gf_logformat_withmsgid false (some 3)))).1
      ≠ 0 := by
  decide

/-- C19 (amended): for every domain and message, `gf_cmd_log` called while
    the audit file is absent writes nothing and changes nothing, and returns
    -1. -/
theorem C19_cmd_log_without_file_amended (env : Env) (this : xlator_t)
    (domain fmt : Option Bytes) (w : World) (hnone : w.log.cmdlogfile = none) :
    gf_cmd_log env this domain fmt w = (-1, w) := by
  simp only [gf_cmd_log, hnone]

/-- C19 (amended), witness: the sample context; with the audit file 5 open
    the same call appends its line and returns 0. -/
theorem C19_cmd_log_without_file_amended_witness :
    (world_of (ctx_sample gf_logger_glusterlog gf_logformat_withmsgid false
      (some 3))).log.cmdlogfile = none ∧
    gf_cmd_log env_sample (xl_with_level 0) (some (ascii "cli")) (some (ascii "volume start"))
        (world_of (ctx_sample gf_logger_glusterlog gf_logformat_withmsgid false (some 3))) =
      (-1, world_of (ctx_sample gf_logger_glusterlog gf_logformat_withmsgid false (some 3))) ∧
    gf_cmd_log env_sample (xl_with_level 0) (some (ascii "cli")) (some (ascii "volume start"))
        (world_of { ctx_sample gf_logger_glusterlog gf_logformat_withmsgid false (some 3) with
                      cmdlogfile := some 5 }) =
      (0, { log := { ctx_sample gf_logger_glusterlog gf_logformat_withmsgid false (some 3) with
                       cmdlogfile := some 5 },
            out := [Event.fprintf_file 5
              (ascii "[2014-03-01 10:20:30.000034] cli : volume start\n")] }) :=
  ⟨rfl,
   C19_cmd_log_without_file_amended env_sample (xl_with_level 0) (some (ascii "cli"))
     (some (ascii "volume start"))
     (world_of (ctx_sample gf_logger_glusterlog gf_logformat_withmsgid false (some 3))) rfl,
   by decide⟩

/-- The name `gf_log_init` records and opens for a given `file` argument:
    `/dev/stderr` for the sentinel `-`, else the argument. -/
theorem gf_log_init_result (env : Env) (file0 : Bytes) (ident : Option Bytes) (w : World)
    (h : Nat) (hdup : env.gf_strdup_ok = true) (hopen : env.open_ok = true)
    (hfopen : env.fopen_result = some h) :
    gf_log_init env (some file0) ident w =
      (0, { log := { w.log with
                       ident := (match ident with
                         | some id => some id
                         | none => w.log.ident),
                       log_control_file_found := env.control_file_exists,
                       filename :=
                         some (if file0 = ascii "-" then ascii "/dev/stderr" else file0),
                       logfile := some h,
                       gf_log_logfile := some h },
            out := w.out ++
              [Event.closelog,
               Event.openlog (match ident with
                   | some id => some id
                   | none => w.log.ident) 9 24,
               Event.open_probe
                 (some (if file0 = ascii "-" then ascii "/dev/stderr" else file0)),
               Event.close_probe,
               Event.fopen_append
                 (some (if file0 = ascii "-" then ascii "/dev/stderr" else file0))] }) := by
  unfold gf_log_init gf_openlog
  cases ident <;>
    simp [hdup, hopen, hfopen, World.emit, LOG_PID, LOG_NDELAY, LOG_DAEMON]

/-- The function `gf_log_init` returns 0 only on its last line. -/
theorem gf_log_init_zero (env : Env) (file ident : Option Bytes) (w : World)
    (hret : (gf_log_init env file ident w).1 = 0) :
    ∃ file0 h, file = some file0 ∧ env.gf_strdup_ok = true ∧ env.open_ok = true ∧
      env.fopen_result = some h := by
  unfold gf_log_init at hret
  cases file with
  | none => simp at hret
  | some file0 =>
    cases hdup : env.gf_strdup_ok with
    | false => simp [hdup] at hret
    | true =>
      cases hopen : env.open_ok with
      | false => simp [hdup, hopen] at hret
      | true =>
        cases hfopen : env.fopen_result with
        | none => simp [hdup, hopen, hfopen] at hret
        | some h => exact ⟨file0, h, rfl, rfl, rfl, rfl⟩

/-- C20: `gf_log_init` filename handling.  With the filename absent it
    returns -1, leaves `logfile` and `gf_log_logfile` as they were (absent
    on a fresh context) and opens no file; with the sentinel `-` (and
    `gf_strdup` succeeding) it records `/dev/stderr` as the file name and
    probes and opens `/dev/stderr`, never `-`; and whenever it returns 0 the
    create-probe and the append-mode `fopen` both succeeded, `logfile` and
    `gf_log_logfile` are the same open handle and `filename` is set. -/
theorem C20_gf_log_init_filename (env : Env) (ident : Option Bytes) (w : World) :
    ((gf_log_init env none ident w).1 = -1 ∧
      (gf_log_init env none ident w).2.log.logfile = w.log.logfile ∧
      (gf_log_init env none ident w).2.log.gf_log_logfile = w.log.gf_log_logfile ∧
      (gf_log_init env none ident w).2.out =
        w.out ++ [Event.closelog,
                  Event.openlog (gf_log_init env none ident w).2.log.ident 9 24,
                  Event.fprintf_stderr (ascii "ERROR: no filename specified\n")]) ∧
    (env.gf_strdup_ok = true →
      (gf_log_init env (some (ascii "-")) ident w).2.log.filename =
        some (ascii "/dev/stderr") ∧
      Event.open_probe (some (ascii "/dev/stderr")) ∈
        (gf_log_init env (some (ascii "-")) ident w).2.out ∧
      (env.open_ok = true →
        Event.fopen_append (some (ascii "/dev/stderr")) ∈
          (gf_log_init env (some (ascii "-")) ident w).2.out) ∧
      (Event.open_probe (some (ascii "-")) ∉ w.out →
        Event.open_probe (some (ascii "-")) ∉
          (gf_log_init env (some (ascii "-")) ident w).2.out) ∧
      (Event.fopen_append (some (ascii "-")) ∉ w.out →
        Event.fopen_append (some (ascii "-")) ∉
          (gf_log_init env (some (ascii "-")) ident w).2.out)) ∧
    (∀ file, (gf_log_init env file ident w).1 = 0 →
      ∃ file0 h, file = some file0 ∧ env.open_ok = true ∧ env.fopen_result = some h ∧
        (gf_log_init env file ident w).2.log.logfile = some h ∧
        (gf_log_init env file ident w).2.log.gf_log_logfile = some h ∧
        (gf_log_init env file ident w).2.log.filename =
          some (if file0 = ascii "-" then ascii "/dev/stderr" else file0)) ∧
    (∀ file0 h, env.gf_strdup_ok = true → env.open_ok = true → env.fopen_result = some h →
      (gf_log_init env (some file0) ident w).1 = 0) := by
  refine ⟨?_, ?_, ?_, ?_⟩
  · unfold gf_log_init gf_openlog
    cases ident <;> simp [World.emit, LOG_PID, LOG_NDELAY, LOG_DAEMON]
  · intro hdup
    have hdash : (if ascii "-" = ascii "-" then ascii "/dev/stderr" else ascii "-") =
        ascii "/dev/stderr" := by decide
    have hne : ascii "-" ≠ ascii "/dev/stderr" := by decide
    unfold gf_log_init gf_openlog
    cases hopen : env.open_ok with
    | false =>
      cases ident <;>
        simp [hdup, hopen, hdash, hne, World.emit, LOG_PID, LOG_NDELAY, LOG_DAEMON]
    | true =>
      cases hfopen : env.fopen_result <;> cases ident <;>
        simp [hdup, hopen, hfopen, hdash, hne, World.emit, LOG_PID, LOG_NDELAY, LOG_DAEMON]
  · intro file hret
    obtain ⟨file0, h, hfile, hdup, hopen, hfopen⟩ := gf_log_init_zero env file ident w hret
    refine ⟨file0, h, hfile, hopen, hfopen, ?_⟩
    rw [hfile, gf_log_init_result env file0 ident w h hdup hopen hfopen]
    exact ⟨rfl, rfl, rfl⟩
  · intro file0 h hdup hopen hfopen
    rw [gf_log_init_result env file0 ident w h hdup hopen hfopen]

/-! ## Theorems: the emergency line -/

theorem nomem_line_eq_spec (timestr domain basename function : Bytes) (line : Int)
    (level size : Nat) :
    nomem_line timestr domain basename function line level size =
      nomem_line_spec timestr (level_string level) basename line function domain size := by
  simp only [nomem_line, nomem_line_spec, List.append_assoc]
  rfl

theorem gf_msg_should_log_true (log : gf_log_handle_t) (this : xlator_t) (level : Nat)
    (h : _gf_msg_should_log log this level = true) :
    (log.gf_log_xl_log_set && (this.loglevel != 0 && decide (level > this.loglevel))) = false ∧
      ¬ level > log.loglevel := by
  unfold _gf_msg_should_log at h
  by_cases h1 : (log.gf_log_xl_log_set && (this.loglevel != 0 &&
      decide (level > this.loglevel))) = true
  · rw [if_pos h1] at h
    exact absurd h (by decide)
  · rw [if_neg h1] at h
    by_cases h2 : level > log.loglevel
    · rw [if_pos h2] at h
      exact absurd h (by decide)
    · exact ⟨by simpa using h1, h2⟩

theorem gf_msg_backtrace_nomem_out (env : Env) (this : xlator_t) (level : Nat)
    (stacksize : Int) (w : World) :
    w.adds_output (_gf_msg_backtrace_nomem env this level stacksize w) := by
  unfold _gf_msg_backtrace_nomem
  by_cases h1 : (!this.has_ctx) = true
  · rw [if_pos h1]
    exact adds_output_refl w
  · rw [if_neg h1]
    by_cases h2 : w.log.logger ≠ gf_logger_glusterlog
    · rw [if_pos h2]
      exact adds_output_refl w
    · rw [if_neg h2]
      by_cases h3 : (w.log.gf_log_xl_log_set && (this.loglevel != 0 &&
          decide (level > this.loglevel))) = true
      · rw [if_pos h3]
        exact adds_output_refl w
      · rw [if_neg h3]
        by_cases h4 : level > w.log.loglevel
        · rw [if_pos h4]
          exact adds_output_refl w
        · rw [if_neg h4]
          dsimp only
          by_cases h5 : env.backtrace (if stacksize ≤ 200 then stacksize else 200) ≠ 0 ∧
              env.fileno w.log.logfile ≠ -1
          · rw [if_pos h5]
            exact adds_output_emit w _ rfl
          · rw [if_neg h5]
            exact adds_output_refl w

/-- The emergency path when syslog is the selected and available backend. -/
theorem gf_msg_nomem_syslog (env : Env) (this : xlator_t) (domain file function : Bytes)
    (line : Int) (level size : Nat) (w : World) (tv : Nat × Nat)
    (hctx : this.has_ctx = true) (hgate : _gf_msg_should_log w.log this level = true)
    (hclock : env.gettimeofday = some tv)
    (hsel : w.log.logger = gf_logger_syslog ∧ w.log.log_control_file_found = true ∧
      w.log.gf_log_syslog = true) :
    (_gf_msg_nomem env this (some domain) (some file) (some function) line level size w).2 =
      w.emit (.syslog ( SET_LOG_PRIO level)
        ((nomem_line (timestamp env tv) domain (GET_FILE_NAME_TO_LOG file) function line level
          size).take 2047)) := by
  obtain ⟨h1, h2⟩ := gf_msg_should_log_true w.log this level hgate
  obtain ⟨s1, s2, s3⟩ := hsel
  unfold _gf_msg_nomem
  simp only [hctx, h1, hclock, s1, s2, s3, Bool.not_true, Bool.false_eq_true, if_false,
    if_neg h2, Bool.and_self, if_true]

/-- The emergency path when the file backend is used and the descriptor is
    valid: the line is handed to `write`; whatever follows only adds
    records. -/
theorem gf_msg_nomem_file (env : Env) (this : xlator_t) (domain file function : Bytes)
    (line : Int) (level size : Nat) (w : World) (tv : Nat × Nat)
    (hctx : this.has_ctx = true) (hgate : _gf_msg_should_log w.log this level = true)
    (hclock : env.gettimeofday = some tv)
    (hsel : ¬ (w.log.logger = gf_logger_syslog ∧ w.log.log_control_file_found = true ∧
      w.log.gf_log_syslog = true))
    (hfd : env.fileno w.log.logfile ≠ -1) :
    (w.emit (.write_fd (env.fileno w.log.logfile)
        ((nomem_line (timestamp env tv) domain (GET_FILE_NAME_TO_LOG file) function line level
          size).take 2047))).adds_output
      (_gf_msg_nomem env this (some domain) (some file) (some function) line level size w).2 := by
  obtain ⟨h1, h2⟩ := gf_msg_should_log_true w.log this level hgate
  have hfile : ∀ msg : Bytes, ∀ ret : Int,
      (w.emit (.write_fd (env.fileno w.log.logfile) msg)).adds_output
        (if env.fileno w.log.logfile = -1 then (ret, w)
         else if (!env.write_ok) = true then
           ((-1 : Int), w.emit (.write_fd (env.fileno w.log.logfile) msg))
         else ((msg.length : Int), _gf_msg_backtrace_nomem env this level GF_LOG_BACKTRACE_DEPTH
            (syslog_mirror level msg (w.emit (.write_fd (env.fileno w.log.logfile) msg))))).2 := by
    intro msg ret
    rw [if_neg hfd]
    split_ifs
    · exact adds_output_refl _
    · exact adds_output_trans (adds_output_mirror _ _ _)
        (gf_msg_backtrace_nomem_out _ _ _ _ _)
  unfold _gf_msg_nomem
  simp only [hctx, h1, hclock, Bool.not_true, Bool.false_eq_true, if_false, if_neg h2]
  cases hl : w.log.logger with
  | gf_logger_glusterlog => exact hfile _ _
  | gf_logger_syslog =>
    have hc : (w.log.log_control_file_found && w.log.gf_log_syslog) = false := by
      cases h3 : w.log.log_control_file_found <;> cases h4 : w.log.gf_log_syslog <;> simp_all
    simp only [hc, Bool.false_eq_true, if_false]
    exact hfile _ _

/-- The emergency path through the file backend when `write` succeeds. -/
theorem gf_msg_nomem_file_written (env : Env) (this : xlator_t)
    (domain file function : Bytes) (line : Int) (level size : Nat) (w : World)
    (tv : Nat × Nat) (hctx : this.has_ctx = true)
    (hgate : _gf_msg_should_log w.log this level = true)
    (hclock : env.gettimeofday = some tv)
    (hsel : w.log.logger = gf_logger_glusterlog)
    (hfd : env.fileno w.log.logfile ≠ -1) (hwrite : env.write_ok = true) :
    (_gf_msg_nomem env this (some domain) (some file) (some function) line level size w).2 =
      _gf_msg_backtrace_nomem env this level GF_LOG_BACKTRACE_DEPTH
        (syslog_mirror level
          ((nomem_line (timestamp env tv) domain (GET_FILE_NAME_TO_LOG file) function line level
            size).take 2047)
          (w.emit (.write_fd (env.fileno w.log.logfile)
            ((nomem_line (timestamp env tv) domain (GET_FILE_NAME_TO_LOG file) function line
              level size).take 2047)))) := by
  obtain ⟨h1, h2⟩ := gf_msg_should_log_true w.log this level hgate
  unfold _gf_msg_nomem
  simp only [hctx, h1, hclock, hsel, hwrite, Bool.not_true, Bool.false_eq_true, if_false,
    if_neg h2, if_neg hfd]

/-- C18 (as stated, refuted): a call of `_gf_msg_nomem` with a domain of 2048
    letters `a`.  The line of the claim would be 2177 bytes long; what the
    code hands to `write` is its first 2047 bytes (the size of `msg` less the
    terminator): it ends in a letter of the domain, not in a newline, and is
    not the line of the claim. -/
theorem C18_long_line_is_cut :
    (nomem_line_spec (timestamp env_sample (12, 34)) (level_string GF_LOG_ERROR)
      (ascii "mem-pool.c") 90 (ascii "__gf_malloc") (List.replicate 2048 0x61) 4096).length
      = 2177 ∧
    (_gf_msg_nomem env_sample (xl_with_level 0) (some (List.replicate 2048 0x61))
        (some (ascii "/src/mem-pool.c")) (some (ascii "__gf_malloc")) 90 GF_LOG_ERROR 4096
        (world_of (ctx_sample gf_logger_glusterlog gf_logformat_withmsgid false
          (some 3)))).2.out =
      [Event.write_fd 6 ((nomem_line_spec (timestamp env_sample (12, 34))
          (level_string GF_LOG_ERROR) (ascii "mem-pool.c") 90 (ascii "__gf_malloc")
          (List.replicate 2048 0x61) 4096).take 2047),
       Event.backtrace_symbols_fd 5 6] ∧
    ((nomem_line_spec (timestamp env_sample (12, 34)) (level_string GF_LOG_ERROR)
      (ascii "mem-pool.c") 90 (ascii "__gf_malloc") (List.replicate 2048 0x61) 4096).take
      2047).length = 2047 ∧
    ((nomem_line_spec (timestamp env_sample (12, 34)) (level_string GF_LOG_ERROR)
      (ascii "mem-pool.c") 90 (ascii "__gf_malloc") (List.replicate 2048 0x61) 4096).take
      2047).getLast? = some 0x61 ∧
    (nomem_line_spec (timestamp env_sample (12, 34)) (level_string GF_LOG_ERROR)
      (ascii "mem-pool.c") 90 (ascii "__gf_malloc") (List.replicate 2048 0x61) 4096).take 2047
      ≠ nomem_line_spec (timestamp env_sample (12, 34)) (level_string GF_LOG_ERROR)
      (ascii "mem-pool.c") 90 (ascii "__gf_malloc") (List.replicate 2048 0x61) 4096 := by
  have hlen : (nomem_line_spec (timestamp env_sample (12, 34)) (level_string GF_LOG_ERROR)
      (ascii "mem-pool.c") 90 (ascii "__gf_malloc") (List.replicate 2048 0x61) 4096).length
      = 2177 := by
    simp only [nomem_line_spec, List.length_append, List.length_replicate]
    rfl
  have hbase : GET_FILE_NAME_TO_LOG (ascii "/src/mem-pool.c") = ascii "mem-pool.c" := by
    decide
  refine ⟨hlen, ?_, ?_, ?_, ?_⟩
  · rw [gf_msg_nomem_file_written env_sample (xl_with_level 0) (List.replicate 2048 0x61)
      (ascii "/src/mem-pool.c") (ascii "__gf_malloc") 90 GF_LOG_ERROR 4096
      (world_of (ctx_sample gf_logger_glusterlog gf_logformat_withmsgid false (some 3)))
      (12, 34) rfl (by decide) rfl rfl (by decide) rfl,
      nomem_line_eq_spec, hbase]
    generalize (nomem_line_spec (timestamp env_sample (12, 34)) (level_string GF_LOG_ERROR)
      (ascii "mem-pool.c") 90 (ascii "__gf_malloc") (List.replicate 2048 0x61) 4096).take
      2047 = cut
    rfl
  · rw [List.length_take, hlen]
    rfl
  · have hsplit : nomem_line_spec (timestamp env_sample (12, 34)) (level_string GF_LOG_ERROR)
        (ascii "mem-pool.c") 90 (ascii "__gf_malloc") (List.replicate 2048 0x61) 4096 =
        (ascii "[" ++ timestamp env_sample (12, 34) ++ ascii "] " ++
          level_string GF_LOG_ERROR ++ ascii " [MSGID: 0] [" ++ ascii "mem-pool.c" ++
          ascii ":" ++ fmt_d 90 ++ ascii ":" ++ ascii "__gf_malloc" ++ ascii "] " ++
          List.replicate 2048 0x61) ++
        (ascii ": no memory available for size (" ++ decimal 4096 ++
          ascii ") [call stack follows]" ++ ascii "\n") := by
      simp only [nomem_line_spec, List.append_assoc]
    have hpre : (ascii "[" ++ timestamp env_sample (12, 34) ++ ascii "] " ++
          level_string GF_LOG_ERROR ++ ascii " [MSGID: 0] [" ++ ascii "mem-pool.c" ++
          ascii ":" ++ fmt_d 90 ++ ascii ":" ++ ascii "__gf_malloc" ++ ascii "] ").length
        = 70 := by decide
    rw [hsplit, List.take_append_of_le_length (by
      rw [List.length_append, hpre, List.length_replicate]
      decide),
      List.take_append_eq_append_take, hpre, List.take_replicate, List.getLast?_append,
      List.getLast?_replicate]
    rfl
  · intro heq
    have := congrArg List.length heq
    rw [List.length_take, hlen] at this
    exact absurd this (by decide)

/-- C18 (amended): for every domain, origin file, function, line number,
    gate-passing level and requested size for which the line
    `[<timestamp>] <level tag> [MSGID: 0] [<basename of file>:<line>:<function>]
    <domain>: no memory available for size (<size>) [call stack follows]`
    plus newline is at most 2047 bytes long, `_gf_msg_nomem` (clock
    answering) emits exactly that line: as the one syslog record when syslog
    is the selected and available backend, else as the text handed to
    `write` on the log descriptor (when that is valid), anything after it
    being further records only.  The line ends with a newline and contains
    the requested size and the origin. -/
theorem C18_emergency_line_amended (env : Env) (this : xlator_t)
    (domain file function : Bytes) (line : Int) (level size : Nat) (w : World)
    (tv : Nat × Nat) (hctx : this.has_ctx = true)
    (hgate : _gf_msg_should_log w.log this level = true)
    (hclock : env.gettimeofday = some tv)
    (hfit : (nomem_line_spec (timestamp env tv) (level_string level)
      (GET_FILE_NAME_TO_LOG file) line function domain size).length ≤ 2047) :
    ((w.log.logger = gf_logger_syslog ∧ w.log.log_control_file_found = true ∧
        w.log.gf_log_syslog = true) →
      (_gf_msg_nomem env this (some domain) (some file) (some function) line level size w).2 =
        w.emit (.syslog ( SET_LOG_PRIO level)
          (nomem_line_spec (timestamp env tv) (level_string level)
            (GET_FILE_NAME_TO_LOG file) line function domain size))) ∧
    (¬ (w.log.logger = gf_logger_syslog ∧ w.log.log_control_file_found = true ∧
        w.log.gf_log_syslog = true) →
      env.fileno w.log.logfile ≠ -1 →
      (w.emit (.write_fd (env.fileno w.log.logfile)
          (nomem_line_spec (timestamp env tv) (level_string level)
            (GET_FILE_NAME_TO_LOG file) line function domain size))).adds_output
        (_gf_msg_nomem env this (some domain) (some file) (some function) line level size
          w).2) ∧
    (nomem_line_spec (timestamp env tv) (level_string level)
      (GET_FILE_NAME_TO_LOG file) line function domain size).getLast? = some 0x0a ∧
    decimal size <:+: nomem_line_spec (timestamp env tv) (level_string level)
      (GET_FILE_NAME_TO_LOG file) line function domain size ∧
    (GET_FILE_NAME_TO_LOG file ++ ascii ":" ++ fmt_d line ++ ascii ":" ++ function) <:+:
      nomem_line_spec (timestamp env tv) (level_string level)
        (GET_FILE_NAME_TO_LOG file) line function domain size := by
  have htake : (nomem_line (timestamp env tv) domain (GET_FILE_NAME_TO_LOG file) function line
      level size).take 2047 =
      nomem_line_spec (timestamp env tv) (level_string level)
        (GET_FILE_NAME_TO_LOG file) line function domain size := by
    rw [nomem_line_eq_spec]
    exact List.take_of_length_le hfit
  refine ⟨?_, ?_, ?_, ?_, ?_⟩
  · intro hsel
    rw [gf_msg_nomem_syslog env this domain file function line level size w tv hctx hgate
      hclock hsel, htake]
  · intro hsel hfd
    have h := gf_msg_nomem_file env this domain file function line level size w tv hctx hgate
      hclock hsel hfd
    rw [htake] at h
    exact h
  · unfold nomem_line_spec
    rw [List.getLast?_append]
    rfl
  · refine ⟨ascii "[" ++ timestamp env tv ++ ascii "] " ++ level_string level ++
        ascii " [MSGID: 0] [" ++ GET_FILE_NAME_TO_LOG file ++ ascii ":" ++ fmt_d line ++
        ascii ":" ++ function ++ ascii "] " ++ domain ++
        ascii ": no memory available for size (",
      ascii ") [call stack follows]" ++ ascii "\n", ?_⟩
    simp only [nomem_line_spec, List.append_assoc]
  · refine ⟨ascii "[" ++ timestamp env tv ++ ascii "] " ++ level_string level ++
        ascii " [MSGID: 0] [",
      ascii "] " ++ domain ++ ascii ": no memory available for size (" ++ decimal size ++
        ascii ") [call stack follows]" ++ ascii "\n", ?_⟩
    simp only [nomem_line_spec, List.append_assoc]

set_option maxRecDepth 8000 in
/-- C18 (amended), witness: an Error(4) record for 4096 bytes from
    `/src/mem-pool.c:90:__gf_malloc`, domain `glusterd`, log file 3 (whose
    descriptor is 6). -/
theorem C18_emergency_line_amended_witness :
    (xl_with_level 0).has_ctx = true ∧
    _gf_msg_should_log
      (world_of (ctx_sample gf_logger_glusterlog gf_logformat_withmsgid false (some 3))).log
      (xl_with_level 0) GF_LOG_ERROR = true ∧
    env_sample.gettimeofday = some (12, 34) ∧
    (nomem_line_spec (timestamp env_sample (12, 34)) (level_string GF_LOG_ERROR)
      (GET_FILE_NAME_TO_LOG (ascii "/src/mem-pool.c")) 90 (ascii "__gf_malloc")
      (ascii "glusterd") 4096).length ≤ 2047 ∧
    ((world_of (ctx_sample gf_logger_glusterlog gf_logformat_withmsgid false (some 3))).emit
        (.write_fd (env_sample.fileno
            (world_of (ctx_sample gf_logger_glusterlog gf_logformat_withmsgid false
              (some 3))).log.logfile)
          (nomem_line_spec (timestamp env_sample (12, 34)) (level_string GF_LOG_ERROR)
            (GET_FILE_NAME_TO_LOG (ascii "/src/mem-pool.c")) 90 (ascii "__gf_malloc")
            (ascii "glusterd") 4096))).adds_output
      (_gf_msg_nomem env_sample (xl_with_level 0) (some (ascii "glusterd"))
        (some (ascii "/src/mem-pool.c")) (some (ascii "__gf_malloc")) 90 GF_LOG_ERROR 4096
        (world_of (ctx_sample gf_logger_glusterlog gf_logformat_withmsgid false (some 3)))).2 ∧
    (_gf_msg_nomem env_sample (xl_with_level 0) (some (ascii "glusterd"))
        (some (ascii "/src/mem-pool.c")) (some (ascii "__gf_malloc")) 90 GF_LOG_ERROR 4096
        (world_of (ctx_sample gf_logger_glusterlog gf_logformat_withmsgid false
          (some 3)))).2.out =
      [Event.write_fd 6 (ascii ("[2014-03-01 10:20:30.000034] E [MSGID: 0] " ++
          "[mem-pool.c:90:__gf_malloc] glusterd: no memory available for size (4096) " ++
          "[call stack follows]\n")),
       Event.backtrace_symbols_fd 5 6] :=
  ⟨rfl, by decide, rfl, by decide,
   (C18_emergency_line_amended env_sample (xl_with_level 0) (ascii "glusterd")
      (ascii "/src/mem-pool.c") (ascii "__gf_malloc") 90 GF_LOG_ERROR 4096
      (world_of (ctx_sample gf_logger_glusterlog gf_logformat_withmsgid false (some 3)))
      (12, 34) rfl (by decide) rfl (by decide)).2.1 (by decide) (by decide),
   by decide⟩

/-- C20, witness: a fresh context, ident `glusterd`.  With no file name the
    call fails and no file is opened; with `-` it opens `/dev/stderr`
    (handle 7) and returns 0. -/
theorem C20_gf_log_init_filename_witness :
    (gf_log_init env_sample none (some (ascii "glusterd"))
      (world_of (ctx_with_level GF_LOG_INFO false))).1 = -1 ∧
    (gf_log_init env_sample none (some (ascii "glusterd"))
      (world_of (ctx_with_level GF_LOG_INFO false))).2.log.logfile = none ∧
    env_sample.gf_strdup_ok = true ∧
    (gf_log_init env_sample (some (ascii "-")) (some (ascii "glusterd"))
      (world_of (ctx_with_level GF_LOG_INFO false))).2.log.filename =
        some (ascii "/dev/stderr") ∧
    (gf_log_init env_sample (some (ascii "-")) (some (ascii "glusterd"))
      (world_of (ctx_with_level GF_LOG_INFO false))).1 = 0 ∧
    (∃ file0 h, some (ascii "-") = some file0 ∧ env_sample.open_ok = true ∧
        env_sample.fopen_result = some h ∧
        (gf_log_init env_sample (some (ascii "-")) (some (ascii "glusterd"))
          (world_of (ctx_with_level GF_LOG_INFO false))).2.log.logfile = some h ∧
        (gf_log_init env_sample (some (ascii "-")) (some (ascii "glusterd"))
          (world_of (ctx_with_level GF_LOG_INFO false))).2.log.gf_log_logfile = some h ∧
        (gf_log_init env_sample (some (ascii "-")) (some (ascii "glusterd"))
          (world_of (ctx_with_level GF_LOG_INFO false))).2.log.filename =
          some (if file0 = ascii "-" then ascii "/dev/stderr" else file0)) ∧
    (gf_log_init env_sample (some (ascii "-")) (some (ascii "glusterd"))
      (world_of (ctx_with_level GF_LOG_INFO false))).2 =
      { log := { ctx_with_level GF_LOG_INFO false with
                   ident := some (ascii "glusterd"),
                   filename := some (ascii "/dev/stderr"),
                   logfile := some 7, gf_log_logfile := some 7 },
        out := [Event.closelog,
                Event.openlog (some (ascii "glusterd")) 9 24,
                Event.open_probe (some (ascii "/dev/stderr")),
                Event.close_probe,
                Event.fopen_append (some (ascii "/dev/stderr"))] } :=
  ⟨(C20_gf_log_init_filename env_sample (some (ascii "glusterd"))
      (world_of (ctx_with_level GF_LOG_INFO false))).1.1,
   by decide, rfl,
   ((C20_gf_log_init_filename env_sample (some (ascii "glusterd"))
      (world_of (ctx_with_level GF_LOG_INFO false))).2.1 rfl).1,
   by decide,
   (C20_gf_log_init_filename env_sample (some (ascii "glusterd"))
      (world_of (ctx_with_level GF_LOG_INFO false))).2.2.1 (some (ascii "-")) (by decide),
   by decide⟩

/-! ## Theorems: the header of the file backend -/

/-- C21: for every record, with or without a call stack, the header the file
    backend builds under WithMsgId is the header it builds under Traditional
    with ` [MSGID: <id>]` inserted right behind the level tag, the rest
    (`rest`) being the same; and under Cee, which the file backend does not
    support, it builds the header of WithMsgId. -/
theorem C21_withmsgid_inserts_msgid (this : xlator_t) (timestr domain file function : Bytes)
    (line : Int) (level msgid : Nat) (callstr : Option Bytes) :
    (∃ rest : Bytes,
      glusterlog_header this gf_logformat_traditional timestr domain file function line level
          msgid callstr =
        (ascii "[" ++ timestr ++ ascii "] " ++ level_string level) ++ rest ∧
      glusterlog_header this gf_logformat_withmsgid timestr domain file function line level
          msgid callstr =
        (ascii "[" ++ timestr ++ ascii "] " ++ level_string level) ++
          (ascii " [MSGID: " ++ decimal msgid ++ ascii "]") ++ rest) ∧
    glusterlog_header this gf_logformat_cee timestr domain file function line level msgid
        callstr =
      glusterlog_header this gf_logformat_withmsgid timestr domain file function line level
        msgid callstr := by
  refine ⟨?_, rfl⟩
  cases callstr with
  | none =>
    refine ⟨ascii " [" ++ file ++ ascii ":" ++ fmt_d line ++ ascii ":" ++ function ++
      ascii "] " ++ fmt_d (graph_id this) ++ ascii "-" ++ domain ++ ascii ": ", ?_, ?_⟩
    · simp [glusterlog_header]
    · simp [glusterlog_header]
      rfl
  | some cs =>
    refine ⟨ascii " [" ++ file ++ ascii ":" ++ fmt_d line ++ ascii ":" ++ function ++
      ascii "] " ++ cs ++ ascii " " ++ fmt_d (graph_id this) ++ ascii "-" ++ domain ++
      ascii ": ", ?_, ?_⟩
    · simp [glusterlog_header]
    · simp [glusterlog_header]
      rfl

/-! ## Theorems: syslog set-up and the message-less submission -/

/-- C25, the code at the failing input: `gf_openlog ("glusterd", -1, -1)`
    closes the log and opens it with the options `LOG_PID | LOG_NDELAY` (9)
    and the facility `LOG_LOCAL1` (136); the facility the doc comment of the
    function promises for `-1`, `LOG_DAEMON`, is 24. -/
theorem C25_default_facility_is_local1 :
    gf_openlog (some (ascii "glusterd")) (-1) (-1)
        (world_of (ctx_sample gf_logger_glusterlog gf_logformat_withmsgid false none)) =
      { log := ctx_sample gf_logger_glusterlog gf_logformat_withmsgid false none,
        out := [Event.closelog, Event.openlog (some (ascii "glusterd")) 9 136] } ∧
    ((LOG_PID ||| LOG_NDELAY : Nat) : Int) = 9 ∧
    LOG_LOCAL1 = 136 ∧ LOG_DAEMON = 24 := by
  decide

/-- An array whose first NUL is at index `k` holds the string
    of its first `k` bytes. -/
theorem cstr_json_local_array (content : Nat → Nat) (k : Nat) (hk : k < GF_JSON_MSG_LENGTH)
    (hzero : content k = 0) (hnz : ∀ i, i < k → content i ≠ 0) :
    cstr (json_local_array content) = (List.range k).map content := by
  have hsplit : ∀ n, k < n → List.range n =
      List.range k ++ k :: List.range' (k + 1) (n - (k + 1)) := by
    intro n hn
    obtain ⟨m, rfl⟩ : ∃ m, n = (m + 1) + k := ⟨n - (k + 1), by omega⟩
    rw [List.range_eq_range', List.range_eq_range', ← List.range'_append_1, List.range'_succ]
    simp
    omega
  unfold json_local_array
  rw [hsplit _ hk, List.map_append, List.map_cons, hzero]
  apply cstr_append_zero
  intro b hb
  rw [List.mem_map] at hb
  obtain ⟨i, hi, rfl⟩ := hb
  exact hnz i (List.mem_range.mp hi)

/-- C26, the code at the failing input: with a `NULL` format and the code
    30800, whose catalogue message is `generic error`, `gf_syslog` submits
    the CEE line built from the local array `json_error_message` as the
    stack left it (here `???`): the catalogue message is not escaped into
    the array and appears nowhere in the payload.  With a `NULL` format and
    the code 1, which has no catalogue message, nothing is submitted. -/
theorem C26_absent_format_payload_unescaped :
    env_garbage._gf_get_message 30800 = some (ascii "generic error") ∧
    gf_syslog env_garbage 30800 3 none
        (world_of (ctx_sample gf_logger_syslog gf_logformat_cee true none)) =
      { log := ctx_sample gf_logger_syslog gf_logformat_cee true none,
        out := [Event.syslog 3 (ascii
          "@cee: \x7b\"msg\": \"???\", \"gf_code\": \"30800\", \"gf_message\": \"???\"\x7d")] } ∧
    ascii "@cee: \x7b\"msg\": \"???\", \"gf_code\": \"30800\", \"gf_message\": \"???\"\x7d" ≠
      GF_SYSLOG_CEE_FORMAT (escape_spec (ascii "generic error")) 30800
        (escape_spec (ascii "generic error")) ∧
    env_garbage._gf_get_message 1 = none ∧
    gf_syslog env_garbage 1 3 none
        (world_of (ctx_sample gf_logger_syslog gf_logformat_cee true none)) =
      world_of (ctx_sample gf_logger_syslog gf_logformat_cee true none) := by
  refine ⟨rfl, ?_, by decide, rfl, rfl⟩
  have hc : cstr (json_local_array env_garbage.json_error_message_garbage) = ascii "???" := by
    rw [cstr_json_local_array _ 3 (by decide) (by decide) (by decide)]
    decide
  unfold gf_syslog
  simp only [show env_garbage._gf_get_message 30800 = some (ascii "generic error") from rfl, hc]
  decide

/-! ## Lemmas: the call stack as a string -/

theorem store_at_zero (buf data : Bytes) (h : data.length ≤ buf.length) :
    store_at buf 0 data = data ++ buf.drop data.length := by
  induction data generalizing buf with
  | nil => cases buf <;> rfl
  | cons d data ih =>
    cases buf with
    | nil => simp at h
    | cons b buf =>
      simp only [List.length_cons, Nat.add_le_add_iff_right] at h
      simp only [store_at, ih buf h, List.cons_append, List.length_cons, List.drop_succ_cons]

theorem store_at_append (pre rest data : Bytes) (h : data.length ≤ rest.length) :
    store_at (pre ++ rest) pre.length data = pre ++ data ++ rest.drop data.length := by
  induction pre with
  | nil => simpa using store_at_zero rest data h
  | cons b pre ih =>
    simp only [List.cons_append, List.length_cons, store_at]
    exact congrArg _ ih

theorem int_of_size_t_small (n : Nat) (h : n < 2 ^ 31) : int_of_size_t n = n := by
  unfold int_of_size_t
  omega

theorem callstr_offset_eq (S k : Nat) (hk : k ≤ S) (hS : S < 2 ^ 64) :
    callstr_offset (S : Int) (S - k) = k := by
  unfold callstr_offset
  omega

theorem PRINT_SIZE_CHECK_room (L strsize : Nat) (h : L < strsize) (hs : strsize < 2 ^ 64) :
    PRINT_SIZE_CHECK (L : Int) strsize = ((L : Int), some (strsize - L)) := by
  unfold PRINT_SIZE_CHECK
  rw [if_neg (by omega), if_pos (by omega)]
  congr 2
  omega

/-- One `snprintf` when the text and the terminator fit behind what was
    written so far. -/
theorem snprintf_fits (W rest text : Bytes) (S : Nat) (hS : S ≤ W.length + rest.length)
    (hfit : W.length + text.length < S) :
    snprintf (W ++ rest) W.length (S - W.length) text =
      (W ++ text ++ 0 :: rest.drop (text.length + 1), (text.length : Int)) := by
  unfold snprintf
  rw [if_neg (by omega)]
  have ht : text.take (S - W.length - 1) = text := List.take_of_length_le (by omega)
  rw [ht, store_at_append _ _ _ (by simp; omega)]
  simp only [List.append_assoc, List.length_append, List.length_singleton,
    List.singleton_append, List.cons_append, List.nil_append]

theorem frames_rendering_range_succ (callingfn : Nat → Bytes) (n : Nat) :
    frames_rendering ((List.range (n + 1)).map callingfn).reverse =
      ascii "-->" ++ callingfn n ++ ascii " " ++
        frames_rendering ((List.range n).map callingfn).reverse := by
  rw [List.range_succ, List.map_append, List.reverse_append]
  rfl

/-- The loop when everything it prints fits: the frames are printed one
    behind the other, highest index first. -/
theorem gf_msg_backtrace_loop_fits (callingfn : Nat → Bytes) (callstr0 : Bytes) (S : Nat)
    (hS : S ≤ callstr0.length) (hS64 : S < 2 ^ 64) (n : Nat) (W : Bytes) (ret : Int)
    (hfit : W.length +
      (frames_rendering ((List.range n).map callingfn).reverse).length < S) :
    ∃ ret1, _gf_msg_backtrace_loop callingfn (S : Int) n
        (W ++ 0 :: callstr0.drop (W.length + 1)) (S - W.length) ret =
      (ret1, W ++ frames_rendering ((List.range n).map callingfn).reverse ++
          0 :: callstr0.drop
            ((W ++ frames_rendering ((List.range n).map callingfn).reverse).length + 1),
        some (S - (W ++ frames_rendering ((List.range n).map callingfn).reverse).length)) := by
  induction n generalizing W ret with
  | zero =>
    refine ⟨ret, ?_⟩
    simp [_gf_msg_backtrace_loop, frames_rendering]
  | succ n ih =>
    rw [frames_rendering_range_succ] at hfit ⊢
    simp only [List.length_append] at hfit
    have hlenrest : S ≤ W.length + (0 :: callstr0.drop (W.length + 1)).length := by
      simp only [List.length_cons, List.length_drop]
      omega
    have hstep := snprintf_fits W (0 :: callstr0.drop (W.length + 1))
      (ascii "-->" ++ callingfn n ++ ascii " ") S hlenrest
      (by simp only [List.length_append]; omega)
    have hroom := PRINT_SIZE_CHECK_room (ascii "-->" ++ callingfn n ++ ascii " ").length
      (S - W.length) (by simp only [List.length_append]; omega) (by omega)
    obtain ⟨ret1, hrec⟩ := ih (W ++ (ascii "-->" ++ callingfn n ++ ascii " "))
      ((ascii "-->" ++ callingfn n ++ ascii " ").length : Int)
      (by simp only [List.length_append] at *; omega)
    refine ⟨ret1, ?_⟩
    unfold _gf_msg_backtrace_loop
    simp only [callstr_offset_eq S W.length (by omega) hS64, hstep, hroom]
    have hdrop : (0 :: callstr0.drop (W.length + 1)).drop
        ((ascii "-->" ++ callingfn n ++ ascii " ").length + 1) =
        callstr0.drop ((W ++ (ascii "-->" ++ callingfn n ++ ascii " ")).length + 1) := by
      simp only [List.drop_succ_cons, List.drop_drop, List.length_append]
      congr 1
      omega
    have hsz : S - W.length - (ascii "-->" ++ callingfn n ++ ascii " ").length =
        S - (W ++ (ascii "-->" ++ callingfn n ++ ascii " ")).length := by
      simp only [List.length_append]
      omega
    rw [hdrop, hsz, hrec]
    simp only [List.append_assoc]


/-- The whole of `_gf_msg_backtrace` when at least three frames are
    captured and the rendering with its terminator fits in `strsize`
    bytes. -/
theorem gf_msg_backtrace_fits (env : Env) (stacksize : Int) (callstr : Bytes) (strsize : Nat)
    (sym : Nat → Bytes) (hdepth : 3 ≤ stacksize)
    (hsize : 3 ≤ env.backtrace (if stacksize ≤ 200 then stacksize else 200))
    (hsym : env.backtrace_symbols = some sym)
    (hbuf : strsize ≤ callstr.length) (hint : strsize < 2 ^ 31)
    (hfit : (flat_rendering (remaining_frames sym
      (env.backtrace (if stacksize ≤ 200 then stacksize else 200))).reverse).length <
        strsize) :
    _gf_msg_backtrace env stacksize callstr strsize =
      (1, flat_rendering (remaining_frames sym
            (env.backtrace (if stacksize ≤ 200 then stacksize else 200))).reverse ++
          0 :: callstr.drop ((flat_rendering (remaining_frames sym
            (env.backtrace (if stacksize ≤ 200 then stacksize else 200))).reverse).length +
              1)) := by
  generalize hsz : env.backtrace (if stacksize ≤ 200 then stacksize else 200) = size
    at hsize hfit ⊢
  unfold remaining_frames flat_rendering at *
  simp only [List.length_append] at hfit
  have hone : (ascii "(").length = 1 := rfl
  have hone2 : (ascii ")").length = 1 := rfl
  have h0 := snprintf_fits [] callstr (ascii "(") strsize (by simpa using hbuf)
    (by simp only [List.length_nil, hone]; omega)
  simp only [List.length_nil, Nat.sub_zero, List.nil_append, hone] at h0
  have hr0 := PRINT_SIZE_CHECK_room 1 strsize (by omega) (by omega)
  obtain ⟨ret1, hloop⟩ := gf_msg_backtrace_loop_fits (fun i => sym (i + 2)) callstr strsize
    hbuf (by omega) (size - 2) (ascii "(") ((1 : Nat) : Int) (by rw [hone]; omega)
  have h2 := snprintf_fits
    (ascii "(" ++ frames_rendering ((List.range (size - 2)).map (fun i => sym (i + 2))).reverse)
    (0 :: callstr.drop ((ascii "(" ++ frames_rendering
      ((List.range (size - 2)).map (fun i => sym (i + 2))).reverse).length + 1))
    (ascii ")") strsize
    (by simp only [List.length_cons, List.length_drop, List.length_append]; omega)
    (by simp only [List.length_append, hone2, hone]; omega)
  have hr2 := PRINT_SIZE_CHECK_room 1 (strsize - (ascii "(" ++ frames_rendering
      ((List.range (size - 2)).map (fun i => sym (i + 2))).reverse).length)
    (by simp only [List.length_append, hone]; omega) (by omega)
  have hcount : ((size : Int) - 2).toNat = size - 2 := by omega
  unfold _gf_msg_backtrace
  rw [if_neg (by omega)]
  simp only [hsz]
  rw [if_neg (by omega)]
  simp only [hsym, int_of_size_t_small strsize hint, h0, hcount]
  rw [hr0]
  simp only []
  rw [hone] at hloop
  rw [hloop]
  simp only []
  rw [callstr_offset_eq strsize _ (by simp only [List.length_append, hone]; omega) (by omega),
    h2]
  simp only [hone2, Nat.cast_one] at hr2 ⊢
  rw [hr2]
  simp only [List.drop_succ_cons, List.drop_drop, List.length_append, hone, hone2,
    List.append_assoc, Nat.add_assoc]


/-! ## Theorems: the call stack as a string -/

/-- C23 (as stated, refuted): with the sample stack, depth 5 and a 64-byte
    buffer, `_gf_msg_backtrace` leaves the flat text
    `(-->main -->glusterd_handle_commit -->glusterd_op_commit )`, oldest
    frame first.  That is neither the nested form with the frame nearest to
    the caller first, `(-->glusterd_op_commit (-->glusterd_handle_commit
    (-->main)))`, nor the nested form of the same frames oldest first. -/
theorem C23_rendering_is_not_nested :
    _gf_msg_backtrace env_sample 5 (List.replicate 64 0) 64 =
      (1, ascii "(-->main -->glusterd_handle_commit -->glusterd_op_commit )" ++
            List.replicate 6 0) ∧
    remaining_frames sample_symbols 5 =
      [ascii "glusterd_op_commit", ascii "glusterd_handle_commit", ascii "main"] ∧
    nested_rendering_spec (remaining_frames sample_symbols 5) =
      ascii "(-->glusterd_op_commit (-->glusterd_handle_commit (-->main)))" ∧
    cstr (_gf_msg_backtrace env_sample 5 (List.replicate 64 0) 64).2 ≠
      nested_rendering_spec (remaining_frames sample_symbols 5) ∧
    cstr (_gf_msg_backtrace env_sample 5 (List.replicate 64 0) 64).2 ≠
      nested_rendering_spec (remaining_frames sample_symbols 5).reverse := by
  decide

/-- C23 (amended): a requested depth below 3 yields no capture: the call
    returns -1 and leaves the buffer as it was.  For every requested depth
    of at least 3, every capture of at least 3 frames whose strings
    `backtrace_symbols` delivers, and a buffer of `strsize` bytes that holds
    the result and its terminator, the two innermost frames are dropped and
    the call returns 1 with the buffer holding `(`, then `-->frame ` for
    each remaining frame, the oldest captured frame first and the frame
    nearest to the caller last, then `)` and the terminator; the bytes
    behind the terminator are untouched. -/
theorem C23_backtrace_rendering_amended (env : Env) (stacksize : Int) (callstr : Bytes)
    (strsize : Nat) :
    (stacksize < 3 → _gf_msg_backtrace env stacksize callstr strsize = (-1, callstr)) ∧
    (∀ sym : Nat → Bytes, 3 ≤ stacksize →
      3 ≤ env.backtrace (if stacksize ≤ 200 then stacksize else 200) →
      env.backtrace_symbols = some sym →
      strsize ≤ callstr.length → strsize < 2 ^ 31 →
      (flat_rendering (remaining_frames sym
        (env.backtrace (if stacksize ≤ 200 then stacksize else 200))).reverse).length <
          strsize →
      _gf_msg_backtrace env stacksize callstr strsize =
        (1, flat_rendering (remaining_frames sym
              (env.backtrace (if stacksize ≤ 200 then stacksize else 200))).reverse ++
            0 :: callstr.drop ((flat_rendering (remaining_frames sym
              (env.backtrace (if stacksize ≤ 200 then stacksize else 200))).reverse).length +
                1))) := by
  refine ⟨?_, ?_⟩
  · intro h
    unfold _gf_msg_backtrace
    rw [if_pos h]
  · intro sym hdepth hsize hsym hbuf hint hfit
    exact gf_msg_backtrace_fits env stacksize callstr strsize sym hdepth hsize hsym hbuf hint
      hfit

/-- C23 (amended), witness: the sample stack and a 64-byte buffer filled
    with 0xaa: depth 2 returns -1 and leaves the buffer alone; depth 5
    returns 1 and leaves the three remaining frames, oldest first, the
    terminator and the last five bytes of the buffer as they were. -/
theorem C23_backtrace_rendering_amended_witness :
    _gf_msg_backtrace env_sample 2 (List.replicate 64 0xaa) 64 = (-1, List.replicate 64 0xaa) ∧
    _gf_msg_backtrace env_sample 5 (List.replicate 64 0xaa) 64 =
      (1, ascii "(-->main -->glusterd_handle_commit -->glusterd_op_commit )" ++
        0 :: List.replicate 5 0xaa) :=
  ⟨(C23_backtrace_rendering_amended env_sample 2 (List.replicate 64 0xaa) 64).1 (by decide),
   (C23_backtrace_rendering_amended env_sample 5 (List.replicate 64 0xaa) 64).2
     sample_symbols (by decide) (by decide) rfl (by decide) (by decide) (by decide)⟩

set_option maxRecDepth 8000 in
/-- C27, the code at the failing input: an Error record of `_gf_msg` with a
    call stack requested, the sample stack (5 frames captured, 3 left) and a
    log file open.  `_gf_msg` passes `GF_LOG_BACKTRACE_DEPTH` (5) as the size
    of its 4096-byte array `callstr`, so the string handed to the backend
    and written to the file is `(-->`; called with the size of the array,
    `_gf_msg_backtrace` leaves the complete rendering of the three frames. -/
theorem C27_call_stack_cut_to_depth :
    GF_LOG_BACKTRACE_DEPTH = 5 ∧ GF_LOG_BACKTRACE_SIZE = 4096 ∧
    (_gf_msg env_sample (xl_with_level 0) (some (ascii "glusterd"))
        (some (ascii "/src/glusterd-op-sm.c")) (some (ascii "glusterd_op_commit")) 120
        GF_LOG_ERROR 0 true 106001 (some (ascii "commit failed"))
        (world_of (ctx_sample gf_logger_glusterlog gf_logformat_withmsgid false (some 4)))).2.out =
      [Event.fprintf_file 4 (ascii ("[2014-03-01 10:20:30.000034] E [MSGID: 106001] " ++
        "[glusterd-op-sm.c:120:glusterd_op_commit] (--> 0-glusterd: commit failed\n"))] ∧
    cstr (_gf_msg_backtrace env_sample GF_LOG_BACKTRACE_DEPTH
        (List.replicate GF_LOG_BACKTRACE_SIZE 0) GF_LOG_BACKTRACE_DEPTH).2 = ascii "(-->" ∧
    cstr (_gf_msg_backtrace env_sample GF_LOG_BACKTRACE_DEPTH
        (List.replicate GF_LOG_BACKTRACE_SIZE 0) GF_LOG_BACKTRACE_SIZE).2 =
      ascii "(-->main -->glusterd_handle_commit -->glusterd_op_commit )" := by
  refine ⟨rfl, rfl, ?_, ?_, ?_⟩
  · decide
  · decide
  · decide

/-! ## Lemmas: how far `_json_escape` gets -/

theorem escape_spec_append (s t : Bytes) :
    escape_spec (s ++ t) = escape_spec s ++ escape_spec t := by
  induction s with
  | nil => rfl
  | cons c rest ih =>
    show escape_byte_spec c ++ escape_spec (rest ++ t) = _
    rw [ih]
    simp only [escape_spec, List.append_assoc]

/-- The string at the start of a block is a leading part of the block. -/
theorem take_cstr_length (s : Bytes) : s.take (cstr s).length = cstr s := by
  induction s with
  | nil => rfl
  | cons c rest ih =>
    by_cases hc : c = 0
    · subst hc
      simp [cstr]
    · have hcs : cstr (c :: rest) = c :: cstr rest := by
        unfold cstr
        rw [List.takeWhile_cons_of_pos (by simpa using hc)]
      rw [hcs, List.length_cons, List.take_succ_cons, ih]

/-- A larger bound never consumes less. -/
theorem consumed_spec_mono (len len1 : Nat) (hle : len ≤ len1) (s : Bytes) (pos : Nat) :
    consumed_spec len s pos ≤ consumed_spec len1 s pos := by
  induction s generalizing pos with
  | nil => simp [consumed_spec]
  | cons c rest ih =>
    simp only [consumed_spec]
    by_cases h : c ≠ 0 ∧ pos + (escape_byte_spec c).length < len
    · rw [if_pos h, if_pos ⟨h.1, by omega⟩]
      exact Nat.succ_le_succ (ih _)
    · rw [if_neg h]
      exact Nat.zero_le _

/-- Where the count stops before a byte that is not NUL, the encoding of
    that byte and the terminator do not fit behind what was written. -/
theorem consumed_spec_stop (len : Nat) (s : Bytes) (pos : Nat) (c : Nat)
    (hc : s[consumed_spec len s pos]? = some c) (hnz : c ≠ 0) :
    len ≤ pos + (escape_spec (s.take (consumed_spec len s pos))).length +
      (escape_byte_spec c).length := by
  induction s generalizing pos with
  | nil => simp at hc
  | cons d rest ih =>
    simp only [consumed_spec] at hc ⊢
    by_cases h : d ≠ 0 ∧ pos + (escape_byte_spec d).length < len
    · rw [if_pos h] at hc ⊢
      simp only [List.getElem?_cons_succ] at hc
      have := ih _ hc
      simp only [List.take_succ_cons, escape_spec, List.length_append]
      omega
    · rw [if_neg h] at hc ⊢
      simp only [List.getElem?_cons_zero, Option.some.injEq] at hc
      subst hc
      simp only [List.take_zero, escape_spec, List.length_nil, Nat.add_zero]
      by_contra hcon
      exact h ⟨hnz, by omega⟩

/-- A bound above six times the length of the string lets the count reach
    the end of the string. -/
theorem consumed_spec_six (len : Nat) (s : Bytes) (pos : Nat)
    (h : pos + 6 * (cstr s).length < len) : consumed_spec len s pos = (cstr s).length := by
  induction s generalizing pos with
  | nil => rfl
  | cons c rest ih =>
    by_cases hc : c = 0
    · subst hc
      simp [consumed_spec, cstr]
    · have hcs : cstr (c :: rest) = c :: cstr rest := by
        unfold cstr
        rw [List.takeWhile_cons_of_pos (by simpa using hc)]
      rw [hcs, List.length_cons] at h ⊢
      have hl := escape_byte_spec_length c
      simp only [consumed_spec]
      rw [if_pos ⟨hc, by omega⟩, ih _ (by omega)]

/-! ## Theorems: minimal truncation -/

/-- C29: for every input, every bound `len >= 1` and every larger bound
    `len1` (the buffers having that many bytes), `_json_escape` returns the
    offset `p` with the whole encoding of the first `p` bytes in `buf`; if
    the byte at `p` is not the NUL that ends the input, its encoding (1, 2 or
    6 characters) plus the terminator exceeds the space left, `len - pos`;
    the larger bound consumes at least as much and its output starts with
    the output for `len`; and a bound above 6 times the length of the input
    string consumes the whole string. -/
theorem C29_json_escape_truncates_minimally (str buf0 buf1 : Bytes) (len len1 : Nat)
    (hlen : 1 ≤ len) (hbuf : len ≤ buf0.length) (hle : len ≤ len1)
    (hbuf1 : len1 ≤ buf1.length) :
    ∃ p st p1 st1,
      _json_escape (some str) (some buf0) len = some (p, st) ∧
      _json_escape (some str) (some buf1) len1 = some (p1, st1) ∧
      cstr st.buf = escape_spec (str.take p) ∧
      st.pos = (escape_spec (str.take p)).length ∧
      (∀ c, str[p]? = some c → c ≠ 0 →
        len - st.pos < (escape_byte_spec c).length + 1 ∧
        ((escape_byte_spec c).length = 1 ∨ (escape_byte_spec c).length = 2 ∨
          (escape_byte_spec c).length = 6)) ∧
      p ≤ p1 ∧ cstr st.buf <+: cstr st1.buf ∧
      (6 * (cstr str).length < len →
        p = (cstr str).length ∧ cstr st.buf = escape_spec (cstr str)) := by
  obtain ⟨st, h1, h2, h3, _, h5⟩ := json_escape_result str buf0 len hlen hbuf
  obtain ⟨st1, k1, k2⟩ := json_escape_cstr str buf1 len1 (by omega) hbuf1
  have hcs : cstr st.buf = escape_spec (str.take (consumed_spec len str 0)) := by
    rw [h5]
    exact cstr_append_zero _ _ (escape_spec_nonzero _ (consumed_spec_nonzero len str 0))
  have hmono := consumed_spec_mono len len1 hle str 0
  refine ⟨_, st, _, st1, h1, k1, hcs, h2, ?_, hmono, ?_, ?_⟩
  · intro c hc hnz
    have := consumed_spec_stop len str 0 c hc hnz
    refine ⟨?_, escape_byte_spec_length c⟩
    rw [h2]
    omega
  · rw [hcs, k2]
    refine ⟨escape_spec ((str.drop (consumed_spec len str 0)).take
      (consumed_spec len1 str 0 - consumed_spec len str 0)), ?_⟩
    rw [← escape_spec_append]
    congr 1
    have : consumed_spec len1 str 0 =
        consumed_spec len str 0 + (consumed_spec len1 str 0 - consumed_spec len str 0) := by
      omega
    conv_rhs => rw [this, List.take_add]
  · intro h6
    have hk := consumed_spec_six len str 0 (by omega)
    refine ⟨hk, ?_⟩
    rw [hcs, hk]
    rw [take_cstr_length]

/-- C29, witness: the input `a`, newline, `b` with the bounds 3 and 8: bound
    3 stops before the newline, whose two characters and the terminator do
    not fit behind `a`; bound 8 consumes all three bytes. -/
theorem C29_json_escape_truncates_minimally_witness :
    (1 ≤ 3 ∧ 3 ≤ (List.replicate 3 0xaa).length ∧ 3 ≤ 8 ∧ 8 ≤ (List.replicate 8 0xaa).length) ∧
    (∃ p st p1 st1,
      _json_escape (some [0x61, 0x0a, 0x62]) (some (List.replicate 3 0xaa)) 3 = some (p, st) ∧
      _json_escape (some [0x61, 0x0a, 0x62]) (some (List.replicate 8 0xaa)) 8 =
        some (p1, st1) ∧
      cstr st.buf = escape_spec (List.take p [0x61, 0x0a, 0x62]) ∧
      st.pos = (escape_spec (List.take p [0x61, 0x0a, 0x62])).length ∧
      (∀ c, [0x61, 0x0a, 0x62][p]? = some c → c ≠ 0 →
        3 - st.pos < (escape_byte_spec c).length + 1 ∧
        ((escape_byte_spec c).length = 1 ∨ (escape_byte_spec c).length = 2 ∨
          (escape_byte_spec c).length = 6)) ∧
      p ≤ p1 ∧ cstr st.buf <+: cstr st1.buf ∧
      (6 * (cstr [0x61, 0x0a, 0x62]).length < 3 →
        p = (cstr [0x61, 0x0a, 0x62]).length ∧
          cstr st.buf = escape_spec (cstr [0x61, 0x0a, 0x62]))) ∧
    _json_escape (some [0x61, 0x0a, 0x62]) (some (List.replicate 3 0xaa)) 3 =
      some (1, { buf := [0x61, 0, 0xaa], pos := 1, written := [0, 1] }) ∧
    _json_escape (some [0x61, 0x0a, 0x62]) (some (List.replicate 8 0xaa)) 8 =
      some (3, { buf := [0x61, 0x5c, 0x6e, 0x62, 0, 0xaa, 0xaa, 0xaa], pos := 4,
                 written := [0, 1, 2, 3, 4] }) :=
  ⟨by decide,
   C29_json_escape_truncates_minimally [0x61, 0x0a, 0x62] (List.replicate 3 0xaa)
     (List.replicate 8 0xaa) 3 8 (by decide) (by decide) (by decide) (by decide),
   by decide, by decide⟩

/-! ## Theorems: the emergency call stack -/

/-- C30, the code at the failing input: logger syslog with the control file
    absent and a log file open.  `_gf_msg_nomem` writes its line, which ends
    in `[call stack follows]`, to the descriptor of the file, and nothing
    follows: `_gf_msg_backtrace_nomem` leaves at its own test
    `logger != gf_logger_glusterlog`.  In the same state with logger
    glusterlog the frames are written to that descriptor. -/
theorem C30_fallback_state_no_call_stack :
    (_gf_msg_nomem env_sample (xl_with_level 0) (some (ascii "glusterd"))
        (some (ascii "/src/mem-pool.c")) (some (ascii "__gf_malloc")) 90 GF_LOG_ERROR 4096
        (world_of (ctx_sample gf_logger_syslog gf_logformat_withmsgid false (some 4)))).2.out =
      [Event.write_fd 7 (ascii ("[2014-03-01 10:20:30.000034] E [MSGID: 0] " ++
          "[mem-pool.c:90:__gf_malloc] glusterd: no memory available for size (4096) " ++
          "[call stack follows]\n"))] ∧
    (_gf_msg_nomem env_sample (xl_with_level 0) (some (ascii "glusterd"))
        (some (ascii "/src/mem-pool.c")) (some (ascii "__gf_malloc")) 90 GF_LOG_ERROR 4096
        (world_of (ctx_sample gf_logger_glusterlog gf_logformat_withmsgid false (some 4)))).2.out =
      [Event.write_fd 7 (ascii ("[2014-03-01 10:20:30.000034] E [MSGID: 0] " ++
          "[mem-pool.c:90:__gf_malloc] glusterd: no memory available for size (4096) " ++
          "[call stack follows]\n")),
       Event.backtrace_symbols_fd 5 7] := by
  decide

/-! ## Theorems: the call-stack segment of a line -/

/-- C22, the code at the failing input.  The file backend omits the segment
    for every record without a call stack: in each of its shapes the closing
    bracket of the origin is followed by one space and `<graph_id>-<domain>: `
    (first part, `tag` being the space or the message id between the level
    tag and the origin).  The legacy `_gf_log_callingfn` does not: when
    `backtrace` captures nothing its array `callstr` holds the empty string,
    which the one format `"[%s] %s [%s:%d:%s] %s %d-%s: "` prints followed
    by a space, so the bracket is followed by two spaces; `_gf_msg` with a
    call stack requested writes the same record with one. -/
theorem C22_legacy_line_keeps_empty_call_stack :
    (∀ (this : xlator_t) (logformat : gf_log_format_t) (timestr domain file function : Bytes)
        (line : Int) (level msgid : Nat),
      ∃ tag : Bytes,
        glusterlog_header this logformat timestr domain file function line level msgid none =
          ascii "[" ++ timestr ++ ascii "] " ++ level_string level ++ tag ++ ascii "[" ++ file ++
            ascii ":" ++ fmt_d line ++ ascii ":" ++ function ++ ascii "] " ++
            fmt_d (graph_id this) ++ ascii "-" ++ domain ++ ascii ": ") ∧
    env_no_frames.backtrace 5 = 0 ∧
    (_gf_msg env_no_frames (xl_with_level 0) (some (ascii "glusterd"))
        (some (ascii "/src/glusterd-op-sm.c")) (some (ascii "glusterd_op_commit")) 120
        GF_LOG_ERROR 0 true 106001 (some (ascii "commit failed"))
        (world_of (ctx_sample gf_logger_glusterlog gf_logformat_traditional false (some 4)))).2.out =
      [Event.fprintf_file 4 (ascii ("[2014-03-01 10:20:30.000034] E " ++
        "[glusterd-op-sm.c:120:glusterd_op_commit] 0-glusterd: commit failed\n"))] ∧
    (_gf_log_callingfn env_no_frames (xl_with_level 0) (some (ascii "glusterd"))
        (some (ascii "/src/glusterd-op-sm.c")) (some (ascii "glusterd_op_commit")) 120
        GF_LOG_ERROR (some (ascii "commit failed"))
        (world_of (ctx_sample gf_logger_glusterlog gf_logformat_traditional false (some 4)))).2.out =
      [Event.fprintf_file 4 (ascii ("[2014-03-01 10:20:30.000034] E " ++
        "[glusterd-op-sm.c:120:glusterd_op_commit]  0-glusterd: commit failed\n"))] := by
  refine ⟨?_, rfl, by decide, by decide⟩
  intro this logformat timestr domain file function line level msgid
  cases logformat with
  | gf_logformat_traditional =>
    refine ⟨ascii " ", ?_⟩
    simp [glusterlog_header]
    rfl
  | gf_logformat_withmsgid =>
    refine ⟨ascii " [MSGID: " ++ decimal msgid ++ ascii "] ", ?_⟩
    simp [glusterlog_header]
    rfl
  | gf_logformat_cee =>
    refine ⟨ascii " [MSGID: " ++ decimal msgid ++ ascii "] ", ?_⟩
    simp [glusterlog_header]
    rfl

/-! ## Theorems: the value `_gf_msg` returns -/

/-- C24 (as stated, refuted): an Error record written by the file backend
    makes `_gf_msg` return 101, the number of bytes of the header, not 0;
    and when `vasprintf` fails `_gf_msg` returns -1. -/
theorem C24_file_backend_returns_a_length :
    (_gf_msg env_sample (xl_with_level 0) (some (ascii "glusterd"))
        (some (ascii "/src/glusterd-op-sm.c")) (some (ascii "glusterd_op_commit")) 120
        GF_LOG_ERROR 0 false 106001 (some (ascii "commit failed"))
        (world_of (ctx_sample gf_logger_glusterlog gf_logformat_withmsgid false (some 4)))) =
      (101, { log := ctx_sample gf_logger_glusterlog gf_logformat_withmsgid false (some 4),
              out := [Event.fprintf_file 4 (ascii ("[2014-03-01 10:20:30.000034] E " ++
                "[MSGID: 106001] [glusterd-op-sm.c:120:glusterd_op_commit] 0-glusterd: " ++
                "commit failed\n"))] }) ∧
    (_gf_msg { env_sample with vasprintf_ok := false } (xl_with_level 0)
        (some (ascii "glusterd")) (some (ascii "/src/glusterd-op-sm.c"))
        (some (ascii "glusterd_op_commit")) 120 GF_LOG_ERROR 0 false 106001
        (some (ascii "commit failed"))
        (world_of (ctx_sample gf_logger_glusterlog gf_logformat_withmsgid false (some 4)))).1 =
      -1 := by
  decide

/-- A negative return of the file backend comes from the clock or from an
    allocation. -/
theorem gf_log_glusterlog_ret (env : Env) (this : xlator_t)
    (domain file function : Bytes) (line : Int) (level : Nat) (errnum : Int) (msgid : Nat)
    (appmsgstr : Bytes) (callstr : Option Bytes) (w : World)
    (hneg : (gf_log_glusterlog env this domain file function line level errnum msgid appmsgstr
      callstr w).1 < 0) :
    env.gettimeofday = none ∨ env.gf_asprintf_ok = false := by
  unfold gf_log_glusterlog at hneg
  cases hclock : env.gettimeofday with
  | none => exact Or.inl rfl
  | some tv =>
    cases halloc : env.gf_asprintf_ok with
    | false => exact Or.inr rfl
    | true =>
      exfalso
      simp only [hclock, halloc, Bool.not_true, Bool.false_eq_true, if_false] at hneg
      by_cases he : errnum ≠ 0
      · simp only [he, ne_eq, not_false_eq_true, if_true] at hneg
        omega
      · simp only [he, if_false] at hneg
        omega

/-- C24 (amended): for every call of `_gf_msg` with non-`NULL` domain, file,
    function and format on an initialised context, the value returned is 0
    when the record is suppressed by the gate and 0 when it is delivered by
    the syslog backend; and it is negative only if `vasprintf`, the clock or
    `gf_asprintf` failed, whatever `open`, `fopen`, `fclose` and the writes
    did and whether or not a rotation was pending: no open, write or rotate
    failure is returned as an error. -/
theorem C24_gf_msg_return_amended (env : Env) (this : xlator_t)
    (domain file function fmt : Bytes) (line : Int) (level : Nat) (errnum : Int)
    (trace : Bool) (msgid : Nat) (w : World) (hctx : this.has_ctx = true) :
    (_gf_msg_should_log w.log this level = false →
      (_gf_msg env this (some domain) (some file) (some function) line level errnum trace
        msgid (some fmt) w).1 = 0) ∧
    (_gf_msg_should_log w.log this level = true → env.vasprintf_ok = true →
      w.log.logger = gf_logger_syslog → w.log.log_control_file_found = true →
      w.log.gf_log_syslog = true →
      (_gf_msg env this (some domain) (some file) (some function) line level errnum trace
        msgid (some fmt) w).1 = 0) ∧
    ((_gf_msg env this (some domain) (some file) (some function) line level errnum trace
        msgid (some fmt) w).1 < 0 →
      env.vasprintf_ok = false ∨ env.gettimeofday = none ∨ env.gf_asprintf_ok = false) := by
  refine ⟨?_, ?_, ?_⟩
  · intro hgate
    simp [_gf_msg, hctx, hgate]
  · intro hgate hv hlogger hfound hsys
    simp only [_gf_msg, hctx, hgate, hv, _gf_msg_internal, hlogger, hfound, hsys,
      Bool.not_true, Bool.false_eq_true, if_false, Bool.and_self, if_true]
    obtain ⟨text, ht⟩ := gf_log_syslog_one_record env this domain (GET_FILE_NAME_TO_LOG file)
      function line level errnum msgid fmt
      (if trace = true then
        if (_gf_msg_backtrace env GF_LOG_BACKTRACE_DEPTH
            (List.replicate GF_LOG_BACKTRACE_SIZE 0) GF_LOG_BACKTRACE_DEPTH).1 ≥ 0 then
          some (cstr (_gf_msg_backtrace env GF_LOG_BACKTRACE_DEPTH
            (List.replicate GF_LOG_BACKTRACE_SIZE 0) GF_LOG_BACKTRACE_DEPTH).2)
        else none
      else none) w
    rw [ht]
  · intro hneg
    cases hgate : _gf_msg_should_log w.log this level with
    | false =>
      simp [_gf_msg, hctx, hgate] at hneg
    | true =>
      cases hv : env.vasprintf_ok with
      | false => exact Or.inl rfl
      | true =>
        right
        simp only [_gf_msg, hctx, hgate, hv, Bool.not_true, Bool.false_eq_true, if_false,
          if_true] at hneg
        unfold _gf_msg_internal at hneg
        cases hlogger : w.log.logger with
        | gf_logger_glusterlog =>
          simp only [hlogger] at hneg
          exact gf_log_glusterlog_ret _ _ _ _ _ _ _ _ _ _ _ _ hneg
        | gf_logger_syslog =>
          simp only [hlogger] at hneg
          by_cases hc : (w.log.log_control_file_found && w.log.gf_log_syslog) = true
          · rw [if_pos hc] at hneg
            obtain ⟨text, ht⟩ := gf_log_syslog_one_record env this domain
              (GET_FILE_NAME_TO_LOG file) function line level errnum msgid fmt
              (if trace = true then
                if (_gf_msg_backtrace env GF_LOG_BACKTRACE_DEPTH
                    (List.replicate GF_LOG_BACKTRACE_SIZE 0) GF_LOG_BACKTRACE_DEPTH).1 ≥ 0 then
                  some (cstr (_gf_msg_backtrace env GF_LOG_BACKTRACE_DEPTH
                    (List.replicate GF_LOG_BACKTRACE_SIZE 0) GF_LOG_BACKTRACE_DEPTH).2)
                else none
              else none) w
            rw [ht] at hneg
            exact absurd hneg (by simp)
          · rw [if_neg hc] at hneg
            exact gf_log_glusterlog_ret _ _ _ _ _ _ _ _ _ _ _ _ hneg

/-- C24 (amended), witness: a rotation is pending and the probe `open`
    fails; an Error record then still returns a value that is not negative.
    In the sample state a Debug record is suppressed with 0 and a record
    delivered by the syslog backend returns 0. -/
theorem C24_gf_msg_return_amended_witness :
    (xl_with_level 0).has_ctx = true ∧
    0 ≤ (_gf_msg env_probe_fails (xl_with_level 0) (some (ascii "glusterd"))
        (some (ascii "/src/glusterd-op-sm.c")) (some (ascii "glusterd_op_commit")) 120
        GF_LOG_ERROR 0 false 106001 (some (ascii "commit failed"))
        (world_of ctx_rotation_pending)).1 ∧
    _gf_msg env_sample (xl_with_level 0) (some (ascii "glusterd"))
        (some (ascii "/src/glusterd-op-sm.c")) (some (ascii "glusterd_op_commit")) 120
        GF_LOG_DEBUG 0 false 106001 (some (ascii "commit failed"))
        (world_of (ctx_sample gf_logger_glusterlog gf_logformat_withmsgid false (some 4))) =
      (0, world_of (ctx_sample gf_logger_glusterlog gf_logformat_withmsgid false (some 4))) ∧
    (_gf_msg env_sample (xl_with_level 0) (some (ascii "glusterd"))
        (some (ascii "/src/glusterd-op-sm.c")) (some (ascii "glusterd_op_commit")) 120
        GF_LOG_ERROR 0 false 106001 (some (ascii "commit failed"))
        (world_of (ctx_sample gf_logger_syslog gf_logformat_traditional true none))) =
      (0, { log := ctx_sample gf_logger_syslog gf_logformat_traditional true none,
            out := [Event.syslog 3 (ascii
              "[glusterd-op-sm.c:120:glusterd_op_commit] 0-glusterd: commit failed")] }) := by
  refine ⟨rfl, ?_, by decide, by decide⟩
  by_contra hneg
  have h := (C24_gf_msg_return_amended env_probe_fails (xl_with_level 0) (ascii "glusterd")
    (ascii "/src/glusterd-op-sm.c") (ascii "glusterd_op_commit") (ascii "commit failed") 120
    GF_LOG_ERROR 0 false 106001 (world_of ctx_rotation_pending) rfl).2.2 (by omega)
  revert h
  decide

/-! ## Lemmas: the gate and what is emitted -/

theorem gf_msg_should_log_iff (log : gf_log_handle_t) (this : xlator_t) (L : Nat) :
    _gf_msg_should_log log this L = true ↔
      gate_spec L log.loglevel log.gf_log_xl_log_set this.loglevel := by
  unfold _gf_msg_should_log gate_spec
  cases hset : log.gf_log_xl_log_set
  · simp
  · simp; omega

theorem not_emitted_self (w : World) : ¬ w.emitted w := Nat.lt_irrefl _

theorem emitted_emit (w : World) (e : Event) : w.emitted (w.emit e) := by
  simp [World.emitted, World.emit]

theorem emitted_of_adds_output {w w1 w2 : World} (h1 : w.emitted w1)
    (h2 : w1.adds_output w2) : w.emitted w2 := by
  obtain ⟨es, h, _⟩ := h2
  unfold World.emitted at *
  rw [h]
  simp only [List.length_append]
  omega

theorem gf_syslog_emitted (env : Env) (c prio : Int) (msg : Bytes) (w : World) :
    w.emitted (gf_syslog env c prio (some msg) w) := by
  unfold gf_syslog
  cases env._gf_get_message c <;> exact emitted_emit w _

theorem gf_msg_plain_internal_emitted (level : Nat) (msg : Bytes) (w : World) :
    w.emitted (_gf_msg_plain_internal level msg w).2 := by
  have hfile : w.emitted (syslog_mirror level msg
      (match w.log.logfile with
        | some f => w.emit (.fprintf_file f (msg ++ ascii "\n"))
        | none => w.emit (.fprintf_stderr (msg ++ ascii "\n")))) := by
    cases w.log.logfile <;>
      exact emitted_of_adds_output (emitted_emit w _) (adds_output_mirror _ _ _)
  unfold _gf_msg_plain_internal
  cases w.log.logger with
  | gf_logger_glusterlog => exact hfile
  | gf_logger_syslog =>
    dsimp only
    split_ifs
    · exact emitted_emit w _
    · exact hfile

/-- The write of a formatted line by the legacy entry points. -/
theorem file_write_emitted (level : Nat) (msg : Bytes) (w : World)
    (hle : level ≤ w.log.loglevel) :
    w.emitted (syslog_mirror level msg
      (match w.log.logfile with
        | some f => w.emit (.fprintf_file f (msg ++ ascii "\n"))
        | none =>
          if w.log.loglevel ≥ level then w.emit (.fprintf_stderr (msg ++ ascii "\n"))
          else w)) := by
  cases w.log.logfile with
  | some f => exact emitted_of_adds_output (emitted_emit w _) (adds_output_mirror _ _ _)
  | none =>
    dsimp only
    rw [if_pos hle]
    exact emitted_of_adds_output (emitted_emit w _) (adds_output_mirror _ _ _)

theorem gf_msg_plain_emits_iff (env : Env) (this : xlator_t) (L : Nat) (fmt : Bytes)
    (w : World) (hctx : this.has_ctx = true) (hv : env.vasprintf_ok = true) :
    w.emitted (_gf_msg_plain env this L fmt w).2 ↔ _gf_msg_should_log w.log this L = true := by
  cases hgate : _gf_msg_should_log w.log this L with
  | false =>
    have hg := gf_msg_should_log_false w.log this L hgate
    have : _gf_msg_plain env this L fmt w = (0, w) := by
      unfold _gf_msg_plain
      rcases hg with h1 | h2
      · simp [hctx, h1]
      · by_cases h1 : (w.log.gf_log_xl_log_set && (this.loglevel != 0 &&
            decide (L > this.loglevel))) = true
        · simp [hctx, h1]
        · simp only [hctx, Bool.not_true, Bool.false_eq_true, if_false, if_neg h1, if_pos h2]
    rw [this]
    simp [not_emitted_self]
  | true =>
    obtain ⟨h1, h2⟩ := gf_msg_should_log_true w.log this L hgate
    simp only [iff_true]
    unfold _gf_msg_plain
    simp only [hctx, h1, hv, Bool.not_true, Bool.false_eq_true, if_false, if_neg h2]
    exact gf_msg_plain_internal_emitted L fmt w

theorem gf_msg_vplain_emits_iff (env : Env) (this : xlator_t) (L : Nat) (fmt : Bytes)
    (w : World) (hctx : this.has_ctx = true) (hv : env.vasprintf_ok = true) :
    w.emitted (_gf_msg_vplain env this L fmt w).2 ↔ _gf_msg_should_log w.log this L = true := by
  cases hgate : _gf_msg_should_log w.log this L with
  | false =>
    have hg := gf_msg_should_log_false w.log this L hgate
    have : _gf_msg_vplain env this L fmt w = (0, w) := by
      unfold _gf_msg_vplain
      rcases hg with h1 | h2
      · simp [hctx, h1]
      · by_cases h1 : (w.log.gf_log_xl_log_set && (this.loglevel != 0 &&
            decide (L > this.loglevel))) = true
        · simp [hctx, h1]
        · simp only [hctx, Bool.not_true, Bool.false_eq_true, if_false, if_neg h1, if_pos h2]
    rw [this]
    simp [not_emitted_self]
  | true =>
    obtain ⟨h1, h2⟩ := gf_msg_should_log_true w.log this L hgate
    simp only [iff_true]
    unfold _gf_msg_vplain
    simp only [hctx, h1, hv, Bool.not_true, Bool.false_eq_true, if_false, if_neg h2]
    exact gf_msg_plain_internal_emitted L fmt w

theorem gf_msg_plain_nomem_emits_iff (this : xlator_t) (L : Nat) (msg : Bytes)
    (w : World) (hctx : this.has_ctx = true) :
    w.emitted (_gf_msg_plain_nomem this L msg w).2 ↔
      _gf_msg_should_log w.log this L = true := by
  cases hgate : _gf_msg_should_log w.log this L with
  | false =>
    have hg := gf_msg_should_log_false w.log this L hgate
    have : _gf_msg_plain_nomem this L msg w = (0, w) := by
      unfold _gf_msg_plain_nomem
      rcases hg with h1 | h2
      · simp [hctx, h1]
      · by_cases h1 : (w.log.gf_log_xl_log_set && (this.loglevel != 0 &&
            decide (L > this.loglevel))) = true
        · simp [hctx, h1]
        · simp only [hctx, Bool.not_true, Bool.false_eq_true, if_false, if_neg h1, if_pos h2]
    rw [this]
    simp [not_emitted_self]
  | true =>
    obtain ⟨h1, h2⟩ := gf_msg_should_log_true w.log this L hgate
    simp only [iff_true]
    unfold _gf_msg_plain_nomem
    simp only [hctx, h1, Bool.not_true, Bool.false_eq_true, if_false, if_neg h2]
    exact gf_msg_plain_internal_emitted L msg w

theorem gf_msg_nomem_emits_iff (env : Env) (this : xlator_t) (domain file function : Bytes)
    (line : Int) (L size : Nat) (w : World) (tv : Nat × Nat)
    (hctx : this.has_ctx = true) (hclock : env.gettimeofday = some tv)
    (hfd : env.fileno w.log.logfile ≠ -1) :
    w.emitted (_gf_msg_nomem env this (some domain) (some file) (some function) line L size
      w).2 ↔ _gf_msg_should_log w.log this L = true := by
  cases hgate : _gf_msg_should_log w.log this L with
  | false =>
    have hg := gf_msg_should_log_false w.log this L hgate
    have : _gf_msg_nomem env this (some domain) (some file) (some function) line L size w =
        (0, w) := by
      unfold _gf_msg_nomem
      rcases hg with h1 | h2
      · simp [hctx, h1]
      · by_cases h1 : (w.log.gf_log_xl_log_set && (this.loglevel != 0 &&
            decide (L > this.loglevel))) = true
        · simp [hctx, h1]
        · simp only [hctx, Bool.not_true, Bool.false_eq_true, if_false, if_neg h1, if_pos h2]
    rw [this]
    simp [not_emitted_self]
  | true =>
    simp only [iff_true]
    by_cases hsel : w.log.logger = gf_logger_syslog ∧ w.log.log_control_file_found = true ∧
      w.log.gf_log_syslog = true
    · rw [gf_msg_nomem_syslog env this domain file function line L size w tv hctx hgate hclock
        hsel]
      exact emitted_emit w _
    · exact emitted_of_adds_output (emitted_emit w _)
        (gf_msg_nomem_file env this domain file function line L size w tv hctx hgate hclock
          hsel hfd)

theorem gf_log_callingfn_emits_iff (env : Env) (this : xlator_t)
    (domain file function fmt : Bytes) (line : Int) (L : Nat) (w : World) (tv : Nat × Nat)
    (hclock : env.gettimeofday = some tv) (halloc : env.gf_asprintf_ok = true)
    (hv : env.vasprintf_ok = true) :
    w.emitted (_gf_log_callingfn env this (some domain) (some file) (some function) line L
      (some fmt) w).2 ↔ _gf_msg_should_log w.log this L = true := by
  cases hgate : _gf_msg_should_log w.log this L with
  | false =>
    have hg := gf_msg_should_log_false w.log this L hgate
    have : _gf_log_callingfn env this (some domain) (some file) (some function) line L
        (some fmt) w = (0, w) := by
      unfold _gf_log_callingfn
      rcases hg with h1 | h2
      · rw [if_pos h1]
      · by_cases h1 : (w.log.gf_log_xl_log_set && (this.loglevel != 0 &&
            decide (L > this.loglevel))) = true
        · rw [if_pos h1]
        · rw [if_neg h1, if_pos h2]
    rw [this]
    simp [not_emitted_self]
  | true =>
    obtain ⟨h1, h2⟩ := gf_msg_should_log_true w.log this L hgate
    simp only [iff_true]
    unfold _gf_log_callingfn
    rw [if_neg (by rw [h1]; decide), if_neg h2]
    dsimp only
    by_cases hfound : w.log.log_control_file_found = true
    · rw [if_pos hfound]
      exact gf_syslog_emitted _ _ _ _ _
    · rw [if_neg hfound]
      simp only [hclock, halloc, hv, Bool.not_true, Bool.false_eq_true, if_false]
      exact file_write_emitted L _ w (by omega)

theorem gf_log_emits_iff (env : Env) (this : xlator_t)
    (domain file function fmt : Bytes) (line : Int) (L : Nat) (w : World) (tv : Nat × Nat)
    (hclock : env.gettimeofday = some tv) (halloc : env.gf_asprintf_ok = true)
    (hv : env.vasprintf_ok = true) (hrot : w.log.logrotate = false) :
    w.emitted (_gf_log env this (some domain) (some file) (some function) line L
      (some fmt) w).2 ↔ _gf_msg_should_log w.log this L = true := by
  rw [gf_log_eq_flag_clear env this domain file function line L fmt w hrot]
  cases hgate : _gf_msg_should_log w.log this L with
  | false =>
    have hg := gf_msg_should_log_false w.log this L hgate
    have : gf_log_flag_clear env this domain file function line L fmt w = (0, w) := by
      unfold gf_log_flag_clear
      rcases hg with h1 | h2
      · rw [if_pos h1]
      · by_cases h1 : (w.log.gf_log_xl_log_set && (this.loglevel != 0 &&
            decide (L > this.loglevel))) = true
        · rw [if_pos h1]
        · rw [if_neg h1, if_pos h2]
    rw [this]
    simp [not_emitted_self]
  | true =>
    obtain ⟨h1, h2⟩ := gf_msg_should_log_true w.log this L hgate
    simp only [iff_true]
    unfold gf_log_flag_clear
    rw [if_neg (by rw [h1]; decide), if_neg h2]
    by_cases hfound : w.log.log_control_file_found = true
    · rw [if_pos hfound]
      exact gf_syslog_emitted _ _ _ _ _
    · rw [if_neg hfound]
      unfold _gf_log_write
      simp only [hclock, halloc, hv, Bool.not_true, Bool.false_eq_true, if_false]
      exact file_write_emitted L _ w (by omega)

theorem gf_msg_emits_iff (env : Env) (this : xlator_t)
    (domain file function fmt : Bytes) (line : Int) (L : Nat) (errnum : Int) (trace : Bool)
    (msgid : Nat) (w : World) (tv : Nat × Nat)
    (hctx : this.has_ctx = true) (hclock : env.gettimeofday = some tv)
    (halloc : env.gf_asprintf_ok = true) (hv : env.vasprintf_ok = true)
    (hrot : w.log.logrotate = false) :
    w.emitted (_gf_msg env this (some domain) (some file) (some function) line L errnum trace
      msgid (some fmt) w).2 ↔ _gf_msg_should_log w.log this L = true := by
  cases hgate : _gf_msg_should_log w.log this L with
  | false =>
    have : _gf_msg env this (some domain) (some file) (some function) line L errnum trace
        msgid (some fmt) w = (0, w) := by
      simp [_gf_msg, hctx, hgate]
    rw [this]
    simp [not_emitted_self]
  | true =>
    obtain ⟨_, h2⟩ := gf_msg_should_log_true w.log this L hgate
    simp only [iff_true]
    simp only [_gf_msg, hctx, hgate, hv, Bool.not_true, Bool.false_eq_true, if_false, if_true]
    generalize (if trace = true then
        if (_gf_msg_backtrace env GF_LOG_BACKTRACE_DEPTH
            (List.replicate GF_LOG_BACKTRACE_SIZE 0) GF_LOG_BACKTRACE_DEPTH).1 ≥ 0 then
          some (cstr (_gf_msg_backtrace env GF_LOG_BACKTRACE_DEPTH
            (List.replicate GF_LOG_BACKTRACE_SIZE 0) GF_LOG_BACKTRACE_DEPTH).2)
        else none
      else none) = callstr
    have hfile : w.emitted (gf_log_glusterlog env this domain (GET_FILE_NAME_TO_LOG file)
        function line L errnum msgid fmt callstr w).2 := by
      obtain ⟨ret, msg, hw⟩ := gf_log_glusterlog_one_write env this domain
        (GET_FILE_NAME_TO_LOG file) function line L errnum msgid fmt callstr w tv hclock halloc
        (by omega)
      rw [hw, gf_log_rotate_flag_clear env this w hrot]
      simp [World.emitted]
    unfold _gf_msg_internal
    cases hlogger : w.log.logger with
    | gf_logger_glusterlog => exact hfile
    | gf_logger_syslog =>
      dsimp only
      split_ifs
      · obtain ⟨text, ht⟩ := gf_log_syslog_one_record env this domain
          (GET_FILE_NAME_TO_LOG file) function line L errnum msgid fmt callstr w
        rw [ht]
        exact emitted_emit w _
      · exact hfile

theorem emits_emit (w : World) (e : Event) (he : e.is_output = true) : w.emits (w.emit e) :=
  ⟨adds_output_emit w e he, emitted_emit w e⟩

theorem emits_of_adds_output {w w1 w2 : World} (h1 : w.emits w1) (h2 : w1.adds_output w2) :
    w.emits w2 :=
  ⟨adds_output_trans h1.1 h2, emitted_of_adds_output h1.2 h2⟩

theorem not_emits_self (w : World) : ¬ w.emits w := fun h => not_emitted_self w h.2

theorem gf_syslog_emits (env : Env) (c prio : Int) (msg : Bytes) (w : World) :
    w.emits (gf_syslog env c prio (some msg) w) :=
  ⟨gf_syslog_out env c prio (some msg) w, gf_syslog_emitted env c prio msg w⟩

theorem adds_output_emit_mirror (w : World) (e : Event) (level : Nat) (msg : Bytes)
    (he : e.is_output = true) : w.adds_output (syslog_mirror level msg (w.emit e)) :=
  adds_output_trans (adds_output_emit w e he) (adds_output_mirror level msg (w.emit e))

theorem gf_msg_plain_internal_out (level : Nat) (msg : Bytes) (w : World) :
    w.adds_output (_gf_msg_plain_internal level msg w).2 := by
  have hfile : w.adds_output (syslog_mirror level msg
      (match w.log.logfile with
        | some f => w.emit (.fprintf_file f (msg ++ ascii "\n"))
        | none => w.emit (.fprintf_stderr (msg ++ ascii "\n")))) := by
    cases w.log.logfile <;> exact adds_output_emit_mirror w _ level msg rfl
  unfold _gf_msg_plain_internal
  cases w.log.logger with
  | gf_logger_glusterlog => exact hfile
  | gf_logger_syslog =>
    dsimp only
    split_ifs
    · exact adds_output_emit w _ rfl
    · exact hfile

theorem file_write_out (level : Nat) (msg : Bytes) (w : World) :
    w.adds_output (syslog_mirror level msg
      (match w.log.logfile with
        | some f => w.emit (.fprintf_file f (msg ++ ascii "\n"))
        | none =>
          if w.log.loglevel ≥ level then w.emit (.fprintf_stderr (msg ++ ascii "\n"))
          else w)) := by
  cases w.log.logfile with
  | some f => exact adds_output_emit_mirror w _ level msg rfl
  | none =>
    dsimp only
    split_ifs
    · exact adds_output_emit_mirror w _ level msg rfl
    · exact adds_output_mirror _ _ _

/-- Every entry point returns without any effect when the gate fails. -/
theorem entry_points_suppressed (env : Env) (this : xlator_t) (L : Nat) (w : World)
    (domain file function fmt : Bytes) (line : Int) (errnum : Int) (trace : Bool)
    (msgid size : Nat) (stacksize : Int)
    (hgate : _gf_msg_should_log w.log this L = false) :
    (_gf_msg env this (some domain) (some file) (some function) line L errnum trace msgid
      (some fmt) w).2 = w ∧
    _gf_log env this (some domain) (some file) (some function) line L (some fmt) w = (0, w) ∧
    _gf_log_callingfn env this (some domain) (some file) (some function) line L (some fmt) w =
      (0, w) ∧
    _gf_msg_plain env this L fmt w = (0, w) ∧
    _gf_msg_vplain env this L fmt w = (0, w) ∧
    _gf_msg_plain_nomem this L fmt w = (0, w) ∧
    _gf_msg_nomem env this (some domain) (some file) (some function) line L size w = (0, w) ∧
    _gf_msg_backtrace_nomem env this L stacksize w = w := by
  have hg := gf_msg_should_log_false w.log this L hgate
  refine ⟨?_, ?_, ?_, ?_, ?_, ?_, ?_, ?_⟩
  · by_cases hc : this.has_ctx = true
    · simp [_gf_msg, hc, hgate]
    · simp [_gf_msg, hc]
  · unfold _gf_log
    rcases hg with h1 | h2
    · rw [if_pos h1]
    · by_cases h1 : (w.log.gf_log_xl_log_set && (this.loglevel != 0 &&
          decide (L > this.loglevel))) = true
      · rw [if_pos h1]
      · rw [if_neg h1, if_pos h2]
  · unfold _gf_log_callingfn
    rcases hg with h1 | h2
    · rw [if_pos h1]
    · by_cases h1 : (w.log.gf_log_xl_log_set && (this.loglevel != 0 &&
          decide (L > this.loglevel))) = true
      · rw [if_pos h1]
      · rw [if_neg h1, if_pos h2]
  · unfold _gf_msg_plain
    by_cases hc : this.has_ctx = true
    · rcases hg with h1 | h2
      · simp [hc, h1]
      · by_cases h1 : (w.log.gf_log_xl_log_set && (this.loglevel != 0 &&
            decide (L > this.loglevel))) = true
        · simp [hc, h1]
        · simp only [hc, Bool.not_true, Bool.false_eq_true, if_false, if_neg h1, if_pos h2]
    · simp [hc]
  · unfold _gf_msg_vplain
    by_cases hc : this.has_ctx = true
    · rcases hg with h1 | h2
      · simp [hc, h1]
      · by_cases h1 : (w.log.gf_log_xl_log_set && (this.loglevel != 0 &&
            decide (L > this.loglevel))) = true
        · simp [hc, h1]
        · simp only [hc, Bool.not_true, Bool.false_eq_true, if_false, if_neg h1, if_pos h2]
    · simp [hc]
  · unfold _gf_msg_plain_nomem
    by_cases hc : this.has_ctx = true
    · rcases hg with h1 | h2
      · simp [hc, h1]
      · by_cases h1 : (w.log.gf_log_xl_log_set && (this.loglevel != 0 &&
            decide (L > this.loglevel))) = true
        · simp [hc, h1]
        · simp only [hc, Bool.not_true, Bool.false_eq_true, if_false, if_neg h1, if_pos h2]
    · simp [hc]
  · unfold _gf_msg_nomem
    by_cases hc : this.has_ctx = true
    · rcases hg with h1 | h2
      · simp [hc, h1]
      · by_cases h1 : (w.log.gf_log_xl_log_set && (this.loglevel != 0 &&
            decide (L > this.loglevel))) = true
        · simp [hc, h1]
        · simp only [hc, Bool.not_true, Bool.false_eq_true, if_false, if_neg h1, if_pos h2]
    · simp [hc]
  · unfold _gf_msg_backtrace_nomem
    by_cases hc : this.has_ctx = true
    · by_cases hl : w.log.logger ≠ gf_logger_glusterlog
      · simp [hc, hl]
      · rcases hg with h1 | h2
        · simp only [hc, Bool.not_true, Bool.false_eq_true, if_false, if_neg hl, if_pos h1]
        · by_cases h1 : (w.log.gf_log_xl_log_set && (this.loglevel != 0 &&
              decide (L > this.loglevel))) = true
          · simp only [hc, Bool.not_true, Bool.false_eq_true, if_false, if_neg hl, if_pos h1]
          · simp only [hc, Bool.not_true, Bool.false_eq_true, if_false, if_neg hl, if_neg h1,
              if_pos h2]
    · simp [hc]

theorem gf_log_glusterlog_out_no_rotate (env : Env) (this : xlator_t)
    (domain file function : Bytes) (line : Int) (level : Nat) (errnum : Int) (msgid : Nat)
    (appmsgstr : Bytes) (callstr : Option Bytes) (w : World)
    (hrot : w.log.logrotate = false) :
    w.adds_output (gf_log_glusterlog env this domain file function line level errnum msgid
      appmsgstr callstr w).2 := by
  unfold gf_log_glusterlog
  rw [gf_log_rotate_flag_clear env this w hrot]
  cases env.gettimeofday with
  | none => exact adds_output_refl w
  | some tv =>
    dsimp only
    cases env.gf_asprintf_ok with
    | false => exact adds_output_refl w
    | true =>
      simp only [Bool.not_true, Bool.false_eq_true, if_false]
      exact file_write_out level _ w

theorem gf_msg_internal_out_no_rotate (env : Env) (this : xlator_t)
    (domain file function : Bytes) (line : Int) (level : Nat) (errnum : Int) (msgid : Nat)
    (appmsgstr : Bytes) (callstr : Option Bytes) (w : World)
    (hrot : w.log.logrotate = false) :
    w.adds_output (_gf_msg_internal env this domain file function line level errnum msgid
      appmsgstr callstr w).2 := by
  unfold _gf_msg_internal
  cases hlogger : w.log.logger with
  | gf_logger_glusterlog =>
    exact gf_log_glusterlog_out_no_rotate _ _ _ _ _ _ _ _ _ _ _ w hrot
  | gf_logger_syslog =>
    dsimp only
    by_cases hc : (w.log.log_control_file_found && w.log.gf_log_syslog) = true
    · rw [if_pos hc]
      obtain ⟨text, ht⟩ := gf_log_syslog_one_record env this domain
        (GET_FILE_NAME_TO_LOG file) function line level errnum msgid appmsgstr callstr w
      rw [ht]
      exact adds_output_emit w _ rfl
    · rw [if_neg hc]
      exact gf_log_glusterlog_out_no_rotate _ _ _ _ _ _ _ _ _ _ _ w hrot

theorem gf_msg_out_no_rotate (env : Env) (this : xlator_t)
    (domain file function fmt : Bytes) (line : Int) (L : Nat) (errnum : Int) (trace : Bool)
    (msgid : Nat) (w : World) (hrot : w.log.logrotate = false) :
    w.adds_output (_gf_msg env this (some domain) (some file) (some function) line L errnum
      trace msgid (some fmt) w).2 := by
  simp only [_gf_msg]
  by_cases hc : (!this.has_ctx) = true
  · rw [if_pos hc]
    exact adds_output_refl w
  · rw [if_neg hc]
    by_cases hg : (!_gf_msg_should_log w.log this L) = true
    · rw [if_pos hg]
      exact adds_output_refl w
    · rw [if_neg hg]
      by_cases hv : env.vasprintf_ok = true
      · rw [if_pos hv]
        exact gf_msg_internal_out_no_rotate _ _ _ _ _ _ _ _ _ _ _ w hrot
      · rw [if_neg hv]
        exact adds_output_refl w

theorem gf_log_callingfn_out (env : Env) (this : xlator_t)
    (domain file function fmt : Bytes) (line : Int) (L : Nat) (w : World) :
    w.adds_output (_gf_log_callingfn env this (some domain) (some file) (some function) line L
      (some fmt) w).2 := by
  unfold _gf_log_callingfn
  by_cases h1 : (w.log.gf_log_xl_log_set && (this.loglevel != 0 &&
      decide (L > this.loglevel))) = true
  · rw [if_pos h1]
    exact adds_output_refl w
  · rw [if_neg h1]
    by_cases h2 : L > w.log.loglevel
    · rw [if_pos h2]
      exact adds_output_refl w
    · rw [if_neg h2]
      dsimp only
      by_cases hfound : w.log.log_control_file_found = true
      · rw [if_pos hfound]
        dsimp only
        exact gf_syslog_out _ _ _ _ w
      · rw [if_neg hfound]
        cases env.gettimeofday with
        | none => exact adds_output_refl w
        | some tv =>
          dsimp only
          cases env.gf_asprintf_ok with
          | false => exact adds_output_refl w
          | true =>
            cases env.vasprintf_ok with
            | false => exact adds_output_refl w
            | true =>
              simp only [Bool.not_true, Bool.false_eq_true, if_false]
              exact file_write_out L _ w

theorem gf_msg_plain_out (env : Env) (this : xlator_t) (L : Nat) (fmt : Bytes) (w : World) :
    w.adds_output (_gf_msg_plain env this L fmt w).2 := by
  unfold _gf_msg_plain
  by_cases hc : (!this.has_ctx) = true
  · rw [if_pos hc]
    exact adds_output_refl w
  · rw [if_neg hc]
    by_cases h1 : (w.log.gf_log_xl_log_set && (this.loglevel != 0 &&
        decide (L > this.loglevel))) = true
    · rw [if_pos h1]
      exact adds_output_refl w
    · rw [if_neg h1]
      by_cases h2 : L > w.log.loglevel
      · rw [if_pos h2]
        exact adds_output_refl w
      · rw [if_neg h2]
        by_cases hv : (!env.vasprintf_ok) = true
        · rw [if_pos hv]
          exact adds_output_refl w
        · rw [if_neg hv]
          exact gf_msg_plain_internal_out L fmt w

theorem gf_msg_vplain_out (env : Env) (this : xlator_t) (L : Nat) (fmt : Bytes) (w : World) :
    w.adds_output (_gf_msg_vplain env this L fmt w).2 := by
  unfold _gf_msg_vplain
  by_cases hc : (!this.has_ctx) = true
  · rw [if_pos hc]
    exact adds_output_refl w
  · rw [if_neg hc]
    by_cases h1 : (w.log.gf_log_xl_log_set && (this.loglevel != 0 &&
        decide (L > this.loglevel))) = true
    · rw [if_pos h1]
      exact adds_output_refl w
    · rw [if_neg h1]
      by_cases h2 : L > w.log.loglevel
      · rw [if_pos h2]
        exact adds_output_refl w
      · rw [if_neg h2]
        by_cases hv : (!env.vasprintf_ok) = true
        · rw [if_pos hv]
          exact adds_output_refl w
        · rw [if_neg hv]
          exact gf_msg_plain_internal_out L fmt w

theorem gf_msg_plain_nomem_out (this : xlator_t) (L : Nat) (msg : Bytes) (w : World) :
    w.adds_output (_gf_msg_plain_nomem this L msg w).2 := by
  unfold _gf_msg_plain_nomem
  by_cases hc : (!this.has_ctx) = true
  · rw [if_pos hc]
    exact adds_output_refl w
  · rw [if_neg hc]
    by_cases h1 : (w.log.gf_log_xl_log_set && (this.loglevel != 0 &&
        decide (L > this.loglevel))) = true
    · rw [if_pos h1]
      exact adds_output_refl w
    · rw [if_neg h1]
      by_cases h2 : L > w.log.loglevel
      · rw [if_pos h2]
        exact adds_output_refl w
      · rw [if_neg h2]
        exact gf_msg_plain_internal_out L msg w

/-- With the gate passed, a valid descriptor and the backend being the
    file, `_gf_msg_backtrace_nomem` writes the frames iff one was captured. -/
theorem gf_msg_backtrace_nomem_written (env : Env) (this : xlator_t) (L : Nat)
    (stacksize : Int) (w : World) (hctx : this.has_ctx = true)
    (hgate : _gf_msg_should_log w.log this L = true)
    (hlogger : w.log.logger = gf_logger_glusterlog)
    (hbt : env.backtrace (if stacksize ≤ 200 then stacksize else 200) ≠ 0)
    (hfd : env.fileno w.log.logfile ≠ -1) :
    _gf_msg_backtrace_nomem env this L stacksize w =
      w.emit (.backtrace_symbols_fd
        (env.backtrace (if stacksize ≤ 200 then stacksize else 200))
        (env.fileno w.log.logfile)) := by
  obtain ⟨h1, h2⟩ := gf_msg_should_log_true w.log this L hgate
  unfold _gf_msg_backtrace_nomem
  simp only [hctx, h1, hlogger, Bool.not_true, Bool.false_eq_true, if_false, if_neg h2,
    ne_eq, not_true_eq_false]
  rw [if_pos ⟨hbt, hfd⟩]

/-- The legacy `_gf_log` with a rotation pending whose probe fails: the
    failure is reported by a call that does not rotate, and -1 is returned
    without the record being written. -/
theorem gf_log_probe_fails (env : Env) (this : xlator_t) (domain file function fmt : Bytes)
    (line : Int) (L : Nat) (w : World) (hgate : _gf_msg_should_log w.log this L = true)
    (hfound : w.log.log_control_file_found = false) (hrot : w.log.logrotate = true)
    (hopen : env.open_ok = false) :
    _gf_log env this (some domain) (some file) (some function) line L (some fmt) w =
      (-1, (gf_log_flag_clear env this (ascii "logrotate") env.src_file (ascii "_gf_log") 1549
        GF_LOG_ERROR (env.strerror env.errno) (rotate_probe w)).2) := by
  obtain ⟨h1, h2⟩ := gf_msg_should_log_true w.log this L hgate
  unfold _gf_log
  rw [if_neg (by rw [h1]; decide), if_neg h2]
  dsimp only
  rw [if_neg (by rw [hfound]; decide), dif_pos hrot]
  simp only [hopen, Bool.not_false, if_true]
  rw [gf_log_eq_flag_clear _ _ _ _ _ _ _ _ _ rfl]
  rfl

/-! ## Theorems: the gate of every entry point -/

/-- C28 (as stated, refuted): the predicate holds and yet nothing is emitted.
    With logger syslog `_gf_msg_backtrace_nomem` leaves at its logger test
    before the gate, so an Error(4) call under global level Info(7) has no
    effect.  `_gf_msg` at Error emits nothing and returns -1 when `vasprintf`
    fails, when the clock fails, when `gf_asprintf` fails, or when there is
    no context; `_gf_msg_nomem` writes nothing when `fileno` returns -1; and
    `_gf_log` with a rotation pending whose probe fails returns -1 without
    writing an Alert(2) record that passes the gate (global Info, override
    Critical(3), which suppresses the Error report of the failure);
    `_gf_msg_backtrace_nomem` with logger glusterlog writes nothing when no
    frame was captured.  In the other direction, `_gf_msg` with a `NULL`
    domain prints its complaint on stderr for a Debug(8) call that the
    predicate rejects, the argument check coming before the gate. -/
theorem C28_gate_passes_without_emission :
    (gate_spec GF_LOG_ERROR GF_LOG_INFO false 0 ∧
      _gf_msg_backtrace_nomem env_sample (xl_with_level 0) GF_LOG_ERROR 5
          (world_of (ctx_sample gf_logger_syslog gf_logformat_withmsgid true (some 4))) =
        world_of (ctx_sample gf_logger_syslog gf_logformat_withmsgid true (some 4)) ∧
      ¬ (world_of (ctx_sample gf_logger_syslog gf_logformat_withmsgid true (some 4))).emits
        (_gf_msg_backtrace_nomem env_sample (xl_with_level 0) GF_LOG_ERROR 5
          (world_of (ctx_sample gf_logger_syslog gf_logformat_withmsgid true (some 4))))) ∧
    _gf_msg { env_sample with vasprintf_ok := false } (xl_with_level 0)
        (some (ascii "glusterd")) (some (ascii "/src/glusterd-op-sm.c"))
        (some (ascii "glusterd_op_commit")) 120 GF_LOG_ERROR 0 false 106001
        (some (ascii "commit failed"))
        (world_of (ctx_sample gf_logger_glusterlog gf_logformat_withmsgid false (some 4))) =
      (-1, world_of (ctx_sample gf_logger_glusterlog gf_logformat_withmsgid false (some 4))) ∧
    _gf_msg { env_sample with gettimeofday := none } (xl_with_level 0)
        (some (ascii "glusterd")) (some (ascii "/src/glusterd-op-sm.c"))
        (some (ascii "glusterd_op_commit")) 120 GF_LOG_ERROR 0 false 106001
        (some (ascii "commit failed"))
        (world_of (ctx_sample gf_logger_glusterlog gf_logformat_withmsgid false (some 4))) =
      (-1, world_of (ctx_sample gf_logger_glusterlog gf_logformat_withmsgid false (some 4))) ∧
    _gf_msg { env_sample with gf_asprintf_ok := false } (xl_with_level 0)
        (some (ascii "glusterd")) (some (ascii "/src/glusterd-op-sm.c"))
        (some (ascii "glusterd_op_commit")) 120 GF_LOG_ERROR 0 false 106001
        (some (ascii "commit failed"))
        (world_of (ctx_sample gf_logger_glusterlog gf_logformat_withmsgid false (some 4))) =
      (-1, world_of (ctx_sample gf_logger_glusterlog gf_logformat_withmsgid false (some 4))) ∧
    _gf_msg env_sample { xl_with_level 0 with has_ctx := false }
        (some (ascii "glusterd")) (some (ascii "/src/glusterd-op-sm.c"))
        (some (ascii "glusterd_op_commit")) 120 GF_LOG_ERROR 0 false 106001
        (some (ascii "commit failed"))
        (world_of (ctx_sample gf_logger_glusterlog gf_logformat_withmsgid false (some 4))) =
      (-1, world_of (ctx_sample gf_logger_glusterlog gf_logformat_withmsgid false (some 4))) ∧
    (_gf_msg_nomem { env_sample with fileno := fun _ => -1 } (xl_with_level 0)
        (some (ascii "glusterd")) (some (ascii "/src/mem-pool.c")) (some (ascii "__gf_malloc"))
        90 GF_LOG_ERROR 4096
        (world_of (ctx_sample gf_logger_glusterlog gf_logformat_withmsgid false (some 4)))).2 =
      world_of (ctx_sample gf_logger_glusterlog gf_logformat_withmsgid false (some 4)) ∧
    (gate_spec GF_LOG_ALERT GF_LOG_INFO true GF_LOG_CRITICAL ∧
      _gf_log env_probe_fails (xl_with_level GF_LOG_CRITICAL) (some (ascii "glusterd"))
          (some (ascii "/src/glusterd-op-sm.c")) (some (ascii "glusterd_op_commit")) 120
          GF_LOG_ALERT (some (ascii "commit failed")) (world_of ctx_rotation_pending_override) =
        (-1, { log := { ctx_rotation_pending_override with logrotate := false },
               out := [Event.open_probe (some (ascii "/var/log/glusterfs/glusterd.log"))] })) ∧
    _gf_msg_backtrace_nomem env_no_frames (xl_with_level 0) GF_LOG_ERROR 5
        (world_of (ctx_sample gf_logger_glusterlog gf_logformat_withmsgid false (some 4))) =
      world_of (ctx_sample gf_logger_glusterlog gf_logformat_withmsgid false (some 4)) ∧
    (¬ gate_spec GF_LOG_DEBUG GF_LOG_INFO false 0 ∧
      _gf_msg env_sample (xl_with_level 0) none (some (ascii "/src/glusterd-op-sm.c"))
          (some (ascii "glusterd_op_commit")) 120 GF_LOG_DEBUG 0 false 106001
          (some (ascii "commit failed"))
          (world_of (ctx_sample gf_logger_glusterlog gf_logformat_withmsgid false (some 4))) =
        (-1, { log := ctx_sample gf_logger_glusterlog gf_logformat_withmsgid false (some 4),
               out := [Event.fprintf_stderr
                 (ascii "logging: logging.c:_gf_msg():1415: invalid argument\n")] })) := by
  refine ⟨⟨by unfold gate_spec; decide, by decide, ?_⟩, by decide, by decide, by decide,
    by decide, by decide, ⟨by unfold gate_spec; decide, ?_⟩, by decide,
    ⟨by unfold gate_spec; decide, by decide⟩⟩
  · rw [show _gf_msg_backtrace_nomem env_sample (xl_with_level 0) GF_LOG_ERROR 5
        (world_of (ctx_sample gf_logger_syslog gf_logformat_withmsgid true (some 4))) =
      world_of (ctx_sample gf_logger_syslog gf_logformat_withmsgid true (some 4)) from by decide]
    exact not_emits_self _
  · rw [gf_log_probe_fails _ _ _ _ _ _ _ _ _ (by decide) rfl rfl rfl]
    decide

/-- C28 (amended): for every requested level L, context (global level G,
    override flag f) and component (override O), the gate passes iff
    `L <= G` and (f is unset or O is None(0) or `L <= O`) (`gate_spec`).
    When that fails, a call of any entry point (`_gf_msg`, `_gf_log`,
    `_gf_log_callingfn`, `_gf_msg_plain`, `_gf_msg_vplain`,
    `_gf_msg_plain_nomem`, `_gf_msg_nomem`, `_gf_msg_backtrace_nomem`) with
    non-`NULL` arguments has no effect, with no side condition.  When it
    holds, each of the first seven emits (adds records and nothing else)
    provided the context is initialised, the clock and the allocations
    answer, no rotation is pending and the descriptor is valid, and
    `_gf_msg_backtrace_nomem` emits provided also the logger is glusterlog
    and a frame was captured.  Consequently an active override other than
    None makes the threshold `min (G, O)`, no record above the global level
    passes, an override of None is no override, the gate is monotone in the
    level, and after `gf_log_set_xl_loglevel (this, O)` the gate is `L <= G`
    and (O is None or `L <= O`). -/
theorem C28_entry_points_amended (env : Env) (this : xlator_t) (L : Nat) (w : World)
    (domain file function fmt : Bytes) (line : Int) (errnum : Int) (trace : Bool)
    (msgid size : Nat) (stacksize : Int) :
    (_gf_msg_should_log w.log this L = true ↔
      gate_spec L w.log.loglevel w.log.gf_log_xl_log_set this.loglevel) ∧
    (¬ gate_spec L w.log.loglevel w.log.gf_log_xl_log_set this.loglevel →
      (_gf_msg env this (some domain) (some file) (some function) line L errnum trace msgid
        (some fmt) w).2 = w ∧
      _gf_log env this (some domain) (some file) (some function) line L (some fmt) w =
        (0, w) ∧
      _gf_log_callingfn env this (some domain) (some file) (some function) line L (some fmt)
        w = (0, w) ∧
      _gf_msg_plain env this L fmt w = (0, w) ∧
      _gf_msg_vplain env this L fmt w = (0, w) ∧
      _gf_msg_plain_nomem this L fmt w = (0, w) ∧
      _gf_msg_nomem env this (some domain) (some file) (some function) line L size w =
        (0, w) ∧
      _gf_msg_backtrace_nomem env this L stacksize w = w) ∧
    (gate_spec L w.log.loglevel w.log.gf_log_xl_log_set this.loglevel →
      this.has_ctx = true → env.gettimeofday ≠ none → env.gf_asprintf_ok = true →
      env.vasprintf_ok = true → w.log.logrotate = false →
      env.fileno w.log.logfile ≠ -1 →
      w.emits (_gf_msg env this (some domain) (some file) (some function) line L errnum trace
        msgid (some fmt) w).2 ∧
      w.emits (_gf_log env this (some domain) (some file) (some function) line L (some fmt)
        w).2 ∧
      w.emits (_gf_log_callingfn env this (some domain) (some file) (some function) line L
        (some fmt) w).2 ∧
      w.emits (_gf_msg_plain env this L fmt w).2 ∧
      w.emits (_gf_msg_vplain env this L fmt w).2 ∧
      w.emits (_gf_msg_plain_nomem this L fmt w).2 ∧
      w.emits (_gf_msg_nomem env this (some domain) (some file) (some function) line L size
        w).2 ∧
      (w.log.logger = gf_logger_glusterlog →
        env.backtrace (if stacksize ≤ 200 then stacksize else 200) ≠ 0 →
        w.emits (_gf_msg_backtrace_nomem env this L stacksize w))) ∧
    (∀ G O : Nat, O ≠ 0 → (gate_spec L G true O ↔ L ≤ min G O)) ∧
    (∀ (G O : Nat) (f : Bool), gate_spec L G f O → L ≤ G) ∧
    (∀ (G : Nat) (f : Bool), gate_spec L G f 0 ↔ L ≤ G) ∧
    (∀ (G O L1 : Nat) (f : Bool), L1 ≤ L → gate_spec L G f O → gate_spec L1 G f O) ∧
    (∀ O : Nat, ∃ xl w1, gf_log_set_xl_loglevel (some this) O w = (some xl, w1) ∧
      w1.log.gf_log_xl_log_set = true ∧ xl.loglevel = O ∧
      w1.log.loglevel = w.log.loglevel ∧
      (_gf_msg_should_log w1.log xl L = true ↔ L ≤ w.log.loglevel ∧ (O = 0 ∨ L ≤ O))) := by
  have hg := gf_msg_should_log_iff w.log this L
  refine ⟨hg, ?_, ?_, ?_, ?_, ?_, ?_, ?_⟩
  · intro hn
    have hgate : _gf_msg_should_log w.log this L = false := by
      cases h : _gf_msg_should_log w.log this L with
      | false => rfl
      | true => exact absurd (hg.mp h) hn
    exact entry_points_suppressed env this L w domain file function fmt line errnum trace msgid
      size stacksize hgate
  · intro hpass hctx hclock halloc hv hrot hfd
    have hgate := hg.mpr hpass
    obtain ⟨tv, htv⟩ : ∃ tv, env.gettimeofday = some tv := by
      cases h : env.gettimeofday with
      | none => exact absurd h hclock
      | some tv => exact ⟨tv, rfl⟩
    refine ⟨⟨gf_msg_out_no_rotate env this domain file function fmt line L errnum trace msgid w
        hrot,
        (gf_msg_emits_iff env this domain file function fmt line L errnum trace msgid w tv hctx
          htv halloc hv hrot).mpr hgate⟩,
      ⟨?_, (gf_log_emits_iff env this domain file function fmt line L w tv htv halloc hv
          hrot).mpr hgate⟩,
      ⟨gf_log_callingfn_out env this domain file function fmt line L w,
        (gf_log_callingfn_emits_iff env this domain file function fmt line L w tv htv halloc
          hv).mpr hgate⟩,
      ⟨gf_msg_plain_out env this L fmt w, (gf_msg_plain_emits_iff env this L fmt w hctx hv).mpr
        hgate⟩,
      ⟨gf_msg_vplain_out env this L fmt w,
        (gf_msg_vplain_emits_iff env this L fmt w hctx hv).mpr hgate⟩,
      ⟨gf_msg_plain_nomem_out this L fmt w,
        (gf_msg_plain_nomem_emits_iff this L fmt w hctx).mpr hgate⟩,
      ⟨?_, (gf_msg_nomem_emits_iff env this domain file function line L size w tv hctx htv
          hfd).mpr hgate⟩, ?_⟩
    · rw [gf_log_eq_flag_clear env this domain file function line L fmt w hrot]
      exact gf_log_flag_clear_out env this domain file function line L fmt w
    · by_cases hsel : w.log.logger = gf_logger_syslog ∧ w.log.log_control_file_found = true ∧
        w.log.gf_log_syslog = true
      · rw [gf_msg_nomem_syslog env this domain file function line L size w tv hctx hgate htv
          hsel]
        exact adds_output_emit w _ rfl
      · exact adds_output_trans
          (adds_output_emit w (.write_fd (env.fileno w.log.logfile)
            ((nomem_line (timestamp env tv) domain (GET_FILE_NAME_TO_LOG file) function line L
              size).take 2047)) rfl)
          (gf_msg_nomem_file env this domain file function line L size w tv hctx hgate htv
            hsel hfd)
    · intro hlogger hbt
      rw [gf_msg_backtrace_nomem_written env this L stacksize w hctx hgate hlogger hbt hfd]
      exact emits_emit w _ rfl
  · intro G O hO
    unfold gate_spec
    simp only [Bool.true_eq_false, false_or, hO, le_min_iff]
  · intro G O f h
    exact h.1
  · intro G f
    unfold gate_spec
    simp
  · intro G O L1 f hle h
    unfold gate_spec at *
    obtain ⟨h1, h2⟩ := h
    refine ⟨by omega, ?_⟩
    rcases h2 with h2 | h2 | h2
    · exact Or.inl h2
    · exact Or.inr (Or.inl h2)
    · exact Or.inr (Or.inr (by omega))
  · intro O
    refine ⟨{ this with loglevel := O },
      { w with log := { w.log with gf_log_xl_log_set := true } }, rfl, rfl, rfl, rfl, ?_⟩
    rw [gf_msg_should_log_iff]
    unfold gate_spec
    simp

/-- C28 (amended), witness: global level Info(7), override flag set,
    override Warning(5), no log file.  The predicate holds for Error(4) and
    fails for Notice(6); an Error call of `_gf_msg`, of `_gf_log` and of
    `_gf_msg_backtrace_nomem` emits, the `_gf_msg` record going to stderr;
    a Notice call of `_gf_msg` and of `_gf_log` has no effect. -/
theorem C28_entry_points_amended_witness :
    (gate_spec GF_LOG_ERROR GF_LOG_INFO true GF_LOG_WARNING ∧
      ¬ gate_spec GF_LOG_NOTICE GF_LOG_INFO true GF_LOG_WARNING ∧
      (xl_with_level GF_LOG_WARNING).has_ctx = true ∧ env_sample.gettimeofday ≠ none ∧
      env_sample.gf_asprintf_ok = true ∧ env_sample.vasprintf_ok = true ∧
      (world_of (ctx_with_level GF_LOG_INFO true)).log.logrotate = false ∧
      env_sample.fileno (world_of (ctx_with_level GF_LOG_INFO true)).log.logfile ≠ -1 ∧
      (world_of (ctx_with_level GF_LOG_INFO true)).log.logger = gf_logger_glusterlog ∧
      env_sample.backtrace (if (5 : Int) ≤ 200 then 5 else 200) ≠ 0) ∧
    ((world_of (ctx_with_level GF_LOG_INFO true)).emits
        (_gf_msg env_sample (xl_with_level GF_LOG_WARNING) (some (ascii "glusterd"))
          (some (ascii "/src/glusterd-op-sm.c")) (some (ascii "glusterd_op_commit")) 120
          GF_LOG_ERROR 0 false 106001 (some (ascii "commit failed"))
          (world_of (ctx_with_level GF_LOG_INFO true))).2 ∧
      (world_of (ctx_with_level GF_LOG_INFO true)).emits
        (_gf_log env_sample (xl_with_level GF_LOG_WARNING) (some (ascii "glusterd"))
          (some (ascii "/src/glusterd-op-sm.c")) (some (ascii "glusterd_op_commit")) 120
          GF_LOG_ERROR (some (ascii "commit failed"))
          (world_of (ctx_with_level GF_LOG_INFO true))).2 ∧
      (world_of (ctx_with_level GF_LOG_INFO true)).emits
        (_gf_msg_backtrace_nomem env_sample (xl_with_level GF_LOG_WARNING) GF_LOG_ERROR 5
          (world_of (ctx_with_level GF_LOG_INFO true)))) ∧
    ((_gf_msg env_sample (xl_with_level GF_LOG_WARNING) (some (ascii "glusterd"))
          (some (ascii "/src/glusterd-op-sm.c")) (some (ascii "glusterd_op_commit")) 120
          GF_LOG_NOTICE 0 false 106001 (some (ascii "commit failed"))
          (world_of (ctx_with_level GF_LOG_INFO true))).2 =
        world_of (ctx_with_level GF_LOG_INFO true) ∧
      _gf_log env_sample (xl_with_level GF_LOG_WARNING) (some (ascii "glusterd"))
          (some (ascii "/src/glusterd-op-sm.c")) (some (ascii "glusterd_op_commit")) 120
          GF_LOG_NOTICE (some (ascii "commit failed"))
          (world_of (ctx_with_level GF_LOG_INFO true)) =
        (0, world_of (ctx_with_level GF_LOG_INFO true))) ∧
    (_gf_msg env_sample (xl_with_level GF_LOG_WARNING) (some (ascii "glusterd"))
        (some (ascii "/src/glusterd-op-sm.c")) (some (ascii "glusterd_op_commit")) 120
        GF_LOG_ERROR 0 false 106001 (some (ascii "commit failed"))
        (world_of (ctx_with_level GF_LOG_INFO true))).2.out =
      [Event.fprintf_stderr (ascii ("[2014-03-01 10:20:30.000034] E [MSGID: 106001] " ++
        "[glusterd-op-sm.c:120:glusterd_op_commit] 0-glusterd: commit failed\n"))] := by
  have hpass : gate_spec GF_LOG_ERROR GF_LOG_INFO true GF_LOG_WARNING := by
    unfold gate_spec; decide
  have hfail : ¬ gate_spec GF_LOG_NOTICE GF_LOG_INFO true GF_LOG_WARNING := by
    unfold gate_spec; decide
  have he := (C28_entry_points_amended env_sample (xl_with_level GF_LOG_WARNING) GF_LOG_ERROR
    (world_of (ctx_with_level GF_LOG_INFO true)) (ascii "glusterd")
    (ascii "/src/glusterd-op-sm.c") (ascii "glusterd_op_commit") (ascii "commit failed") 120 0
    false 106001 4096 5).2.2.1 hpass rfl (by decide) rfl rfl rfl (by decide)
  have hs := (C28_entry_points_amended env_sample (xl_with_level GF_LOG_WARNING) GF_LOG_NOTICE
    (world_of (ctx_with_level GF_LOG_INFO true)) (ascii "glusterd")
    (ascii "/src/glusterd-op-sm.c") (ascii "glusterd_op_commit") (ascii "commit failed") 120 0
    false 106001 4096 5).2.1 hfail
  exact ⟨⟨hpass, hfail, rfl, by decide, rfl, rfl, rfl, by decide, rfl, by decide⟩,
    ⟨he.1, he.2.1, he.2.2.2.2.2.2.2 rfl (by decide)⟩, ⟨hs.1, hs.2.1⟩, by decide⟩

end Logging
